import Mathlib

/-!
# provider-signoz: reconciliation engine

A shallow embedding of the controllers of `internal/controller/{alert,dashboard,channel}`
and of the REST client of `internal/clients/signoz.go`.

Conventions of the embedding:

* a Go `string` is a `String`; `strings.Contains` is the infix test on its characters;
* a Go `error` is its message (`err.Error()`), a nil-able error is an `Option String`;
  `errors.Wrap(err, msg)` has the message `msg ++ ": " ++ err`;
* a Go slice is a `List` (nil and empty are the same list);
* a Go `map[string]T` is a `GoMap T`: a list of entries with pairwise different keys; a nil
  map is the empty one, except where the code branches on `== nil` with different outcomes,
  where the map is wrapped in an `Option`;
* a pointer field `*T` is an `Option T`;
* a `map[string]interface{}` payload is an `Obj`, a list of key/`Value` entries;
* the record store (`c.kube`) and the remote system (`c.httpClient.Do`) are functions given
  as parameters; every controller operation returns the record it leaves behind, its result
  and the list of requests it sent through `c.httpClient.Do`.
-/

namespace Signoz

/-! ## Strings, errors, maps -/

/-- Go `strings.Contains(s, substr)`. -/
def strContains (s substr : String) : Bool :=
  decide (substr.data <:+: s.data)

/-- Go `strings.TrimSuffix(s, suffix)`: `s` without the trailing `suffix`, when it ends with
it, and `s` itself otherwise. -/
def trimSuffix (s suffix : String) : String :=
  if suffix.data <:+ s.data then String.mk (s.data.take (s.data.length - suffix.data.length))
  else s

/-- Message of `errors.Wrap(err, msg)` (and of `errors.Wrapf`). -/
def wrap (err msg : String) : String :=
  msg ++ ": " ++ err

/-- Outcome of a call that in Go returns `(value, error)` and may dereference a nil pointer. -/
inductive Result (α : Type) where
  | ok (a : α)
  | error (msg : String)
  | panic

/-- A Go `map[string]T`: entries with pairwise different keys. -/
structure GoMap (α : Type) where
  entries : List (String × α)
  nodupKeys : (entries.map Prod.fst).Nodup

namespace GoMap

variable {α : Type}

/-- The empty (or nil) map. -/
def empty : GoMap α :=
  ⟨[], List.nodup_nil⟩

/-- Go `len(m)`. -/
def len (m : GoMap α) : Nat :=
  m.entries.length

/-- Go `v, ok := m[k]`. -/
def find? (m : GoMap α) (k : String) : Option α :=
  m.entries.lookup k

/-- Go `m[k]` on a `map[string]string`: the zero value `""` for a missing key. -/
def index (m : GoMap String) (k : String) : String :=
  (m.find? k).getD ""

/-- Go `m[k] = v`: the entry for `k` is replaced, the other entries stay. -/
def set (m : GoMap α) (k : String) (v : α) : GoMap α :=
  ⟨(k, v) :: m.entries.filter (fun e => e.1 != k), by
    rw [List.map_cons, List.nodup_cons]
    constructor
    · intro h
      obtain ⟨e, he, hk⟩ := List.mem_map.mp h
      have := (List.mem_filter.mp he).2
      simp [hk] at this
    · exact (m.nodupKeys.sublist ((List.filter_sublist _).map Prod.fst))⟩

end GoMap

/-- The annotation that carries the external identifier of a record. -/
def externalNameKey : String :=
  "crossplane.io/external-name"

/-- The external-name annotation of a record is absent or empty. -/
def noExternalName (annotations : GoMap String) : Prop :=
  annotations.find? externalNameKey = none ∨ annotations.find? externalNameKey = some ""

/-- A float64 that the code only copies: its bit pattern. -/
structure Float64 where
  bits : Nat
  deriving DecidableEq

/-- A `metav1.Time`. -/
structure Time where
  unixNano : Int
  deriving DecidableEq

/-- A Go `interface{}` value as the controllers build them. -/
inductive Value where
  | str (s : String)
  | bool (b : Bool)
  | int (i : Int)
  | float (f : Float64)
  | strPtr (p : Option String)
  | strs (l : List String)
  | list (l : List Value)
  | obj (m : List (String × Value))

/-- A Go `map[string]interface{}`. -/
abbrev Obj := List (String × Value)

/-- Go `m[k] = v` on a `map[string]interface{}`. -/
def Obj.set (m : Obj) (k : String) (v : Value) : Obj :=
  m.filter (fun e => e.1 != k) ++ [(k, v)]

/-- Go `v, ok := m[k]` on a `map[string]interface{}`. -/
def Obj.find? (m : Obj) (k : String) : Option Value :=
  List.lookup k m

/-- An `if p != nil { m[k] = *p }` step on a `*string` field. -/
def setStr (m : Obj) (k : String) (p : Option String) : Obj :=
  match p with
  | some v => m.set k (.str v)
  | none => m

/-- An `if p != nil { m[k] = *p }` step on a `*bool` field. -/
def setBool (m : Obj) (k : String) (p : Option Bool) : Obj :=
  match p with
  | some v => m.set k (.bool v)
  | none => m

/-! ## API types (`apis/...`): every field defaults to its Go zero value -/

/-- An `xpv1.Reference`. -/
structure Reference where
  Name : String := ""

/-- An `xpv1.Selector`; `MatchLabels` is `none` for a nil map. -/
structure Selector where
  MatchLabels : Option (GoMap String) := none

/-- An `xpv1.SecretKeySelector`. -/
structure SecretKeySelector where
  Name : String := ""
  Namespace : String := ""
  Key : String := ""

structure AlertPromQuery where
  Query : String := ""
  Name : String := ""
  Legend : String := ""
  Disabled : Bool := false

structure AlertClickHouseQuery where
  Query : String := ""
  Name : String := ""
  Legend : String := ""
  Disabled : Bool := false

structure KeyAttribute where
  Key : String := ""
  Type_ : String := ""
  DataType : String := ""

structure FilterItem where
  Key : KeyAttribute := {}
  Op : String := ""
  Value : Option String := none

structure FilterSet where
  Operator : String := ""
  Items : List FilterItem := []

structure Having where
  ColumnName : String := ""
  Op : String := ""
  Value : Option String := none

structure OrderBy where
  ColumnName : String := ""
  Order : String := ""

structure QueryBuilder where
  DataSource : String := ""
  AggregateOperator : String := ""
  AggregateAttribute : Option KeyAttribute := none
  Filters : Option FilterSet := none
  GroupBy : List KeyAttribute := []
  Having : List Having := []
  OrderBy : List OrderBy := []
  Limit : Option Int := none
  Offset : Option Int := none

structure CompositeQuery where
  QueryType : Int := 0
  PromQL : List AlertPromQuery := []
  ClickHouse : List AlertClickHouseQuery := []
  Builder : Option QueryBuilder := none
  Expression : String := ""

structure RuleCondition where
  CompositeQuery : CompositeQuery := {}
  CompareOp : String := ""
  Target : Option Float64 := none
  MatchType : Option Int := none

structure AlertParameters where
  AlertName : String := ""
  AlertType : String := ""
  Condition : RuleCondition := {}
  EvalWindow : String := ""
  Frequency : String := ""
  Severity : String := ""
  Labels : GoMap String := GoMap.empty
  Annotations : GoMap String := GoMap.empty
  PreferredChannels : List String := []
  ChannelIDsRef : List Reference := []
  ChannelIDsSelector : Option Selector := none
  Disabled : Bool := false

structure AlertObservation where
  ID : String := ""
  State : String := ""
  LastFiredTime : Option Time := none
  CreatedAt : Option Time := none
  UpdatedAt : Option Time := none
  ResolvedChannelIDs : List String := []

/-- An `Alert` record: metadata annotations, `spec.providerConfigRef`, `spec.forProvider`,
`status.atProvider`. -/
structure Alert where
  annotations : GoMap String := GoMap.empty
  providerConfigRef : Option Reference := none
  forProvider : AlertParameters := {}
  atProvider : AlertObservation := {}

structure SlackConfig where
  Channel : String := ""
  WebhookURL : Option String := none
  WebhookURLSecretRef : Option SecretKeySelector := none
  Title : Option String := none
  SendResolved : Option Bool := none

structure WebhookConfig where
  URL : Option String := none
  URLSecretRef : Option SecretKeySelector := none
  Method : Option String := none
  MaxAlerts : Option Int := none
  SendResolved : Option Bool := none

structure PagerDutyConfig where
  RoutingKey : Option String := none
  RoutingKeySecretRef : Option SecretKeySelector := none
  ServiceKey : Option String := none
  ServiceKeySecretRef : Option SecretKeySelector := none
  Severity : Option String := none
  SendResolved : Option Bool := none

structure EmailConfig where
  To : List String := []
  SendResolved : Option Bool := none

structure OpsGenieConfig where
  APIKey : Option String := none
  APIKeySecretRef : Option SecretKeySelector := none
  Priority : Option String := none
  SendResolved : Option Bool := none

structure MSTeamsConfig where
  WebhookURL : Option String := none
  WebhookURLSecretRef : Option SecretKeySelector := none
  Title : Option String := none
  SendResolved : Option Bool := none

structure SNSConfig where
  TopicARN : String := ""
  Region : String := ""
  AccessKeySecretRef : Option SecretKeySelector := none
  SecretKeySecretRef : Option SecretKeySelector := none
  SendResolved : Option Bool := none

structure NotificationChannelParameters where
  Name : String := ""
  Type_ : String := ""
  SlackConfigs : List SlackConfig := []
  WebhookConfigs : List WebhookConfig := []
  PagerDutyConfigs : List PagerDutyConfig := []
  EmailConfigs : List EmailConfig := []
  OpsGenieConfigs : List OpsGenieConfig := []
  MSTeamsConfigs : List MSTeamsConfig := []
  SNSConfigs : List SNSConfig := []

structure NotificationChannelObservation where
  ID : Int := 0
  CreatedAt : Option Time := none
  UpdatedAt : Option Time := none

/-- A `NotificationChannel` record. -/
structure NotificationChannel where
  annotations : GoMap String := GoMap.empty
  providerConfigRef : Option Reference := none
  forProvider : NotificationChannelParameters := {}
  atProvider : NotificationChannelObservation := {}

structure Layout where
  I : String := ""
  X : Int := 0
  Y : Int := 0
  W : Int := 0
  H : Int := 0
  Moved : Bool := false
  Static : Bool := false

structure PromQuery where
  Query : String := ""
  Name : Option String := none
  Legend : Option String := none
  Disabled : Bool := false

structure ClickHouseQuery where
  Query : String := ""
  Name : Option String := none
  Legend : Option String := none
  Disabled : Bool := false

structure DashboardQueryBuilder where
  Name : String := ""
  MetricName : String := ""
  AggregateOperator : Option String := none
  GroupBy : List String := []
  Legend : Option String := none
  Disabled : Bool := false

structure MetricsBuilder where
  QueryBuilder : List DashboardQueryBuilder := []
  Formulas : List String := []

structure Query where
  QueryType : Int := 0
  PromQL : List PromQuery := []
  ClickHouse : List ClickHouseQuery := []
  Builder : Option MetricsBuilder := none

structure Widget where
  ID : String := ""
  Title : String := ""
  Description : Option String := none
  PanelType : String := ""
  Query : Query := {}
  IsStacked : Option Bool := none
  NullZeroValues : Option String := none
  YAxisUnit : Option String := none
  TimePreference : Option String := none

structure Variable where
  Type_ : String := ""
  Description : Option String := none
  QueryValue : Option String := none
  CustomValue : Option String := none
  TextboxValue : Option String := none
  MultiSelect : Bool := false
  ShowAllOption : Bool := false
  SelectedValue : Option String := none
  Sort_ : Option String := none

/-- The `Variables` field is `none` for a nil map (`convertVariables` branches on it). -/
structure DashboardParameters where
  Title : String := ""
  Description : Option String := none
  Tags : List String := []
  Layout : List Layout := []
  Widgets : List Widget := []
  Variables : Option (GoMap Variable) := none

structure DashboardObservation where
  ID : String := ""
  UUID : String := ""
  CreatedAt : Option Time := none
  UpdatedAt : Option Time := none

/-- A `Dashboard` record. -/
structure Dashboard where
  annotations : GoMap String := GoMap.empty
  providerConfigRef : Option Reference := none
  forProvider : DashboardParameters := {}
  atProvider : DashboardObservation := {}

/-- Modelled from the spec: the credentials part of a `ProviderConfig` (`apis/v1beta1`, not
among the sources): the credentials source and the secret it may point to. Only the
credential extractor reads it. -/
structure ProviderCredentials where
  Source : String := ""
  SecretRef : Option SecretKeySelector := none

/-- Modelled from the spec: the `ProviderConfig` record of `apis/v1beta1` (not among the
sources): an optional `endpoint` and the `credentials` source. -/
structure ProviderConfig where
  Endpoint : Option String := none
  Credentials : ProviderCredentials := {}

/-! ## Client payloads (`internal/clients/signoz.go`) -/

namespace clients

/-- Source: `DashboardData`; `Variables` is `none` for a nil map. -/
structure DashboardData where
  ID : String := ""
  UUID : String := ""
  Title : String := ""
  Description : String := ""
  Tags : List String := []
  Layout : List Value := []
  Widgets : List Value := []
  Variables : Option Obj := none
  CreatedAt : String := ""
  UpdatedAt : String := ""

/-- Source: `RuleData`. -/
structure RuleData where
  ID : String := ""
  AlertName : String := ""
  AlertType : String := ""
  RuleType : String := ""
  EvalWindow : String := ""
  Frequency : String := ""
  Condition : Obj := []
  Labels : GoMap String := GoMap.empty
  Annotations : GoMap String := GoMap.empty
  PreferredChannels : List String := []
  Disabled : Bool := false
  Version : String := ""
  CreatedAt : String := ""
  UpdatedAt : String := ""
  State : String := ""

/-- Source: `ChannelData`. -/
structure ChannelData where
  ID : Int := 0
  CreatedAt : String := ""
  UpdatedAt : String := ""
  Name : String := ""
  Type_ : String := ""
  Data : Obj := []

end clients

/-! ## The REST client (`internal/clients/signoz.go`) -/

namespace clients

/-- Source: `Config`. -/
structure Config where
  BaseURL : String := ""
  APIKey : String := ""

/-- An `http.Response` as `doRequest` and `parseResponse` read it: `StatusCode`, `Status`
(the status line after the protocol version), the bytes `io.ReadAll(resp.Body)` yields and
the error it ends with, if any. -/
structure Response where
  StatusCode : Nat := 200
  Status : String := "200 OK"
  Body : String := ""
  ReadErr : Option String := none

/-- The `body interface{}` argument of `doRequest`. -/
inductive Payload where
  | none
  | dashboard (d : DashboardData)
  | rule (r : RuleData)
  | channel (c : ChannelData)

/-- The request `doRequest` hands to `c.httpClient.Do`; `apiKey` is the `SIGNOZ-API-KEY`
header. -/
structure Request where
  method : String
  url : String
  apiKey : String
  body : Payload

/-- Source: `Client`. The remote system is `httpDo` (`c.httpClient.Do`);
`newRequestErr method url` is the error of `http.NewRequestWithContext`, if any; the
`unmarshal*` functions are `json.Unmarshal` into a zero `*Response` value, read at `.Data`
(`none` for a nil pointer). `json.Marshal` does not fail on the payload types. -/
structure Client where
  config : Config := {}
  newRequestErr : String → String → Option String := fun _ _ => Option.none
  httpDo : Request → Except String Response
  unmarshalDashboard : String → Except String (Option DashboardData) := fun _ => .ok Option.none
  unmarshalRule : String → Except String (Option RuleData) := fun _ => .ok Option.none
  unmarshalChannel : String → Except String (Option ChannelData) := fun _ => .ok Option.none

/-- Source: `NewClient`. -/
def NewClient (cfg : Config) (httpDo : Request → Except String Response) : Client :=
  { config := cfg, httpDo := httpDo }

/-- The request `doRequest` builds: the URL is `BaseURL` followed by the path, the API key
goes into the header. -/
def requestOf (c : Client) (method path : String) (body : Payload) : Request :=
  { method := method, url := c.config.BaseURL ++ path, apiKey := c.config.APIKey, body := body }

/-- What `net/http` guarantees of a response it parsed: `Status` starts with the decimal
digits of `StatusCode`. -/
def Response.statusLineOk (r : Response) : Prop :=
  (toString r.StatusCode).data <+: r.Status.data

instance (r : Response) : Decidable r.statusLineOk :=
  inferInstanceAs (Decidable ((toString r.StatusCode).data <+: r.Status.data))

/-- The remote system answers the request of `doRequest c method path body` with `resp`:
the request can be built and `c.httpClient.Do` returns `resp` with no error. -/
def answers (c : Client) (method path : String) (body : Payload) (resp : Response) : Prop :=
  c.newRequestErr method (requestOf c method path body).url = Option.none ∧
    c.httpDo (requestOf c method path body) = .ok resp

/-- Source: `Client.doRequest`. Returns the response or the error, and the requests sent. -/
def doRequest (c : Client) (method path : String) (body : Payload) :
    Except String Response × List Request :=
  let req := requestOf c method path body
  match c.newRequestErr method req.url with
  | some err => (.error (wrap err "failed to create request"), [])
  | Option.none =>
    match c.httpDo req with
    | .error err => (.error (wrap err "failed to execute request"), [req])
    | .ok resp =>
      if resp.StatusCode ≥ 400 then
        (.error ("API error: " ++ resp.Status ++ " - " ++ resp.Body), [req])
      else
        (.ok resp, [req])

/-- Source: `parseResponse`, for a non-nil target `v` holding `zero`. -/
def parseResponse {α : Type} (unmarshal : String → Except String α) (resp : Response)
    (zero : α) : Except String α :=
  match resp.ReadErr with
  | some err => .error (wrap err "failed to read response body")
  | Option.none =>
    if resp.Body = "" then .ok zero
    else
      match unmarshal resp.Body with
      | .error err => .error (wrap err ("failed to unmarshal response: " ++ resp.Body))
      | .ok v => .ok v

/-- Source: `Client.CreateDashboard`. -/
def CreateDashboard (c : Client) (dashboard : DashboardData) :
    Except String (Option DashboardData) × List Request :=
  match doRequest c "POST" "/api/v1/dashboards" (.dashboard dashboard) with
  | (.error err, calls) => (.error err, calls)
  | (.ok resp, calls) => (parseResponse c.unmarshalDashboard resp Option.none, calls)

/-- Source: `Client.GetDashboard`. -/
def GetDashboard (c : Client) (id : String) :
    Except String (Option DashboardData) × List Request :=
  match doRequest c "GET" ("/api/v1/dashboards/" ++ id) .none with
  | (.error err, calls) => (.error err, calls)
  | (.ok resp, calls) => (parseResponse c.unmarshalDashboard resp Option.none, calls)

/-- Source: `Client.UpdateDashboard`. -/
def UpdateDashboard (c : Client) (id : String) (dashboard : DashboardData) :
    Except String (Option DashboardData) × List Request :=
  match doRequest c "PUT" ("/api/v1/dashboards/" ++ id) (.dashboard dashboard) with
  | (.error err, calls) => (.error err, calls)
  | (.ok resp, calls) => (parseResponse c.unmarshalDashboard resp Option.none, calls)

/-- Source: `Client.DeleteDashboard`. -/
def DeleteDashboard (c : Client) (id : String) : Option String × List Request :=
  match doRequest c "DELETE" ("/api/v1/dashboards/" ++ id) .none with
  | (.error err, calls) => (some err, calls)
  | (.ok _, calls) => (Option.none, calls)

/-- Source: `Client.CreateRule`. -/
def CreateRule (c : Client) (rule : RuleData) :
    Except String (Option RuleData) × List Request :=
  match doRequest c "POST" "/api/v1/rules" (.rule rule) with
  | (.error err, calls) => (.error err, calls)
  | (.ok resp, calls) => (parseResponse c.unmarshalRule resp Option.none, calls)

/-- Source: `Client.GetRule`. -/
def GetRule (c : Client) (id : String) : Except String (Option RuleData) × List Request :=
  match doRequest c "GET" ("/api/v1/rules/" ++ id) .none with
  | (.error err, calls) => (.error err, calls)
  | (.ok resp, calls) => (parseResponse c.unmarshalRule resp Option.none, calls)

/-- Source: `Client.UpdateRule`. -/
def UpdateRule (c : Client) (id : String) (rule : RuleData) :
    Except String (Option RuleData) × List Request :=
  match doRequest c "PUT" ("/api/v1/rules/" ++ id) (.rule rule) with
  | (.error err, calls) => (.error err, calls)
  | (.ok resp, calls) => (parseResponse c.unmarshalRule resp Option.none, calls)

/-- Source: `Client.DeleteRule`. -/
def DeleteRule (c : Client) (id : String) : Option String × List Request :=
  match doRequest c "DELETE" ("/api/v1/rules/" ++ id) .none with
  | (.error err, calls) => (some err, calls)
  | (.ok _, calls) => (Option.none, calls)

/-- Source: `Client.CreateChannel`. -/
def CreateChannel (c : Client) (channel : ChannelData) :
    Except String (Option ChannelData) × List Request :=
  match doRequest c "POST" "/api/v1/channels" (.channel channel) with
  | (.error err, calls) => (.error err, calls)
  | (.ok resp, calls) => (parseResponse c.unmarshalChannel resp Option.none, calls)

/-- Source: `Client.GetChannel`. -/
def GetChannel (c : Client) (id : String) :
    Except String (Option ChannelData) × List Request :=
  match doRequest c "GET" ("/api/v1/channels/" ++ id) .none with
  | (.error err, calls) => (.error err, calls)
  | (.ok resp, calls) => (parseResponse c.unmarshalChannel resp Option.none, calls)

/-- Source: `Client.UpdateChannel`. -/
def UpdateChannel (c : Client) (id : String) (channel : ChannelData) :
    Except String (Option ChannelData) × List Request :=
  match doRequest c "PUT" ("/api/v1/channels/" ++ id) (.channel channel) with
  | (.error err, calls) => (.error err, calls)
  | (.ok resp, calls) => (parseResponse c.unmarshalChannel resp Option.none, calls)

/-- Source: `Client.DeleteChannel`. -/
def DeleteChannel (c : Client) (id : String) : Option String × List Request :=
  match doRequest c "DELETE" ("/api/v1/channels/" ++ id) .none with
  | (.error err, calls) => (some err, calls)
  | (.ok _, calls) => (Option.none, calls)

/-- Source: `IsNotFound`. -/
def IsNotFound (err : Option String) : Bool :=
  match err with
  | Option.none => false
  | some msg => strContains msg "404" || strContains msg "not found"

end clients

/-! ## The record store and the controllers' shared types -/

/-- A `client.ListOption` as the alert controller builds it. -/
inductive ListOption where
  | MatchingLabels (m : GoMap String)

/-- The record store `c.kube`: `getChannel name` is `Get` of a `NotificationChannel` by
name, `listChannels opts` is `List` of `NotificationChannel`s (its `Items`),
`getSecret name ns` is `Get` of the `Secret` `ns/name` (its `Data`, values read as strings),
`getProviderConfig name` is `Get` of a `ProviderConfig` by name and `extractCredentials` is
`resource.CommonCredentialExtractor` over this store (the credential bytes or its error). -/
structure Kube where
  getChannel : String → Except String NotificationChannel
  listChannels : List ListOption → Except String (List NotificationChannel)
  getSecret : String → String → Except String (GoMap String) := fun _ _ => .ok GoMap.empty
  getProviderConfig : String → Except String ProviderConfig :=
    fun _ => .error "providerconfig not found"
  extractCredentials : ProviderCredentials → Except String String :=
    fun _ => .error "no credentials"

/-- The `external` client of a controller: the REST client, the record store and
`time.Parse(time.RFC3339, ·)` (`none` when it returns an error). -/
structure External where
  service : clients.Client
  kube : Kube
  parseRFC3339 : String → Option Time := fun _ => none

/-- Source: `managed.ExternalObservation`, the fields the controllers set. -/
structure ExternalObservation where
  ResourceExists : Bool := false
  ResourceUpToDate : Bool := false
  deriving DecidableEq

/-- What a controller operation leaves behind: the record, its result and the requests it
sent to the remote system. -/
structure Outcome (ρ α : Type) where
  record : ρ
  result : Result α
  calls : List clients.Request

/-- Source: `connector` of a controller: the record store, the usage tracker
`c.usage.Track` (its error, `none` for nil) and `newServiceFn`, with the two library
functions a connection needs: `json.Unmarshal` into `Credentials` (read at `APIKey`) and
`time.Parse(time.RFC3339, ·)`. -/
structure Connector (ρ : Type) where
  kube : Kube
  usage : ρ → Option String
  newServiceFn : clients.Config → clients.Client
  unmarshalCredentials : String → Except String String
  parseRFC3339 : String → Option Time := fun _ => none

namespace clients

def errNoProviderConfig : String := "no providerConfig specified"
def errGetProviderConfig : String := "cannot get providerConfig"
def errTrackUsage : String := "cannot track ProviderConfig usage"
def errExtractCredentials : String := "cannot extract credentials"
def errUnmarshalCredentials : String := "cannot unmarshal signoz credentials as JSON"

/-- Source: `GetConfig`. `pcRef` is `mg.GetProviderConfigReference()` (every record kind has
the method, so the `default` case of the type switch is not reached); `unmarshal` is
`json.Unmarshal(data, creds)` read at `creds.APIKey`; the tracker is the no-op `TrackerFn`,
which returns nil. -/
def GetConfig (kube : Kube) (unmarshal : String → Except String String)
    (pcRef : Option Reference) : Except String Config :=
  match pcRef with
  | Option.none => .error errGetProviderConfig
  | some ref =>
    match kube.getProviderConfig ref.Name with
    | .error err => .error (wrap err errGetProviderConfig)
    | .ok pc =>
      match kube.extractCredentials pc.Credentials with
      | .error err => .error (wrap err errExtractCredentials)
      | .ok data =>
        match unmarshal data with
        | .error err => .error (wrap err errUnmarshalCredentials)
        | .ok apiKey =>
          let endpoint := "https://api.signoz.cloud"
          let endpoint :=
            match pc.Endpoint with
            | some e => if e ≠ "" then e else endpoint
            | Option.none => endpoint
          .ok { BaseURL := trimSuffix endpoint "/", APIKey := apiKey }

end clients

/-! ## alert: helpers -/

namespace alert

/-- The loop of `removeDuplicates`: `keys` is the `map[string]bool` of items seen. -/
def removeDuplicatesLoop : List String → (String → Bool) → List String → List String
  | [], _, result => result
  | item :: rest, keys, result =>
    if !keys item then
      removeDuplicatesLoop rest (fun k => if k = item then true else keys k) (result ++ [item])
    else
      removeDuplicatesLoop rest keys result

/-- Source: `removeDuplicates` (alert.go). -/
def removeDuplicates (slice : List String) : List String :=
  removeDuplicatesLoop slice (fun _ => false) []

/-- Source: `mapsEqual` (alert.go). -/
def mapsEqual (a b : GoMap String) : Bool :=
  if a.len ≠ b.len then false
  else a.entries.all (fun e => b.index e.1 == e.2)

/-- Source: `isAlertUpToDate` (alert.go). -/
def isAlertUpToDate (spec : AlertParameters) (alert : clients.RuleData) : Bool :=
  if spec.AlertName ≠ alert.AlertName then false
  else if spec.AlertType ≠ alert.AlertType then false
  else if spec.EvalWindow ≠ alert.EvalWindow then false
  else if spec.Frequency ≠ alert.Frequency then false
  else if spec.Disabled ≠ alert.Disabled then false
  else if !mapsEqual spec.Labels alert.Labels then false
  else if !mapsEqual spec.Annotations alert.Annotations then false
  else true

/-- Source: `convertKeyAttribute` (alert.go). -/
def convertKeyAttribute (attr : KeyAttribute) : Obj :=
  let result : Obj := [("key", .str attr.Key), ("type", .str attr.Type_)]
  if attr.DataType ≠ "" then result.set "dataType" (.str attr.DataType) else result

/-- Source: `convertFilterSet` (alert.go). -/
def convertFilterSet (filterSet : FilterSet) : Obj :=
  let items : List Value := filterSet.Items.map fun item =>
    .obj [("key", .obj (convertKeyAttribute item.Key)), ("op", .str item.Op),
      ("value", .strPtr item.Value)]
  [("operator", .str filterSet.Operator), ("items", .list items)]

/-- Source: `convertQueryBuilder` (alert.go). -/
def convertQueryBuilder (builder : QueryBuilder) : Obj :=
  let result : Obj := [("dataSource", .str builder.DataSource)]
  let result :=
    if builder.AggregateOperator ≠ "" then
      result.set "aggregateOperator" (.str builder.AggregateOperator)
    else result
  let result :=
    match builder.AggregateAttribute with
    | some attr => result.set "aggregateAttribute" (.obj (convertKeyAttribute attr))
    | none => result
  let result :=
    match builder.Filters with
    | some filters => result.set "filters" (.obj (convertFilterSet filters))
    | none => result
  let result :=
    if builder.GroupBy.length > 0 then
      result.set "groupBy" (.list (builder.GroupBy.map fun gb => .obj (convertKeyAttribute gb)))
    else result
  let result :=
    if builder.Having.length > 0 then
      result.set "having" (.list (builder.Having.map fun h =>
        .obj [("columnName", .str h.ColumnName), ("op", .str h.Op), ("value", .strPtr h.Value)]))
    else result
  let result :=
    if builder.OrderBy.length > 0 then
      result.set "orderBy" (.list (builder.OrderBy.map fun ob =>
        .obj [("columnName", .str ob.ColumnName), ("order", .str ob.Order)]))
    else result
  let result :=
    match builder.Limit with
    | some limit => result.set "limit" (.int limit)
    | none => result
  match builder.Offset with
  | some offset => result.set "offset" (.int offset)
  | none => result

/-- Source: `convertCompositeQuery` (alert.go). -/
def convertCompositeQuery (query : CompositeQuery) : Obj :=
  let result : Obj := [("queryType", .int query.QueryType)]
  let result :=
    if query.PromQL.length > 0 then
      result.set "promQL" (.list (query.PromQL.map fun pq =>
        .obj [("query", .str pq.Query), ("name", .str pq.Name), ("legend", .str pq.Legend),
          ("disabled", .bool pq.Disabled)]))
    else result
  let result :=
    if query.ClickHouse.length > 0 then
      result.set "clickHouse" (.list (query.ClickHouse.map fun chq =>
        .obj [("query", .str chq.Query), ("name", .str chq.Name), ("legend", .str chq.Legend),
          ("disabled", .bool chq.Disabled)]))
    else result
  let result :=
    match query.Builder with
    | some builder => result.set "builder" (.obj (convertQueryBuilder builder))
    | none => result
  if query.Expression ≠ "" then result.set "expression" (.str query.Expression) else result

/-- Source: `convertCondition` (alert.go). -/
def convertCondition (condition : RuleCondition) : Obj :=
  let result : Obj := [("compositeQuery", .obj (convertCompositeQuery condition.CompositeQuery))]
  let result :=
    if condition.CompareOp ≠ "" then result.set "compareOp" (.str condition.CompareOp)
    else result
  let result :=
    match condition.Target with
    | some target => result.set "target" (.float target)
    | none => result
  match condition.MatchType with
  | some matchType => result.set "matchType" (.int matchType)
  | none => result

/-- The loop over `ChannelIDsRef` in `resolveChannelReferences`: the identifiers collected,
or the error of the first failing `Get`. -/
def resolveExplicitRefs (kube : Kube) : List Reference → List String → Except String (List String)
  | [], channelIDs => .ok channelIDs
  | ref :: rest, channelIDs =>
    if ref.Name ≠ "" then
      match kube.getChannel ref.Name with
      | .error err => .error (wrap err ("cannot get notification channel " ++ ref.Name))
      | .ok channel =>
        let channelID := channel.annotations.index externalNameKey
        if channelID ≠ "" then resolveExplicitRefs kube rest (channelIDs ++ [channelID])
        else resolveExplicitRefs kube rest channelIDs
    else resolveExplicitRefs kube rest channelIDs

/-- The loop over `channelList.Items` in `resolveChannelReferences`. -/
def appendListed : List NotificationChannel → List String → List String
  | [], channelIDs => channelIDs
  | channel :: rest, channelIDs =>
    let channelID := channel.annotations.index externalNameKey
    if channelID ≠ "" then appendListed rest (channelIDs ++ [channelID])
    else appendListed rest channelIDs

/-- The `listOptions` that `resolveChannelReferences` builds from the selector. -/
def listOptionsOf (selector : Selector) : List ListOption :=
  match selector.MatchLabels with
  | some labels => [] ++ [ListOption.MatchingLabels labels]
  | none => []

/-- The selector block of `resolveChannelReferences`. -/
def resolveSelector (kube : Kube) (sel : Option Selector) (channelIDs : List String) :
    Except String (List String) :=
  match sel with
  | none => .ok channelIDs
  | some selector =>
    match kube.listChannels (listOptionsOf selector) with
    | .error err => .error (wrap err "cannot list notification channels")
    | .ok items => .ok (appendListed items channelIDs)

/-- Source: `external.resolveChannelReferences` (alert.go): the record it leaves and the
error it returns (`none` for nil). -/
def resolveChannelReferences (kube : Kube) (cr : Alert) : Alert × Option String :=
  let channelIDs : List String := [] ++ cr.forProvider.PreferredChannels
  match resolveExplicitRefs kube cr.forProvider.ChannelIDsRef channelIDs with
  | .error err => (cr, some err)
  | .ok channelIDs =>
    match resolveSelector kube cr.forProvider.ChannelIDsSelector channelIDs with
    | .error err => (cr, some err)
    | .ok channelIDs =>
      let uniqueChannelIDs := removeDuplicates channelIDs
      ({ cr with atProvider := { cr.atProvider with ResolvedChannelIDs := uniqueChannelIDs } },
        none)

def errCreateAlert : String := "cannot create alert"
def errUpdateAlert : String := "cannot update alert"
def errDeleteAlert : String := "cannot delete alert"
def errGetAlert : String := "cannot get alert"
def errResolveRefs : String := "cannot resolve channel references"

/-- The status a successful `GetRule` writes in `Observe`, before references are resolved. -/
def observeStatus (c : External) (cr : Alert) (alert : clients.RuleData) : Alert :=
  let cr := { cr with atProvider := { cr.atProvider with ID := alert.ID, State := alert.State } }
  let cr :=
    if alert.CreatedAt ≠ "" then
      match c.parseRFC3339 alert.CreatedAt with
      | some createdAt => { cr with atProvider := { cr.atProvider with CreatedAt := some createdAt } }
      | none => cr
    else cr
  if alert.UpdatedAt ≠ "" then
    match c.parseRFC3339 alert.UpdatedAt with
    | some updatedAt => { cr with atProvider := { cr.atProvider with UpdatedAt := some updatedAt } }
    | none => cr
  else cr

/-- Source: `external.Observe` (alert.go). -/
def Observe (c : External) (cr : Alert) : Outcome Alert ExternalObservation :=
  let alertID := cr.annotations.index externalNameKey
  if alertID = "" then
    { record := cr, result := .ok { ResourceExists := false }, calls := [] }
  else
    match clients.GetRule c.service alertID with
    | (.error err, calls) =>
      if clients.IsNotFound (some err) then
        { record := cr, result := .ok { ResourceExists := false }, calls := calls }
      else
        { record := cr, result := .error (wrap err errGetAlert), calls := calls }
    | (.ok none, calls) => { record := cr, result := .panic, calls := calls }
    | (.ok (some alert), calls) =>
      match resolveChannelReferences c.kube (observeStatus c cr alert) with
      | (cr, some err) => { record := cr, result := .error (wrap err errResolveRefs), calls := calls }
      | (cr, none) =>
        let upToDate := isAlertUpToDate cr.forProvider alert
        { record := cr, result := .ok { ResourceExists := true, ResourceUpToDate := upToDate },
          calls := calls }

/-- The `ruleData` literal of `Create` and `Update`. -/
def ruleDataOf (cr : Alert) : clients.RuleData :=
  { AlertName := cr.forProvider.AlertName
    AlertType := cr.forProvider.AlertType
    EvalWindow := cr.forProvider.EvalWindow
    Frequency := cr.forProvider.Frequency
    Condition := convertCondition cr.forProvider.Condition
    Labels := cr.forProvider.Labels
    Annotations := cr.forProvider.Annotations
    PreferredChannels := cr.atProvider.ResolvedChannelIDs
    Disabled := cr.forProvider.Disabled }

def errTrackPCUsage : String := "cannot track ProviderConfig usage"
def errGetPC : String := "cannot get ProviderConfig"
def errGetCreds : String := "cannot get credentials"

/-- Source: `connector.Connect` (alert.go). -/
def Connect (c : Connector Alert) (cr : Alert) : Result External :=
  match c.usage cr with
  | some err => .error (wrap err errTrackPCUsage)
  | none =>
    match cr.providerConfigRef with
    | none => .error "no providerConfigRef provided"
    | some ref =>
      match c.kube.getProviderConfig ref.Name with
      | .error err => .error (wrap err errGetPC)
      | .ok _ =>
        match clients.GetConfig c.kube c.unmarshalCredentials cr.providerConfigRef with
        | .error err => .error (wrap err errGetCreds)
        | .ok cfg =>
          .ok { service := c.newServiceFn cfg, kube := c.kube, parseRFC3339 := c.parseRFC3339 }

/-- Source: `external.Create` (alert.go). -/
def Create (c : External) (cr : Alert) : Outcome Alert Unit :=
  match resolveChannelReferences c.kube cr with
  | (cr, some err) => { record := cr, result := .error (wrap err errResolveRefs), calls := [] }
  | (cr, none) =>
    match clients.CreateRule c.service (ruleDataOf cr) with
    | (.error err, calls) => { record := cr, result := .error (wrap err errCreateAlert), calls := calls }
    | (.ok none, calls) => { record := cr, result := .panic, calls := calls }
    | (.ok (some created), calls) =>
      { record := { cr with annotations := cr.annotations.set externalNameKey created.ID },
        result := .ok (), calls := calls }

/-- Source: `external.Update` (alert.go). -/
def Update (c : External) (cr : Alert) : Outcome Alert Unit :=
  let alertID := cr.annotations.index externalNameKey
  if alertID = "" then
    { record := cr, result := .error "alert ID not found", calls := [] }
  else
    match resolveChannelReferences c.kube cr with
    | (cr, some err) => { record := cr, result := .error (wrap err errResolveRefs), calls := [] }
    | (cr, none) =>
      match clients.UpdateRule c.service alertID (ruleDataOf cr) with
      | (.error err, calls) => { record := cr, result := .error (wrap err errUpdateAlert), calls := calls }
      | (.ok _, calls) => { record := cr, result := .ok (), calls := calls }

/-- Source: `external.Delete` (alert.go). -/
def Delete (c : External) (cr : Alert) : Outcome Alert Unit :=
  let alertID := cr.annotations.index externalNameKey
  if alertID = "" then
    { record := cr, result := .ok (), calls := [] }
  else
    match clients.DeleteRule c.service alertID with
    | (some err, calls) =>
      if !clients.IsNotFound (some err) then
        { record := cr, result := .error (wrap err errDeleteAlert), calls := calls }
      else
        { record := cr, result := .ok (), calls := calls }
    | (none, calls) => { record := cr, result := .ok (), calls := calls }

end alert

/-! ## dashboard -/

namespace dashboard

def errCreateDashboard : String := "cannot create dashboard"
def errUpdateDashboard : String := "cannot update dashboard"
def errDeleteDashboard : String := "cannot delete dashboard"
def errGetDashboard : String := "cannot get dashboard"

/-- The tag loop of `isDashboardUpToDate`: `i` is the index of the head of `specTags`. -/
def tagsLoop (tags : List String) : List String → Nat → Bool
  | [], _ => true
  | tag :: rest, i =>
    if i ≥ tags.length || tag ≠ tags.getD i "" then false
    else tagsLoop tags rest (i + 1)

/-- Source: `isDashboardUpToDate` (dashboard.go). -/
def isDashboardUpToDate (spec : DashboardParameters) (dashboard : clients.DashboardData) : Bool :=
  if spec.Title ≠ dashboard.Title then false
  else
    let expectedDesc :=
      match spec.Description with
      | some d => d
      | none => ""
    if expectedDesc ≠ dashboard.Description then false
    else if spec.Tags.length ≠ dashboard.Tags.length then false
    else tagsLoop dashboard.Tags spec.Tags 0

/-- Source: `convertLayout` (dashboard.go). -/
def convertLayout (layout : List Layout) : List Value :=
  layout.map fun l =>
    .obj [("i", .str l.I), ("x", .int l.X), ("y", .int l.Y), ("w", .int l.W), ("h", .int l.H),
      ("moved", .bool l.Moved), ("static", .bool l.Static)]

/-- Source: `convertMetricsBuilder` (dashboard.go). -/
def convertMetricsBuilder (builder : MetricsBuilder) : Obj :=
  let result : Obj := []
  let result :=
    if builder.QueryBuilder.length > 0 then
      result.set "queryBuilder" (.list (builder.QueryBuilder.map fun qb =>
        let queryBuilder : Obj :=
          [("name", .str qb.Name), ("metricName", .str qb.MetricName),
            ("disabled", .bool qb.Disabled)]
        let queryBuilder := setStr queryBuilder "aggregateOperator" qb.AggregateOperator
        let queryBuilder :=
          if qb.GroupBy.length > 0 then queryBuilder.set "groupBy" (.strs qb.GroupBy)
          else queryBuilder
        .obj (setStr queryBuilder "legend" qb.Legend)))
    else result
  if builder.Formulas.length > 0 then result.set "formulas" (.strs builder.Formulas) else result

/-- Source: `convertQuery` (dashboard.go). -/
def convertQuery (query : Query) : Obj :=
  let result : Obj := [("queryType", .int query.QueryType)]
  let result :=
    if query.PromQL.length > 0 then
      result.set "promQL" (.list (query.PromQL.map fun pq =>
        let promQuery : Obj := [("query", .str pq.Query), ("disabled", .bool pq.Disabled)]
        .obj (setStr (setStr promQuery "name" pq.Name) "legend" pq.Legend)))
    else result
  let result :=
    if query.ClickHouse.length > 0 then
      result.set "clickHouse" (.list (query.ClickHouse.map fun chq =>
        let chQuery : Obj := [("query", .str chq.Query), ("disabled", .bool chq.Disabled)]
        .obj (setStr (setStr chQuery "name" chq.Name) "legend" chq.Legend)))
    else result
  match query.Builder with
  | some builder => result.set "builder" (.obj (convertMetricsBuilder builder))
  | none => result

/-- Source: `convertWidgets` (dashboard.go). -/
def convertWidgets (widgets : List Widget) : List Value :=
  widgets.map fun w =>
    let widget : Obj :=
      [("id", .str w.ID), ("title", .str w.Title), ("panelType", .str w.PanelType),
        ("query", .obj (convertQuery w.Query))]
    let widget := setStr widget "description" w.Description
    let widget := setBool widget "isStacked" w.IsStacked
    let widget := setStr widget "nullZeroValues" w.NullZeroValues
    let widget := setStr widget "yAxisUnit" w.YAxisUnit
    .obj (setStr widget "timePreference" w.TimePreference)

/-- Source: `convertVariables` (dashboard.go). -/
def convertVariables (vars? : Option (GoMap Variable)) : Option Obj :=
  match vars? with
  | none => none
  | some vars =>
    some (vars.entries.map fun (k, v) =>
      let entry : Obj :=
        [("type", .str v.Type_), ("multiSelect", .bool v.MultiSelect),
          ("showAllOption", .bool v.ShowAllOption)]
      let entry := setStr entry "description" v.Description
      let entry := setStr entry "queryValue" v.QueryValue
      let entry := setStr entry "customValue" v.CustomValue
      let entry := setStr entry "textboxValue" v.TextboxValue
      let entry := setStr entry "selectedValue" v.SelectedValue
      (k, .obj (setStr entry "sort" v.Sort_)))

/-- The `dashboardData` literal of `Create` and `Update`, with the description filled in. -/
def dashboardDataOf (cr : Dashboard) : clients.DashboardData :=
  let dashboardData : clients.DashboardData :=
    { Title := cr.forProvider.Title
      Description := ""
      Tags := cr.forProvider.Tags
      Layout := convertLayout cr.forProvider.Layout
      Widgets := convertWidgets cr.forProvider.Widgets
      Variables := convertVariables cr.forProvider.Variables }
  match cr.forProvider.Description with
  | some d => { dashboardData with Description := d }
  | none => dashboardData

/-- The status a successful `GetDashboard` writes in `Observe`. -/
def observeStatus (c : External) (cr : Dashboard) (dashboard : clients.DashboardData) :
    Dashboard :=
  let cr := { cr with atProvider := { cr.atProvider with ID := dashboard.ID, UUID := dashboard.UUID } }
  let cr :=
    if dashboard.CreatedAt ≠ "" then
      match c.parseRFC3339 dashboard.CreatedAt with
      | some createdAt => { cr with atProvider := { cr.atProvider with CreatedAt := some createdAt } }
      | none => cr
    else cr
  if dashboard.UpdatedAt ≠ "" then
    match c.parseRFC3339 dashboard.UpdatedAt with
    | some updatedAt => { cr with atProvider := { cr.atProvider with UpdatedAt := some updatedAt } }
    | none => cr
  else cr

/-- Source: `external.Observe` (dashboard.go). -/
def Observe (c : External) (cr : Dashboard) : Outcome Dashboard ExternalObservation :=
  let dashboardID := cr.annotations.index externalNameKey
  if dashboardID = "" then
    { record := cr, result := .ok { ResourceExists := false }, calls := [] }
  else
    match clients.GetDashboard c.service dashboardID with
    | (.error err, calls) =>
      if clients.IsNotFound (some err) then
        { record := cr, result := .ok { ResourceExists := false }, calls := calls }
      else
        { record := cr, result := .error (wrap err errGetDashboard), calls := calls }
    | (.ok none, calls) => { record := cr, result := .panic, calls := calls }
    | (.ok (some dashboard), calls) =>
      let cr := observeStatus c cr dashboard
      let upToDate := isDashboardUpToDate cr.forProvider dashboard
      { record := cr, result := .ok { ResourceExists := true, ResourceUpToDate := upToDate },
        calls := calls }

def errTrackPCUsage : String := "cannot track ProviderConfig usage"
def errGetPC : String := "cannot get ProviderConfig"
def errGetCreds : String := "cannot get credentials"

/-- Source: `connector.Connect` (dashboard.go). `cr.GetProviderConfigReference().Name` is a nil
pointer dereference when the reference is absent. -/
def Connect (c : Connector Dashboard) (cr : Dashboard) : Result External :=
  match c.usage cr with
  | some err => .error (wrap err errTrackPCUsage)
  | none =>
    match cr.providerConfigRef with
    | none => .panic
    | some ref =>
      match c.kube.getProviderConfig ref.Name with
      | .error err => .error (wrap err errGetPC)
      | .ok _ =>
        match clients.GetConfig c.kube c.unmarshalCredentials cr.providerConfigRef with
        | .error err => .error (wrap err errGetCreds)
        | .ok cfg =>
          .ok { service := c.newServiceFn cfg, kube := c.kube, parseRFC3339 := c.parseRFC3339 }

/-- Source: `external.Create` (dashboard.go). -/
def Create (c : External) (cr : Dashboard) : Outcome Dashboard Unit :=
  match clients.CreateDashboard c.service (dashboardDataOf cr) with
  | (.error err, calls) => { record := cr, result := .error (wrap err errCreateDashboard), calls := calls }
  | (.ok none, calls) => { record := cr, result := .panic, calls := calls }
  | (.ok (some created), calls) =>
    { record := { cr with annotations := cr.annotations.set externalNameKey created.ID },
      result := .ok (), calls := calls }

/-- Source: `external.Update` (dashboard.go). -/
def Update (c : External) (cr : Dashboard) : Outcome Dashboard Unit :=
  let dashboardID := cr.annotations.index externalNameKey
  if dashboardID = "" then
    { record := cr, result := .error "dashboard ID not found", calls := [] }
  else
    match clients.UpdateDashboard c.service dashboardID (dashboardDataOf cr) with
    | (.error err, calls) => { record := cr, result := .error (wrap err errUpdateDashboard), calls := calls }
    | (.ok _, calls) => { record := cr, result := .ok (), calls := calls }

/-- Source: `external.Delete` (dashboard.go). -/
def Delete (c : External) (cr : Dashboard) : Outcome Dashboard Unit :=
  let dashboardID := cr.annotations.index externalNameKey
  if dashboardID = "" then
    { record := cr, result := .ok (), calls := [] }
  else
    match clients.DeleteDashboard c.service dashboardID with
    | (some err, calls) =>
      if !clients.IsNotFound (some err) then
        { record := cr, result := .error (wrap err errDeleteDashboard), calls := calls }
      else
        { record := cr, result := .ok (), calls := calls }
    | (none, calls) => { record := cr, result := .ok (), calls := calls }

end dashboard

/-! ## channel -/

namespace channel

def errCreateChannel : String := "cannot create notification channel"
def errUpdateChannel : String := "cannot update notification channel"
def errDeleteChannel : String := "cannot delete notification channel"
def errGetChannel : String := "cannot get notification channel"
def errGetSecret : String := "cannot get secret"

/-- Source: `external.isChannelUpToDate` (channel.go); its error is always nil. -/
def isChannelUpToDate (spec : NotificationChannelParameters) (channel : clients.ChannelData) :
    Bool :=
  if spec.Name ≠ channel.Name then false
  else if spec.Type_ ≠ channel.Type_ then false
  else true

/-- Source: `external.getSecretValue` (channel.go). -/
def getSecretValue (kube : Kube) (secretRef : SecretKeySelector) : Except String String :=
  match kube.getSecret secretRef.Name secretRef.Namespace with
  | .error err => .error err
  | .ok data =>
    match data.find? secretRef.Key with
    | none =>
      .error ("key " ++ secretRef.Key ++ " not found in secret " ++ secretRef.Namespace ++ "/"
        ++ secretRef.Name)
    | some value => .ok value

/-- The "from secret or direct value" block of the `convert*Config` functions: the secret
when a reference is set, else the literal, else `""`. -/
def secretOrValue (kube : Kube) (secretRef : Option SecretKeySelector) (value : Option String) :
    Except String String :=
  match secretRef with
  | some ref =>
    match getSecretValue kube ref with
    | .error err => .error (wrap err errGetSecret)
    | .ok secret => .ok secret
  | none =>
    match value with
    | some v => .ok v
    | none => .ok ""

/-- An `if v != "" { data[k] = v }` step. -/
def setNonEmpty (data : Obj) (k v : String) : Obj :=
  if v ≠ "" then data.set k (.str v) else data

/-- Source: `external.convertSlackConfig` (channel.go). -/
def convertSlackConfig (kube : Kube) (config : SlackConfig) : Except String Obj :=
  let data : Obj := [("channel", .str config.Channel)]
  let data := setStr data "title" config.Title
  let data := setBool data "send_resolved" config.SendResolved
  match secretOrValue kube config.WebhookURLSecretRef config.WebhookURL with
  | .error err => .error err
  | .ok webhookURL => .ok (setNonEmpty data "webhook_url" webhookURL)

/-- Source: `external.convertWebhookConfig` (channel.go). -/
def convertWebhookConfig (kube : Kube) (config : WebhookConfig) : Except String Obj :=
  let data : Obj := []
  let data := setStr data "http_method" config.Method
  let data :=
    match config.MaxAlerts with
    | some n => data.set "max_alerts" (.int n)
    | none => data
  let data := setBool data "send_resolved" config.SendResolved
  match secretOrValue kube config.URLSecretRef config.URL with
  | .error err => .error err
  | .ok url => .ok (setNonEmpty data "url" url)

/-- Source: `external.convertPagerDutyConfig` (channel.go). -/
def convertPagerDutyConfig (kube : Kube) (config : PagerDutyConfig) : Except String Obj :=
  let data : Obj := []
  let data := setStr data "severity" config.Severity
  let data := setBool data "send_resolved" config.SendResolved
  match secretOrValue kube config.RoutingKeySecretRef config.RoutingKey with
  | .error err => .error err
  | .ok routingKey =>
    let data := setNonEmpty data "routing_key" routingKey
    match secretOrValue kube config.ServiceKeySecretRef config.ServiceKey with
    | .error err => .error err
    | .ok serviceKey => .ok (setNonEmpty data "service_key" serviceKey)

/-- Source: `external.convertEmailConfig` (channel.go). -/
def convertEmailConfig (config : EmailConfig) : Obj :=
  let data : Obj := [("to", .strs config.To)]
  setBool data "send_resolved" config.SendResolved

/-- Source: `external.convertOpsGenieConfig` (channel.go). -/
def convertOpsGenieConfig (kube : Kube) (config : OpsGenieConfig) : Except String Obj :=
  let data : Obj := []
  let data := setStr data "priority" config.Priority
  let data := setBool data "send_resolved" config.SendResolved
  match secretOrValue kube config.APIKeySecretRef config.APIKey with
  | .error err => .error err
  | .ok apiKey => .ok (setNonEmpty data "api_key" apiKey)

/-- Source: `external.convertMSTeamsConfig` (channel.go). -/
def convertMSTeamsConfig (kube : Kube) (config : MSTeamsConfig) : Except String Obj :=
  let data : Obj := []
  let data := setStr data "title" config.Title
  let data := setBool data "send_resolved" config.SendResolved
  match secretOrValue kube config.WebhookURLSecretRef config.WebhookURL with
  | .error err => .error err
  | .ok webhookURL => .ok (setNonEmpty data "webhook_url" webhookURL)

/-- An `if ref != nil { v, err := getSecretValue(ref); ...; data[k] = v }` step of
`convertSNSConfig`. -/
def setSecret (kube : Kube) (data : Obj) (k : String) (secretRef : Option SecretKeySelector) :
    Except String Obj :=
  match secretRef with
  | some ref =>
    match getSecretValue kube ref with
    | .error err => .error (wrap err errGetSecret)
    | .ok v => .ok (data.set k (.str v))
  | none => .ok data

/-- Source: `external.convertSNSConfig` (channel.go). -/
def convertSNSConfig (kube : Kube) (config : SNSConfig) : Except String Obj :=
  let data : Obj := [("topic_arn", .str config.TopicARN), ("region", .str config.Region)]
  let data := setBool data "send_resolved" config.SendResolved
  match setSecret kube data "access_key" config.AccessKeySecretRef with
  | .error err => .error err
  | .ok data => setSecret kube data "secret_key" config.SecretKeySecretRef

/-- One `case` of the switch in `convertToChannelData`: convert the first config, if any,
and store it in `channelData.Data`. -/
def withFirst {γ : Type} (channelData : clients.ChannelData) (configs : List γ)
    (convert : γ → Except String Obj) : Except String clients.ChannelData :=
  match configs with
  | [] => .ok channelData
  | config :: _ =>
    match convert config with
    | .error err => .error err
    | .ok data => .ok { channelData with Data := data }

/-- Source: `external.convertToChannelData` (channel.go). -/
def convertToChannelData (kube : Kube) (spec : NotificationChannelParameters) :
    Except String clients.ChannelData :=
  let channelData : clients.ChannelData := { Name := spec.Name, Type_ := spec.Type_, Data := [] }
  if spec.Type_ = "slack" then
    withFirst channelData spec.SlackConfigs (convertSlackConfig kube)
  else if spec.Type_ = "webhook" then
    withFirst channelData spec.WebhookConfigs (convertWebhookConfig kube)
  else if spec.Type_ = "pagerduty" then
    withFirst channelData spec.PagerDutyConfigs (convertPagerDutyConfig kube)
  else if spec.Type_ = "email" then
    withFirst channelData spec.EmailConfigs (fun config => .ok (convertEmailConfig config))
  else if spec.Type_ = "opsgenie" then
    withFirst channelData spec.OpsGenieConfigs (convertOpsGenieConfig kube)
  else if spec.Type_ = "msteams" then
    withFirst channelData spec.MSTeamsConfigs (convertMSTeamsConfig kube)
  else if spec.Type_ = "sns" then
    withFirst channelData spec.SNSConfigs (convertSNSConfig kube)
  else
    .error ("unsupported channel type: " ++ spec.Type_)

/-- The status a successful `GetChannel` writes in `Observe`. -/
def observeStatus (c : External) (cr : NotificationChannel) (channel : clients.ChannelData) :
    NotificationChannel :=
  let cr := { cr with atProvider := { cr.atProvider with ID := channel.ID } }
  let cr :=
    if channel.CreatedAt ≠ "" then
      match c.parseRFC3339 channel.CreatedAt with
      | some createdAt => { cr with atProvider := { cr.atProvider with CreatedAt := some createdAt } }
      | none => cr
    else cr
  if channel.UpdatedAt ≠ "" then
    match c.parseRFC3339 channel.UpdatedAt with
    | some updatedAt => { cr with atProvider := { cr.atProvider with UpdatedAt := some updatedAt } }
    | none => cr
  else cr

/-- Source: `external.Observe` (channel.go). -/
def Observe (c : External) (cr : NotificationChannel) :
    Outcome NotificationChannel ExternalObservation :=
  let channelIDStr := cr.annotations.index externalNameKey
  if channelIDStr = "" then
    { record := cr, result := .ok { ResourceExists := false }, calls := [] }
  else
    match clients.GetChannel c.service channelIDStr with
    | (.error err, calls) =>
      if clients.IsNotFound (some err) then
        { record := cr, result := .ok { ResourceExists := false }, calls := calls }
      else
        { record := cr, result := .error (wrap err errGetChannel), calls := calls }
    | (.ok none, calls) => { record := cr, result := .panic, calls := calls }
    | (.ok (some channel), calls) =>
      let cr := observeStatus c cr channel
      let upToDate := isChannelUpToDate cr.forProvider channel
      { record := cr, result := .ok { ResourceExists := true, ResourceUpToDate := upToDate },
        calls := calls }

def errTrackPCUsage : String := "cannot track ProviderConfig usage"
def errGetPC : String := "cannot get ProviderConfig"
def errGetCreds : String := "cannot get credentials"

/-- Source: `connector.Connect` (channel.go). `cr.GetProviderConfigReference().Name` is a nil
pointer dereference when the reference is absent. -/
def Connect (c : Connector NotificationChannel) (cr : NotificationChannel) : Result External :=
  match c.usage cr with
  | some err => .error (wrap err errTrackPCUsage)
  | none =>
    match cr.providerConfigRef with
    | none => .panic
    | some ref =>
      match c.kube.getProviderConfig ref.Name with
      | .error err => .error (wrap err errGetPC)
      | .ok _ =>
        match clients.GetConfig c.kube c.unmarshalCredentials cr.providerConfigRef with
        | .error err => .error (wrap err errGetCreds)
        | .ok cfg =>
          .ok { service := c.newServiceFn cfg, kube := c.kube, parseRFC3339 := c.parseRFC3339 }

/-- Source: `external.Create` (channel.go). -/
def Create (c : External) (cr : NotificationChannel) : Outcome NotificationChannel Unit :=
  match convertToChannelData c.kube cr.forProvider with
  | .error err => { record := cr, result := .error err, calls := [] }
  | .ok channelData =>
    match clients.CreateChannel c.service channelData with
    | (.error err, calls) => { record := cr, result := .error (wrap err errCreateChannel), calls := calls }
    | (.ok none, calls) => { record := cr, result := .panic, calls := calls }
    | (.ok (some created), calls) =>
      { record := { cr with annotations := cr.annotations.set externalNameKey (toString created.ID) },
        result := .ok (), calls := calls }

/-- Source: `external.Update` (channel.go). -/
def Update (c : External) (cr : NotificationChannel) : Outcome NotificationChannel Unit :=
  let channelIDStr := cr.annotations.index externalNameKey
  if channelIDStr = "" then
    { record := cr, result := .error "channel ID not found", calls := [] }
  else
    match convertToChannelData c.kube cr.forProvider with
    | .error err => { record := cr, result := .error err, calls := [] }
    | .ok channelData =>
      match clients.UpdateChannel c.service channelIDStr channelData with
      | (.error err, calls) => { record := cr, result := .error (wrap err errUpdateChannel), calls := calls }
      | (.ok _, calls) => { record := cr, result := .ok (), calls := calls }

/-- Source: `external.Delete` (channel.go). -/
def Delete (c : External) (cr : NotificationChannel) : Outcome NotificationChannel Unit :=
  let channelIDStr := cr.annotations.index externalNameKey
  if channelIDStr = "" then
    { record := cr, result := .ok (), calls := [] }
  else
    match clients.DeleteChannel c.service channelIDStr with
    | (some err, calls) =>
      if !clients.IsNotFound (some err) then
        { record := cr, result := .error (wrap err errDeleteChannel), calls := calls }
      else
        { record := cr, result := .ok (), calls := calls }
    | (none, calls) => { record := cr, result := .ok (), calls := calls }

end channel

/-! ## Predicates of the statements -/

/-- The type of a channel spec is one of the seven that `convertToChannelData` handles. -/
def supportedChannelType (t : String) : Prop :=
  t ∈ ["slack", "webhook", "pagerduty", "email", "opsgenie", "msteams", "sns"]

instance (t : String) : Decidable (supportedChannelType t) :=
  inferInstanceAs
    (Decidable (t ∈ ["slack", "webhook", "pagerduty", "email", "opsgenie", "msteams", "sns"]))

/-- No config of a channel spec carries a secret reference. -/
def noSecretRefs (spec : NotificationChannelParameters) : Prop :=
  (∀ config ∈ spec.SlackConfigs, config.WebhookURLSecretRef = none) ∧
  (∀ config ∈ spec.WebhookConfigs, config.URLSecretRef = none) ∧
  (∀ config ∈ spec.PagerDutyConfigs,
    config.RoutingKeySecretRef = none ∧ config.ServiceKeySecretRef = none) ∧
  (∀ config ∈ spec.OpsGenieConfigs, config.APIKeySecretRef = none) ∧
  (∀ config ∈ spec.MSTeamsConfigs, config.WebhookURLSecretRef = none) ∧
  (∀ config ∈ spec.SNSConfigs,
    config.AccessKeySecretRef = none ∧ config.SecretKeySecretRef = none)

/-- The rule of the specification for a timestamp field of the observed status: `now` is
the field after `Observe` read the string `s` and `prev` the field before; an empty or
unparsable string leaves the field, a string that parses sets it to the parsed time. -/
def timestampRead (parse : String → Option Time) (s : String) (prev now : Option Time) : Prop :=
  ((s = "" ∨ parse s = none) → now = prev) ∧ (∀ t, s ≠ "" → parse s = some t → now = some t)

/-! ## Example records -/

/-- A `NotificationChannel` record that was assigned the external identifier `"42"`. -/
def exampleChannel42 : NotificationChannel :=
  { annotations := GoMap.empty.set externalNameKey "42" }

/-- A store that holds `exampleChannel42` under the name `"slack-ops"`. -/
def exampleKube : Kube :=
  { getChannel := fun name =>
      if name = "slack-ops" then .ok exampleChannel42 else .error "notificationchannel not found"
    listChannels := fun _ => .ok [exampleChannel42] }

/-- An alert with `preferredChannels: ["c1"]` and a reference to `"slack-ops"`. -/
def exampleAlert : Alert :=
  { forProvider := { PreferredChannels := ["c1"], ChannelIDsRef := [{ Name := "slack-ops" }] } }

/-- A client of a remote system that answers every request with `resp`. -/
def exampleClient (resp : clients.Response) : clients.Client :=
  { httpDo := fun _ => .ok resp }

/-- The controllers' client over `exampleClient resp` and `exampleKube`. -/
def exampleExternal (resp : clients.Response) : External :=
  { service := exampleClient resp, kube := exampleKube }

/-- The answer of a remote system that no longer has the resource. -/
def exampleNotFound : clients.Response :=
  { StatusCode := 404, Status := "404 Not Found", Body := "no such resource" }

/-- An alert that was assigned the external identifier `"7"`. -/
def exampleAlert7 : Alert :=
  { exampleAlert with annotations := GoMap.empty.set externalNameKey "7" }

/-- A dashboard that was assigned the external identifier `"7"`. -/
def exampleDashboard7 : Dashboard :=
  { annotations := GoMap.empty.set externalNameKey "7", forProvider := { Title := "Latency" } }

/-- A channel record that was assigned the external identifier `"7"`. -/
def exampleChannel7 : NotificationChannel :=
  { annotations := GoMap.empty.set externalNameKey "7",
    forProvider := { Name := "ops", Type_ := "slack" } }

/-- The answer of a remote system that deleted the resource. -/
def exampleDeleted : clients.Response :=
  { StatusCode := 200, Status := "200 OK", Body := "" }

/-- A server error whose body happens to mention that something was not found. -/
def exampleServerError : clients.Response :=
  { StatusCode := 500, Status := "500 Internal Server Error",
    Body := "alertmanager config not found" }

/-- A server error that mentions neither `404` nor `not found`. -/
def exampleUnavailable : clients.Response :=
  { StatusCode := 503, Status := "503 Service Unavailable", Body := "try again later" }

/-- Labels with one key whose value is the empty string. -/
def exampleLabelsEmptyValue : GoMap String :=
  GoMap.empty.set "x" ""

/-- Labels with one, different, key. -/
def exampleLabelsOther : GoMap String :=
  GoMap.empty.set "y" "z"

/-- A reference to the key `url` of the secret `monitoring/slack-hook`. -/
def exampleSecretRef : SecretKeySelector :=
  { Name := "slack-hook", Namespace := "monitoring", Key := "url" }

/-- A store that holds the secret `monitoring/slack-hook` with the key `url`. -/
def exampleSecretKube : Kube :=
  { exampleKube with
    getSecret := fun name ns =>
      if name = "slack-hook" ∧ ns = "monitoring" then
        .ok (GoMap.empty.set "url" "https://hooks.example/from-secret")
      else .error "secret not found" }

/-- A store whose secret `monitoring/slack-hook` holds the key `url` with an empty value. -/
def exampleEmptySecretKube : Kube :=
  { exampleKube with
    getSecret := fun name ns =>
      if name = "slack-hook" ∧ ns = "monitoring" then .ok (GoMap.empty.set "url" "")
      else .error "secret not found" }

/-- A Slack config with both a literal webhook URL and a secret reference. -/
def exampleSlackBoth : SlackConfig :=
  { Channel := "#ops", WebhookURL := some "https://hooks.example/literal",
    WebhookURLSecretRef := some exampleSecretRef }

/-- The channel spec of the spec's scenario: a Slack channel with a literal webhook URL. -/
def exampleSlackSpec : NotificationChannelParameters :=
  { Name := "ops", Type_ := "slack",
    SlackConfigs := [{ Channel := "#ops", WebhookURL := some "https://hooks/x" }] }

/-- A client of a remote system that creates what it is sent and answers with the stored
resource: rules and dashboards get the identifier `"r-1"` and `"d-1"`, channels the
identifier `42`. -/
def exampleCreatingClient : clients.Client :=
  { httpDo := fun _ => .ok { StatusCode := 200, Status := "200 OK", Body := "created" }
    unmarshalRule := fun _ => .ok (some { ID := "r-1", AlertName := "High latency" })
    unmarshalDashboard := fun _ => .ok (some { ID := "d-1", Title := "Latency" })
    unmarshalChannel := fun _ => .ok (some { ID := 42, Name := "ops", Type_ := "slack" }) }

/-- The controllers' client over `exampleCreatingClient` and `exampleKube`. -/
def exampleCreatingExternal : External :=
  { service := exampleCreatingClient, kube := exampleKube }

/-- A channel record for `exampleSlackSpec` that has not been created yet. -/
def exampleSlackChannel : NotificationChannel :=
  { annotations := GoMap.empty.set "team" "sre", forProvider := exampleSlackSpec }

/-- An answer of the remote system whose `data` is null: `exampleClient` decodes it to a
nil `Data`. -/
def exampleNullData : clients.Response :=
  { StatusCode := 200, Status := "200 OK", Body := "status: success, data: null" }

/-- The answer of the remote system to a malformed request. -/
def exampleBadRequest : clients.Response :=
  { StatusCode := 400, Status := "400 Bad Request", Body := "Invalid request" }

/-- A store whose `ProviderConfig` named `default` has an endpoint that ends with two
slashes, and whose credentials can be extracted. -/
def exampleConfigKube : Kube :=
  { exampleKube with
    getProviderConfig := fun name =>
      if name = "default" then .ok { Endpoint := some "https://signoz.example.com//" }
      else .error "providerconfig not found"
    extractCredentials := fun _ => .ok "credentials" }

/-- A connector whose usage tracker is the no-op tracker of `alert.Setup`. -/
def exampleConnector (ρ : Type) : Connector ρ :=
  { kube := exampleConfigKube
    usage := fun _ => none
    newServiceFn := fun cfg => { config := cfg, httpDo := fun _ => .ok exampleDeleted }
    unmarshalCredentials := fun _ => .ok "test-key" }

/-- A connector whose usage tracker refuses a record without a `providerConfigReference`,
as `ProviderConfigUsageTracker.Track` of `dashboard.Setup` and `channel.Setup` does;
`ref` reads the reference of a record. -/
def exampleTrackingConnector {ρ : Type} (ref : ρ → Option Reference) : Connector ρ :=
  { exampleConnector ρ with
    usage := fun cr =>
      match ref cr with
      | some _ => none
      | none => some "managed resource does not reference a ProviderConfig" }

/-- The condition of `TestConvertCondition`: one PromQL query, `compareOp` `VALUE`,
target `1.0` and match type `1`. -/
def exampleCondition : RuleCondition :=
  { CompositeQuery :=
      { QueryType := 1
        PromQL := [{ Query := "up == 0", Name := "A", Legend := "Service Down" }] }
    CompareOp := "VALUE"
    Target := some { bits := 4607182418800017408 }
    MatchType := some 1 }

/-! ## Theorems: reference resolution -/

section ReferenceResolution

open alert

theorem removeDuplicatesLoop_cons_seen (item : String) (rest acc : List String) :
    removeDuplicatesLoop (item :: rest) (fun k => decide (k ∈ acc)) acc =
      if item ∈ acc then removeDuplicatesLoop rest (fun k => decide (k ∈ acc)) acc
      else removeDuplicatesLoop rest (fun k => decide (k ∈ acc ++ [item])) (acc ++ [item]) := by
  have hk : (fun k => if k = item then true else decide (k ∈ acc)) =
      (fun k => decide (k ∈ acc ++ [item])) := by
    funext k
    by_cases h : k = item <;> simp [h]
  by_cases h : item ∈ acc
  · simp [removeDuplicatesLoop, h]
  · simp only [removeDuplicatesLoop, h, decide_False, Bool.not_false, if_true, if_false, hk]

theorem removeDuplicatesLoop_append (l₁ l₂ acc : List String) :
    removeDuplicatesLoop (l₁ ++ l₂) (fun k => decide (k ∈ acc)) acc =
      removeDuplicatesLoop l₂
        (fun k => decide (k ∈ removeDuplicatesLoop l₁ (fun k => decide (k ∈ acc)) acc))
        (removeDuplicatesLoop l₁ (fun k => decide (k ∈ acc)) acc) := by
  induction l₁ generalizing acc with
  | nil => simp [removeDuplicatesLoop]
  | cons x l₁ ih =>
    rw [List.cons_append, removeDuplicatesLoop_cons_seen, removeDuplicatesLoop_cons_seen]
    by_cases h : x ∈ acc
    · simp only [h, if_true]; exact ih acc
    · simp only [h, if_false]; exact ih (acc ++ [x])

theorem removeDuplicates_eq (l : List String) :
    removeDuplicates l = removeDuplicatesLoop l (fun k => decide (k ∈ ([] : List String))) [] := by
  simp [removeDuplicates]

theorem removeDuplicates_nil : removeDuplicates [] = [] := rfl

/-- The loop read from the right: a new last item is appended exactly when it has not been
seen. -/
theorem removeDuplicates_snoc (l : List String) (x : String) :
    removeDuplicates (l ++ [x]) =
      if x ∈ removeDuplicates l then removeDuplicates l else removeDuplicates l ++ [x] := by
  rw [removeDuplicates_eq, removeDuplicatesLoop_append, ← removeDuplicates_eq,
    removeDuplicatesLoop_cons_seen]
  simp [removeDuplicatesLoop]

theorem mem_removeDuplicates (l : List String) (x : String) :
    x ∈ removeDuplicates l ↔ x ∈ l := by
  induction l using List.reverseRecOn with
  | nil => simp [removeDuplicates_nil]
  | append_singleton l y ih =>
    rw [removeDuplicates_snoc]
    by_cases hy : y ∈ removeDuplicates l
    · simp only [hy, if_true, List.mem_append, List.mem_singleton]
      constructor
      · intro h; exact Or.inl (ih.mp h)
      · rintro (h | h)
        · exact ih.mpr h
        · rw [h]; exact hy
    · simp only [hy, if_false, List.mem_append, List.mem_singleton, ih]

theorem removeDuplicates_nodup (l : List String) : (removeDuplicates l).Nodup := by
  induction l using List.reverseRecOn with
  | nil => simp [removeDuplicates_nil]
  | append_singleton l y ih =>
    rw [removeDuplicates_snoc]
    by_cases hy : y ∈ removeDuplicates l
    · simpa [hy] using ih
    · simp only [hy, if_false]
      refine List.Nodup.append ih (List.nodup_singleton y) ?_
      intro a ha hb
      rw [List.mem_singleton] at hb
      exact hy (hb ▸ ha)

theorem removeDuplicates_sublist (l : List String) : (removeDuplicates l).Sublist l := by
  induction l using List.reverseRecOn with
  | nil => simp [removeDuplicates_nil]
  | append_singleton l y ih =>
    rw [removeDuplicates_snoc]
    by_cases hy : y ∈ removeDuplicates l
    · simp only [hy, if_true]
      exact ih.trans (List.sublist_append_left l [y])
    · simp only [hy, if_false]
      exact ih.append (List.Sublist.refl [y])

/-- Position of `c` in `l ++ [y]` when `y` is new. -/
theorem indexOf_snoc_new (c y : String) (l : List String) :
    List.indexOf c (l ++ [y]) =
      if c ∈ l then List.indexOf c l else if c = y then l.length else l.length + 1 := by
  by_cases hc : c ∈ l
  · simp [hc, List.indexOf_append_of_mem hc]
  · rw [List.indexOf_append_of_not_mem hc]
    by_cases hcy : c = y
    · subst hcy
      simp [hc]
    · have : ¬ y = c := fun h => hcy h.symm
      simp [hc, hcy, List.indexOf_cons, this]

theorem removeDuplicates_indexOf (l : List String) (a b : String) :
    (removeDuplicates l).indexOf a < (removeDuplicates l).indexOf b ↔
      l.indexOf a < l.indexOf b := by
  induction l using List.reverseRecOn with
  | nil => simp [removeDuplicates_nil]
  | append_singleton l y ih =>
    have hmem := mem_removeDuplicates l
    have ha' := hmem a
    have hb' := hmem b
    rw [removeDuplicates_snoc, indexOf_snoc_new a y l, indexOf_snoc_new b y l]
    by_cases hy : y ∈ removeDuplicates l
    · have hyl : y ∈ l := (hmem y).mp hy
      simp only [hy, if_true]
      rw [ih]
      by_cases ha : a ∈ l <;> by_cases hb : b ∈ l
      · simp only [ha, hb, if_true]
      · have hby : b ≠ y := fun h => hb (h ▸ hyl)
        have h1 := List.indexOf_lt_length.mpr ha
        have h2 : List.indexOf b l = l.length := List.indexOf_eq_length.mpr hb
        simp only [ha, hb, hby, if_true, if_false]
        omega
      · have hay : a ≠ y := fun h => ha (h ▸ hyl)
        have h1 := List.indexOf_lt_length.mpr hb
        have h2 : List.indexOf a l = l.length := List.indexOf_eq_length.mpr ha
        simp only [ha, hb, hay, if_true, if_false]
        omega
      · have hay : a ≠ y := fun h => ha (h ▸ hyl)
        have hby : b ≠ y := fun h => hb (h ▸ hyl)
        have h2 : List.indexOf a l = l.length := List.indexOf_eq_length.mpr ha
        have h3 : List.indexOf b l = l.length := List.indexOf_eq_length.mpr hb
        simp only [ha, hb, hay, hby, if_false]
        omega
    · simp only [hy, if_false]
      rw [indexOf_snoc_new a y _, indexOf_snoc_new b y _]
      by_cases ha : a ∈ l <;> by_cases hb : b ∈ l
      · simp only [ha, hb, ha'.mpr ha, hb'.mpr hb, if_true]; exact ih
      · have hbr : b ∉ removeDuplicates l := fun h => hb (hb'.mp h)
        simp only [ha, hb, ha'.mpr ha, hbr, if_true, if_false]
        have h1 := List.indexOf_lt_length.mpr ha
        have h2 := List.indexOf_lt_length.mpr (ha'.mpr ha)
        split_ifs <;> omega
      · have har : a ∉ removeDuplicates l := fun h => ha (ha'.mp h)
        simp only [ha, hb, har, hb'.mpr hb, if_true, if_false]
        have h1 := List.indexOf_lt_length.mpr hb
        have h2 := List.indexOf_lt_length.mpr (hb'.mpr hb)
        split_ifs <;> omega
      · have har : a ∉ removeDuplicates l := fun h => ha (ha'.mp h)
        have hbr : b ∉ removeDuplicates l := fun h => hb (hb'.mp h)
        simp only [ha, hb, har, hbr, if_false]
        split_ifs <;> omega

/-- C2: `removeDuplicates l` has no repeated element, has exactly the elements of `l`, is a
subsequence of `l`, and lists them in the order of their first occurrence in `l` (one element
comes before another in the result exactly when its first occurrence in `l` comes first);
`["a","b","a","c","b"]` gives `["a","b","c"]`. -/
theorem removeDuplicates_first_occurrence_order (l : List String) :
    (removeDuplicates l).Nodup ∧
    (∀ x, x ∈ removeDuplicates l ↔ x ∈ l) ∧
    (removeDuplicates l).Sublist l ∧
    (∀ a b, (removeDuplicates l).indexOf a < (removeDuplicates l).indexOf b ↔
      l.indexOf a < l.indexOf b) ∧
    removeDuplicates ["a", "b", "a", "c", "b"] = ["a", "b", "c"] :=
  ⟨removeDuplicates_nodup l, mem_removeDuplicates l, removeDuplicates_sublist l,
    removeDuplicates_indexOf l, by decide⟩

/-- The identifiers the explicit references contribute when every lookup succeeds. -/
theorem resolveExplicitRefs_ok (kube : Kube) (chanOf : String → NotificationChannel)
    (refs : List Reference) (acc : List String)
    (hget : ∀ ref ∈ refs, ref.Name ≠ "" → kube.getChannel ref.Name = .ok (chanOf ref.Name)) :
    resolveExplicitRefs kube refs acc =
      .ok (acc ++ ((refs.filter (fun ref => ref.Name ≠ "")).map
        (fun ref => (chanOf ref.Name).annotations.index externalNameKey)).filter
          (fun id => id ≠ "")) := by
  induction refs generalizing acc with
  | nil => simp [resolveExplicitRefs]
  | cons ref rest ih =>
    have hrest : ∀ r ∈ rest, r.Name ≠ "" → kube.getChannel r.Name = .ok (chanOf r.Name) :=
      fun r hr => hget r (List.mem_cons_of_mem _ hr)
    by_cases hn : ref.Name = ""
    · simp [resolveExplicitRefs, hn, ih _ hrest]
    · have hg := hget ref (List.mem_cons_self _ _) hn
      by_cases hid : (chanOf ref.Name).annotations.index externalNameKey = ""
      · simp [resolveExplicitRefs, hn, hg, hid, ih _ hrest]
      · simp [resolveExplicitRefs, hn, hg, hid, ih _ hrest]

/-- The identifiers the listed channels contribute. -/
theorem appendListed_eq (items : List NotificationChannel) (acc : List String) :
    appendListed items acc =
      acc ++ (items.map (fun ch => ch.annotations.index externalNameKey)).filter
        (fun id => id ≠ "") := by
  induction items generalizing acc with
  | nil => simp [appendListed]
  | cons ch rest ih =>
    by_cases hid : ch.annotations.index externalNameKey = ""
    · simp [appendListed, hid, ih]
    · simp [appendListed, hid, ih]

/-- C1: when every lookup succeeds (`chanOf` names the channel fetched for each referenced
name, `items` is the listing for the selector, empty when no selector is set),
`resolveChannelReferences` returns no error and sets `ResolvedChannelIDs` to
`removeDuplicates (P ++ R ++ S)`: the preferred channels, then the non-empty external names
of the referenced channels (references with a non-empty name, in reference order), then the
non-empty external names of the listed channels in listing order. -/
theorem resolveChannelReferences_resolved_list (kube : Kube) (cr : Alert)
    (chanOf : String → NotificationChannel) (items : List NotificationChannel)
    (hget : ∀ ref ∈ cr.forProvider.ChannelIDsRef, ref.Name ≠ "" →
      kube.getChannel ref.Name = .ok (chanOf ref.Name))
    (hlist : ∀ selector, cr.forProvider.ChannelIDsSelector = some selector →
      kube.listChannels (listOptionsOf selector) = .ok items)
    (hnone : cr.forProvider.ChannelIDsSelector = none → items = []) :
    resolveChannelReferences kube cr =
      ({ cr with
          atProvider :=
            { cr.atProvider with
              ResolvedChannelIDs :=
                removeDuplicates (cr.forProvider.PreferredChannels ++
                  ((cr.forProvider.ChannelIDsRef.filter (fun ref => ref.Name ≠ "")).map
                    (fun ref => (chanOf ref.Name).annotations.index externalNameKey)).filter
                      (fun id => id ≠ "") ++
                  (items.map (fun ch => ch.annotations.index externalNameKey)).filter
                    (fun id => id ≠ "")) } }, none) := by
  simp only [resolveChannelReferences, resolveExplicitRefs_ok kube chanOf _ _ hget]
  cases hsel : cr.forProvider.ChannelIDsSelector with
  | none =>
    simp [resolveSelector, hnone hsel]
  | some selector =>
    simp [resolveSelector, hlist selector hsel, appendListed_eq]

/-- C1, at the scenario of the spec: preferred channel `"c1"` and a reference to a channel
annotated `"42"` resolve to `["c1", "42"]`. -/
theorem resolveChannelReferences_resolved_list_witness :
    (resolveChannelReferences exampleKube exampleAlert).1.atProvider.ResolvedChannelIDs =
        ["c1", "42"] ∧
      (resolveChannelReferences exampleKube exampleAlert).2 = none := by
  have h := resolveChannelReferences_resolved_list exampleKube exampleAlert
    (fun _ => exampleChannel42) []
    (by intro ref href hname
        simp only [exampleAlert, List.mem_singleton] at href
        subst href
        rfl)
    (by intro selector hsel; simp [exampleAlert] at hsel)
    (fun _ => rfl)
  rw [h]
  exact ⟨by decide, rfl⟩

/-- The outcome of a resolution is a function of the spec and the store: the record comes
back untouched with an error, or with its list replaced. -/
theorem resolveChannelReferences_cases (kube : Kube) (cr : Alert) :
    (∃ err, resolveChannelReferences kube cr = (cr, some err) ∧
      ∀ cr' : Alert, cr'.forProvider = cr.forProvider →
        resolveChannelReferences kube cr' = (cr', some err)) ∨
    (∃ ids, resolveChannelReferences kube cr =
        ({ cr with atProvider := { cr.atProvider with ResolvedChannelIDs := ids } }, none) ∧
      ∀ cr' : Alert, cr'.forProvider = cr.forProvider →
        resolveChannelReferences kube cr' =
          ({ cr' with atProvider := { cr'.atProvider with ResolvedChannelIDs := ids } }, none)) := by
  cases h₁ : resolveExplicitRefs kube cr.forProvider.ChannelIDsRef
      ([] ++ cr.forProvider.PreferredChannels) with
  | error err =>
    refine Or.inl ⟨err, ?_, ?_⟩
    · simp only [resolveChannelReferences, h₁]
    · intro cr' hcr'
      simp only [resolveChannelReferences, hcr', h₁]
  | ok ids₁ =>
    cases h₂ : resolveSelector kube cr.forProvider.ChannelIDsSelector ids₁ with
    | error err =>
      refine Or.inl ⟨err, ?_, ?_⟩
      · simp only [resolveChannelReferences, h₁, h₂]
      · intro cr' hcr'
        simp only [resolveChannelReferences, hcr', h₁, h₂]
    | ok ids₂ =>
      refine Or.inr ⟨removeDuplicates ids₂, ?_, ?_⟩
      · simp only [resolveChannelReferences, h₁, h₂]
      · intro cr' hcr'
        simp only [resolveChannelReferences, hcr', h₁, h₂]

/-- C3: with an unchanged store, running `resolveChannelReferences` again on the record it
left gives the same record and the same error; and for any two records with the same spec
(whatever their previous `ResolvedChannelIDs`) it returns the same error and, on success,
stores the same list. -/
theorem resolveChannelReferences_idempotent (kube : Kube) (cr : Alert) :
    resolveChannelReferences kube (resolveChannelReferences kube cr).1 =
        resolveChannelReferences kube cr ∧
    ∀ cr' : Alert, cr'.forProvider = cr.forProvider →
      (resolveChannelReferences kube cr').2 = (resolveChannelReferences kube cr).2 ∧
      ((resolveChannelReferences kube cr).2 = none →
        (resolveChannelReferences kube cr').1.atProvider.ResolvedChannelIDs =
          (resolveChannelReferences kube cr).1.atProvider.ResolvedChannelIDs) := by
  rcases resolveChannelReferences_cases kube cr with ⟨err, h, hall⟩ | ⟨ids, h, hall⟩
  · refine ⟨?_, ?_⟩
    · rw [h, h]
    · intro cr' hcr'
      rw [h, hall cr' hcr']
      exact ⟨rfl, fun hn => by simp at hn⟩
  · refine ⟨?_, ?_⟩
    · rw [h]
      exact hall _ rfl
    · intro cr' hcr'
      rw [h, hall cr' hcr']
      exact ⟨rfl, fun _ => rfl⟩

/-- An explicit-reference loop fails exactly when some reference with a non-empty name
cannot be fetched. -/
theorem resolveExplicitRefs_error_iff (kube : Kube) (refs : List Reference)
    (acc : List String) :
    (∃ err, resolveExplicitRefs kube refs acc = .error err) ↔
      ∃ ref ∈ refs, ref.Name ≠ "" ∧ ∃ err, kube.getChannel ref.Name = .error err := by
  induction refs generalizing acc with
  | nil => simp [resolveExplicitRefs]
  | cons ref rest ih =>
    by_cases hn : ref.Name = ""
    · simp only [resolveExplicitRefs, hn, ne_eq, not_true_eq_false, if_false, ih,
        List.mem_cons, exists_eq_or_imp, false_and, false_or]
    · cases hg : kube.getChannel ref.Name with
      | error e =>
        simp only [resolveExplicitRefs, hn, ne_eq, not_false_eq_true, if_true, hg,
          List.mem_cons, exists_eq_or_imp, true_and]
        exact ⟨fun _ => Or.inl ⟨e, rfl⟩, fun _ => ⟨_, rfl⟩⟩
      | ok ch =>
        by_cases hid : ch.annotations.index externalNameKey = ""
        · simp [resolveExplicitRefs, hn, hg, hid, ih]
        · simp [resolveExplicitRefs, hn, hg, hid, ih]

/-- C4: with no preferred channel, no reference and no selector the resolution succeeds with
the empty list; it returns an error exactly when fetching a referenced channel (non-empty
name) fails or the listing for the selector fails; and on an error the record is unchanged. -/
theorem resolveChannelReferences_errors (kube : Kube) (cr : Alert) :
    (cr.forProvider.PreferredChannels = [] → cr.forProvider.ChannelIDsRef = [] →
      cr.forProvider.ChannelIDsSelector = none →
      resolveChannelReferences kube cr =
        ({ cr with atProvider := { cr.atProvider with ResolvedChannelIDs := [] } }, none)) ∧
    ((∃ err, (resolveChannelReferences kube cr).2 = some err) ↔
      ((∃ ref ∈ cr.forProvider.ChannelIDsRef, ref.Name ≠ "" ∧
          ∃ err, kube.getChannel ref.Name = .error err) ∨
        (∃ selector, cr.forProvider.ChannelIDsSelector = some selector ∧
          ∃ err, kube.listChannels (listOptionsOf selector) = .error err))) ∧
    (∀ err, (resolveChannelReferences kube cr).2 = some err →
      (resolveChannelReferences kube cr).1 = cr) := by
  refine ⟨?_, ?_, ?_⟩
  · intro hp hr hs
    simp [resolveChannelReferences, hp, hr, hs, resolveExplicitRefs, resolveSelector,
      removeDuplicates, removeDuplicatesLoop]
  · have hrefs := resolveExplicitRefs_error_iff kube cr.forProvider.ChannelIDsRef
      ([] ++ cr.forProvider.PreferredChannels)
    cases h₁ : resolveExplicitRefs kube cr.forProvider.ChannelIDsRef
        ([] ++ cr.forProvider.PreferredChannels) with
    | error err =>
      have hex := hrefs.mp ⟨err, h₁⟩
      simp only [resolveChannelReferences, h₁]
      exact ⟨fun _ => Or.inl hex, fun _ => ⟨err, rfl⟩⟩
    | ok ids₁ =>
      have hno : ¬ ∃ ref ∈ cr.forProvider.ChannelIDsRef, ref.Name ≠ "" ∧
          ∃ err, kube.getChannel ref.Name = .error err := by
        intro hex
        obtain ⟨e, he⟩ := hrefs.mpr hex
        rw [h₁] at he
        cases he
      cases hsel : cr.forProvider.ChannelIDsSelector with
      | none =>
        simp only [resolveChannelReferences, h₁, hsel, resolveSelector]
        constructor
        · rintro ⟨e, he⟩; cases he
        · rintro (hex | ⟨sel, hs, _⟩)
          · exact absurd hex hno
          · cases hs
      | some selector =>
        cases hl : kube.listChannels (listOptionsOf selector) with
        | error e =>
          simp only [resolveChannelReferences, h₁, hsel, resolveSelector, hl]
          exact ⟨fun _ => Or.inr ⟨selector, rfl, e, hl⟩, fun _ => ⟨_, rfl⟩⟩
        | ok items =>
          simp only [resolveChannelReferences, h₁, hsel, resolveSelector, hl]
          constructor
          · rintro ⟨e, he⟩; cases he
          · rintro (hex | ⟨sel, hs, e, he⟩)
            · exact absurd hex hno
            · cases hs
              rw [hl] at he
              cases he
  · intro err herr
    rcases resolveChannelReferences_cases kube cr with ⟨e, h, _⟩ | ⟨ids, h, _⟩
    · rw [h]
    · rw [h] at herr
      cases herr

end ReferenceResolution

/-! ## Theorems: Observe and Delete -/

section ObserveDelete

open clients

set_option maxRecDepth 10000

theorem index_eq_empty_of_noExternalName (annotations : GoMap String)
    (h : noExternalName annotations) : annotations.index externalNameKey = "" := by
  rcases h with h | h <;> simp [GoMap.index, h]

/-- C5: for a record of any kind whose external-name annotation is absent or empty, `Observe`
returns `ResourceExists = false` with no error, leaves the record unchanged and sends no
request; its whole outcome is the same for every client and store. -/
theorem Observe_without_external_name :
    (∀ (c c' : External) (cr : Alert), noExternalName cr.annotations →
      (alert.Observe c cr).record = cr ∧
      (alert.Observe c cr).result = .ok { ResourceExists := false, ResourceUpToDate := false } ∧
      (alert.Observe c cr).calls = [] ∧
      alert.Observe c' cr = alert.Observe c cr) ∧
    (∀ (c c' : External) (cr : Dashboard), noExternalName cr.annotations →
      (dashboard.Observe c cr).record = cr ∧
      (dashboard.Observe c cr).result =
        .ok { ResourceExists := false, ResourceUpToDate := false } ∧
      (dashboard.Observe c cr).calls = [] ∧
      dashboard.Observe c' cr = dashboard.Observe c cr) ∧
    (∀ (c c' : External) (cr : NotificationChannel), noExternalName cr.annotations →
      (channel.Observe c cr).record = cr ∧
      (channel.Observe c cr).result = .ok { ResourceExists := false, ResourceUpToDate := false } ∧
      (channel.Observe c cr).calls = [] ∧
      channel.Observe c' cr = channel.Observe c cr) := by
  refine ⟨?_, ?_, ?_⟩
  · intro c c' cr h
    have hi := index_eq_empty_of_noExternalName _ h
    simp [alert.Observe, hi]
  · intro c c' cr h
    have hi := index_eq_empty_of_noExternalName _ h
    simp [dashboard.Observe, hi]
  · intro c c' cr h
    have hi := index_eq_empty_of_noExternalName _ h
    simp [channel.Observe, hi]

/-- C5 on records never created: the default records have no annotation, and `Observe`
reports them absent without a request, whatever the remote system would answer. -/
theorem Observe_without_external_name_witness :
    noExternalName exampleAlert.annotations ∧
    (alert.Observe (exampleExternal exampleNotFound) exampleAlert).calls = [] ∧
    (dashboard.Observe (exampleExternal exampleNotFound) {}).calls = [] ∧
    (channel.Observe (exampleExternal exampleNotFound) {}).calls = [] :=
  have ha : noExternalName exampleAlert.annotations := Or.inl rfl
  have hd : noExternalName ({} : Dashboard).annotations := Or.inl rfl
  have hc : noExternalName ({} : NotificationChannel).annotations := Or.inl rfl
  ⟨ha,
    (Observe_without_external_name.1 _ (exampleExternal exampleNotFound) _ ha).2.2.1,
    (Observe_without_external_name.2.1 _ (exampleExternal exampleNotFound) _ hd).2.2.1,
    (Observe_without_external_name.2.2 _ (exampleExternal exampleNotFound) _ hc).2.2.1⟩

/-- What `doRequest` returns when the remote system answers with a status of 400 or more. -/
theorem doRequest_api_error (c : Client) (method path : String) (body : Payload)
    (resp : Response) (hans : answers c method path body resp) (hcode : resp.StatusCode ≥ 400) :
    doRequest c method path body =
      (.error ("API error: " ++ resp.Status ++ " - " ++ resp.Body),
        [requestOf c method path body]) := by
  obtain ⟨hreq, hdo⟩ := hans
  simp [doRequest, hreq, hdo, hcode]

/-- The error of a 404 answer mentions `404`, so `IsNotFound` accepts it. -/
theorem IsNotFound_of_status_404 (resp : Response) (hcode : resp.StatusCode = 404)
    (hline : resp.statusLineOk) :
    IsNotFound (some ("API error: " ++ resp.Status ++ " - " ++ resp.Body)) = true := by
  have h404 : (toString resp.StatusCode).data = "404".data := by rw [hcode]; rfl
  obtain ⟨t, ht⟩ := hline
  rw [h404] at ht
  have hinfix : "404".data <:+: ("API error: " ++ resp.Status ++ " - " ++ resp.Body).data := by
    refine ⟨"API error: ".data, t ++ " - ".data ++ resp.Body.data, ?_⟩
    simp only [String.data_append, ← ht, List.append_assoc]
  simp only [IsNotFound, strContains, Bool.or_eq_true, decide_eq_true_eq]
  exact Or.inl hinfix

/-- C6: when the remote system answers the `GET` of a record that has an external name with
status 404 (any body), the error `doRequest` builds is accepted by `IsNotFound`, and
`Observe` of every kind returns `ResourceExists = false` with no error and leaves the record,
its observed status included, unchanged. -/
theorem Observe_remote_not_found (c : External) (resp : Response)
    (hcode : resp.StatusCode = 404) (hline : resp.statusLineOk) :
    (∀ method path body, answers c.service method path body resp →
      (doRequest c.service method path body).1 =
          .error ("API error: " ++ resp.Status ++ " - " ++ resp.Body) ∧
        IsNotFound (some ("API error: " ++ resp.Status ++ " - " ++ resp.Body)) = true) ∧
    (∀ cr : Alert, cr.annotations.index externalNameKey ≠ "" →
      answers c.service "GET" ("/api/v1/rules/" ++ cr.annotations.index externalNameKey)
        .none resp →
      (alert.Observe c cr).record = cr ∧
      (alert.Observe c cr).result =
        .ok { ResourceExists := false, ResourceUpToDate := false }) ∧
    (∀ cr : Dashboard, cr.annotations.index externalNameKey ≠ "" →
      answers c.service "GET" ("/api/v1/dashboards/" ++ cr.annotations.index externalNameKey)
        .none resp →
      (dashboard.Observe c cr).record = cr ∧
      (dashboard.Observe c cr).result =
        .ok { ResourceExists := false, ResourceUpToDate := false }) ∧
    (∀ cr : NotificationChannel, cr.annotations.index externalNameKey ≠ "" →
      answers c.service "GET" ("/api/v1/channels/" ++ cr.annotations.index externalNameKey)
        .none resp →
      (channel.Observe c cr).record = cr ∧
      (channel.Observe c cr).result =
        .ok { ResourceExists := false, ResourceUpToDate := false }) := by
  have hge : resp.StatusCode ≥ 400 := by omega
  have hnf := IsNotFound_of_status_404 resp hcode hline
  refine ⟨?_, ?_, ?_, ?_⟩
  · intro method path body hans
    rw [doRequest_api_error c.service method path body resp hans hge]
    exact ⟨rfl, hnf⟩
  · intro cr hid hans
    have hreq := doRequest_api_error c.service _ _ _ resp hans hge
    simp [alert.Observe, hid, GetRule, hreq, hnf]
  · intro cr hid hans
    have hreq := doRequest_api_error c.service _ _ _ resp hans hge
    simp [dashboard.Observe, hid, GetDashboard, hreq, hnf]
  · intro cr hid hans
    have hreq := doRequest_api_error c.service _ _ _ resp hans hge
    simp [channel.Observe, hid, GetChannel, hreq, hnf]

/-- C6 on records that were created and then deleted out of band: the remote system answers
`404 Not Found` and `Observe` reports the alert, the dashboard and the channel absent. -/
theorem Observe_remote_not_found_witness :
    (alert.Observe (exampleExternal exampleNotFound) exampleAlert7).result =
        .ok { ResourceExists := false, ResourceUpToDate := false } ∧
    (dashboard.Observe (exampleExternal exampleNotFound) exampleDashboard7).result =
        .ok { ResourceExists := false, ResourceUpToDate := false } ∧
    (channel.Observe (exampleExternal exampleNotFound) exampleChannel7).result =
        .ok { ResourceExists := false, ResourceUpToDate := false } :=
  have h := Observe_remote_not_found (exampleExternal exampleNotFound) exampleNotFound rfl
    (by decide)
  ⟨(h.2.1 exampleAlert7 (by decide) ⟨rfl, rfl⟩).2,
    (h.2.2.1 exampleDashboard7 (by decide) ⟨rfl, rfl⟩).2,
    (h.2.2.2 exampleChannel7 (by decide) ⟨rfl, rfl⟩).2⟩

/-- C7: for every kind, `Delete` returns an error exactly when the record has a non-empty
external name and the remote delete fails with an error that `IsNotFound` rejects, and it
succeeds otherwise; so it succeeds without a request when there is no external name, and a
second `Delete` (on the record the first one left) succeeds when the remote system answers
not-found. -/
theorem Delete_error_iff :
    (∀ (c : External) (cr : Alert),
      ((∃ msg, (alert.Delete c cr).result = .error msg) ↔
        (cr.annotations.index externalNameKey ≠ "" ∧
          ∃ err, (DeleteRule c.service (cr.annotations.index externalNameKey)).1 = some err ∧
            IsNotFound (some err) = false)) ∧
      ((¬ ∃ msg, (alert.Delete c cr).result = .error msg) → (alert.Delete c cr).result = .ok ()) ∧
      (noExternalName cr.annotations →
        (alert.Delete c cr).result = .ok () ∧ (alert.Delete c cr).calls = []) ∧
      (∀ (c₂ : External) (err : String),
        (DeleteRule c₂.service (cr.annotations.index externalNameKey)).1 = some err →
        IsNotFound (some err) = true →
        (alert.Delete c₂ (alert.Delete c cr).record).result = .ok ())) ∧
    (∀ (c : External) (cr : Dashboard),
      ((∃ msg, (dashboard.Delete c cr).result = .error msg) ↔
        (cr.annotations.index externalNameKey ≠ "" ∧
          ∃ err, (DeleteDashboard c.service (cr.annotations.index externalNameKey)).1 = some err ∧
            IsNotFound (some err) = false)) ∧
      ((¬ ∃ msg, (dashboard.Delete c cr).result = .error msg) →
        (dashboard.Delete c cr).result = .ok ()) ∧
      (noExternalName cr.annotations →
        (dashboard.Delete c cr).result = .ok () ∧ (dashboard.Delete c cr).calls = []) ∧
      (∀ (c₂ : External) (err : String),
        (DeleteDashboard c₂.service (cr.annotations.index externalNameKey)).1 = some err →
        IsNotFound (some err) = true →
        (dashboard.Delete c₂ (dashboard.Delete c cr).record).result = .ok ())) ∧
    (∀ (c : External) (cr : NotificationChannel),
      ((∃ msg, (channel.Delete c cr).result = .error msg) ↔
        (cr.annotations.index externalNameKey ≠ "" ∧
          ∃ err, (DeleteChannel c.service (cr.annotations.index externalNameKey)).1 = some err ∧
            IsNotFound (some err) = false)) ∧
      ((¬ ∃ msg, (channel.Delete c cr).result = .error msg) →
        (channel.Delete c cr).result = .ok ()) ∧
      (noExternalName cr.annotations →
        (channel.Delete c cr).result = .ok () ∧ (channel.Delete c cr).calls = []) ∧
      (∀ (c₂ : External) (err : String),
        (DeleteChannel c₂.service (cr.annotations.index externalNameKey)).1 = some err →
        IsNotFound (some err) = true →
        (channel.Delete c₂ (channel.Delete c cr).record).result = .ok ())) := by
  refine ⟨?_, ?_, ?_⟩
  · intro c cr
    have hrec : ∀ c' : External, (alert.Delete c' cr).record = cr := by
      intro c'
      simp only [alert.Delete]
      split
      · rfl
      · split
        · split <;> rfl
        · rfl
    refine ⟨?_, ?_, ?_, ?_⟩
    · by_cases hid : cr.annotations.index externalNameKey = ""
      · simp [alert.Delete, hid]
      · rcases hd : DeleteRule c.service (cr.annotations.index externalNameKey) with ⟨_ | err, calls⟩
        · simp [alert.Delete, hid, hd]
        · cases hnf : IsNotFound (some err) <;> simp [alert.Delete, hid, hd, hnf]
    · by_cases hid : cr.annotations.index externalNameKey = ""
      · simp [alert.Delete, hid]
      · rcases hd : DeleteRule c.service (cr.annotations.index externalNameKey) with ⟨_ | err, calls⟩
        · simp [alert.Delete, hid, hd]
        · cases hnf : IsNotFound (some err) <;> simp [alert.Delete, hid, hd, hnf]
    · intro h
      simp [alert.Delete, index_eq_empty_of_noExternalName _ h]
    · intro c₂ err hd hnf
      rw [hrec c]
      by_cases hid : cr.annotations.index externalNameKey = ""
      · simp [alert.Delete, hid]
      · rcases hd' : DeleteRule c₂.service (cr.annotations.index externalNameKey) with ⟨e, calls⟩
        rw [hd'] at hd
        simp only at hd
        subst hd
        simp [alert.Delete, hid, hd', hnf]
  · intro c cr
    have hrec : ∀ c' : External, (dashboard.Delete c' cr).record = cr := by
      intro c'
      simp only [dashboard.Delete]
      split
      · rfl
      · split
        · split <;> rfl
        · rfl
    refine ⟨?_, ?_, ?_, ?_⟩
    · by_cases hid : cr.annotations.index externalNameKey = ""
      · simp [dashboard.Delete, hid]
      · rcases hd : DeleteDashboard c.service (cr.annotations.index externalNameKey)
          with ⟨_ | err, calls⟩
        · simp [dashboard.Delete, hid, hd]
        · cases hnf : IsNotFound (some err) <;> simp [dashboard.Delete, hid, hd, hnf]
    · by_cases hid : cr.annotations.index externalNameKey = ""
      · simp [dashboard.Delete, hid]
      · rcases hd : DeleteDashboard c.service (cr.annotations.index externalNameKey)
          with ⟨_ | err, calls⟩
        · simp [dashboard.Delete, hid, hd]
        · cases hnf : IsNotFound (some err) <;> simp [dashboard.Delete, hid, hd, hnf]
    · intro h
      simp [dashboard.Delete, index_eq_empty_of_noExternalName _ h]
    · intro c₂ err hd hnf
      rw [hrec c]
      by_cases hid : cr.annotations.index externalNameKey = ""
      · simp [dashboard.Delete, hid]
      · rcases hd' : DeleteDashboard c₂.service (cr.annotations.index externalNameKey)
          with ⟨e, calls⟩
        rw [hd'] at hd
        simp only at hd
        subst hd
        simp [dashboard.Delete, hid, hd', hnf]
  · intro c cr
    have hrec : ∀ c' : External, (channel.Delete c' cr).record = cr := by
      intro c'
      simp only [channel.Delete]
      split
      · rfl
      · split
        · split <;> rfl
        · rfl
    refine ⟨?_, ?_, ?_, ?_⟩
    · by_cases hid : cr.annotations.index externalNameKey = ""
      · simp [channel.Delete, hid]
      · rcases hd : DeleteChannel c.service (cr.annotations.index externalNameKey)
          with ⟨_ | err, calls⟩
        · simp [channel.Delete, hid, hd]
        · cases hnf : IsNotFound (some err) <;> simp [channel.Delete, hid, hd, hnf]
    · by_cases hid : cr.annotations.index externalNameKey = ""
      · simp [channel.Delete, hid]
      · rcases hd : DeleteChannel c.service (cr.annotations.index externalNameKey)
          with ⟨_ | err, calls⟩
        · simp [channel.Delete, hid, hd]
        · cases hnf : IsNotFound (some err) <;> simp [channel.Delete, hid, hd, hnf]
    · intro h
      simp [channel.Delete, index_eq_empty_of_noExternalName _ h]
    · intro c₂ err hd hnf
      rw [hrec c]
      by_cases hid : cr.annotations.index externalNameKey = ""
      · simp [channel.Delete, hid]
      · rcases hd' : DeleteChannel c₂.service (cr.annotations.index externalNameKey)
          with ⟨e, calls⟩
        rw [hd'] at hd
        simp only at hd
        subst hd
        simp [channel.Delete, hid, hd', hnf]

/-- C7 on a record deleted twice: the first `Delete` is answered `200 OK`, the second
`404 Not Found`, and the second call succeeds. -/
theorem Delete_error_iff_witness :
    (alert.Delete (exampleExternal exampleNotFound)
      (alert.Delete (exampleExternal exampleDeleted) exampleAlert7).record).result = .ok () ∧
    (dashboard.Delete (exampleExternal exampleNotFound)
      (dashboard.Delete (exampleExternal exampleDeleted) exampleDashboard7).record).result =
        .ok () ∧
    (channel.Delete (exampleExternal exampleNotFound)
      (channel.Delete (exampleExternal exampleDeleted) exampleChannel7).record).result = .ok () :=
  ⟨(Delete_error_iff.1 (exampleExternal exampleDeleted) exampleAlert7).2.2.2
      (exampleExternal exampleNotFound) "API error: 404 Not Found - no such resource" rfl
      (by decide),
    (Delete_error_iff.2.1 (exampleExternal exampleDeleted) exampleDashboard7).2.2.2
      (exampleExternal exampleNotFound) "API error: 404 Not Found - no such resource" rfl
      (by decide),
    (Delete_error_iff.2.2 (exampleExternal exampleDeleted) exampleChannel7).2.2.2
      (exampleExternal exampleNotFound) "API error: 404 Not Found - no such resource" rfl
      (by decide)⟩

/-- A pattern that does not contain `c` occurs in `xs ++ c :: ys` only inside `xs` or inside
`ys`. -/
theorem infix_split_at {α : Type} (p xs ys : List α) (c : α) (hc : c ∉ p)
    (h : p <:+: xs ++ c :: ys) : p <:+: xs ∨ p <:+: ys := by
  obtain ⟨s, t, h⟩ := h
  rcases List.append_eq_append_iff.mp h with ⟨a', hxs, _⟩ | ⟨c', hsp, hcy⟩
  · exact Or.inl ⟨s, a', hxs.symm⟩
  · cases c' with
    | nil =>
      rw [List.append_nil] at hsp
      exact Or.inl ⟨s, [], by rw [List.append_nil]; exact hsp⟩
    | cons d c'' =>
      rw [List.cons_append] at hcy
      injection hcy with hd hys
      subst hd
      rcases List.append_eq_append_iff.mp hsp with ⟨a', _, hp⟩ | ⟨d', hs, hcp⟩
      · exact absurd (by rw [hp]; simp) hc
      · cases d' with
        | nil =>
          rw [List.nil_append] at hcp
          exact absurd (by rw [← hcp]; simp) hc
        | cons e d'' =>
          rw [List.cons_append] at hcp
          injection hcp with _ hc''
          right
          refine ⟨d'', t, ?_⟩
          rw [hys, hc'']

theorem infix_of_append_left {α : Type} (p xs ys : List α) (h : p <:+: xs) : p <:+: xs ++ ys := by
  obtain ⟨s, t, h⟩ := h
  exact ⟨s, t ++ ys, by rw [← h]; simp⟩

theorem infix_of_append_right {α : Type} (p xs ys : List α) (h : p <:+: ys) : p <:+: xs ++ ys := by
  obtain ⟨s, t, h⟩ := h
  exact ⟨xs ++ s, t, by rw [← h]; simp⟩

theorem infix_404_message (S B : List Char) :
    "404".data <:+: "API error: ".data ++ S ++ " - ".data ++ B ↔
      "404".data <:+: S ∨ "404".data <:+: B := by
  constructor
  · intro h
    have h1 : "404".data <:+: "API error:".data ++ ' ' :: (S ++ ' ' :: ('-' :: ' ' :: B)) := by
      simpa using h
    rcases infix_split_at _ _ _ _ (by decide) h1 with h2 | h2
    · exact absurd h2 (by decide)
    · rcases infix_split_at _ _ _ _ (by decide) h2 with h3 | h3
      · exact Or.inl h3
      · rcases infix_split_at _ [] _ '-' (by decide) h3 with h4 | h4
        · exact absurd h4 (by decide)
        · rcases infix_split_at _ [] _ ' ' (by decide) h4 with h5 | h5
          · exact absurd h5 (by decide)
          · exact Or.inr h5
  · rintro (h | h)
    · have := infix_of_append_left _ _ (" - ".data ++ B) (infix_of_append_right _ "API error: ".data _ h)
      simpa using this
    · exact infix_of_append_right _ _ _ h

theorem infix_notfound_message (S B : List Char) :
    "not found".data <:+: "API error: ".data ++ S ++ " - ".data ++ B ↔
      "not found".data <:+: S ∨ "not found".data <:+: B := by
  constructor
  · intro h
    have h1 : "not found".data <:+: "API error".data ++ ':' :: ((' ' :: (S ++ [' '])) ++ '-' :: (' ' :: B)) := by
      simpa using h
    rcases infix_split_at _ _ _ _ (by decide) h1 with h2 | h2
    · exact absurd h2 (by decide)
    · rcases infix_split_at _ _ _ _ (by decide) h2 with h3 | h3
      · left
        rcases List.infix_cons_iff.mp h3 with h4 | h4
        · rcases List.prefix_cons_iff.mp h4 with h5 | ⟨t, h5, _⟩
          · exact absurd h5 (by decide)
          · injection h5 with h6 _
            exact absurd h6 (by decide)
        · rcases List.infix_concat_iff.mp h4 with h5 | h5
          · have h6 := List.reverse_prefix.mpr h5
            rw [List.reverse_append] at h6
            rcases List.prefix_cons_iff.mp h6 with h7 | ⟨t, h7, _⟩
            · exact absurd h7 (by decide)
            · have h8 : "not found".data.reverse = 'd' :: "not foun".data.reverse := by decide
              rw [h8] at h7
              injection h7 with h9 _
              exact absurd h9 (by decide)
          · exact h5
      · right
        rcases List.infix_cons_iff.mp h3 with h4 | h4
        · rcases List.prefix_cons_iff.mp h4 with h5 | ⟨t, h5, _⟩
          · exact absurd h5 (by decide)
          · injection h5 with h6 _
            exact absurd h6 (by decide)
        · exact h4
  · rintro (h | h)
    · have := infix_of_append_left _ _ (" - ".data ++ B) (infix_of_append_right _ "API error: ".data _ h)
      simpa using this
    · exact infix_of_append_right _ _ _ h

/-- What `IsNotFound` answers on the error `doRequest` builds for a status of 400 or more:
it looks for `404` and `not found` in the status text and in the body. -/
theorem IsNotFound_api_error (status body : String) :
    IsNotFound (some ("API error: " ++ status ++ " - " ++ body)) =
      (strContains status "404" || strContains body "404" ||
        strContains status "not found" || strContains body "not found") := by
  have h1 := infix_404_message status.data body.data
  have h2 := infix_notfound_message status.data body.data
  simp only [IsNotFound, strContains, String.data_append]
  rw [Bool.eq_iff_iff]
  simp only [Bool.or_eq_true, decide_eq_true_eq, h1, h2, or_assoc]

/-- C8, as stated, fails: a `500` answer whose body mentions `not found` is an error that
`IsNotFound` accepts, and `Delete` swallows it. -/
theorem Delete_swallows_server_error :
    exampleServerError.StatusCode ≥ 400 ∧ exampleServerError.StatusCode ≠ 404 ∧
    exampleServerError.statusLineOk ∧
    answers (exampleExternal exampleServerError).service "DELETE" "/api/v1/channels/7" .none
      exampleServerError ∧
    (doRequest (exampleExternal exampleServerError).service "DELETE" "/api/v1/channels/7"
      .none).1 =
        .error "API error: 500 Internal Server Error - alertmanager config not found" ∧
    IsNotFound (some "API error: 500 Internal Server Error - alertmanager config not found") =
      true ∧
    (channel.Delete (exampleExternal exampleServerError) exampleChannel7).result = .ok () := by
  refine ⟨by decide, by decide, by decide, ⟨rfl, rfl⟩, rfl, by decide, ?_⟩
  have hnf : IsNotFound
      (some "API error: 500 Internal Server Error - alertmanager config not found") = true := by
    decide
  have hd : DeleteChannel (exampleExternal exampleServerError).service
      (exampleChannel7.annotations.index externalNameKey) =
        (some "API error: 500 Internal Server Error - alertmanager config not found",
          [requestOf (exampleExternal exampleServerError).service "DELETE"
            "/api/v1/channels/7" .none]) := rfl
  have hid : exampleChannel7.annotations.index externalNameKey ≠ "" := by decide
  simp only [channel.Delete, hid, if_false, hd, hnf, Bool.not_true]
  rfl

/-- C8, amended: when the remote system answers a delete with a status of 400 or more and
neither the status text nor the body contains `404` or `not found`, the error `doRequest`
builds is rejected by `IsNotFound` and `Delete` of every kind returns an error wrapping it. -/
theorem Delete_error_unless_text_matches (c : External) (resp : Response)
    (hcode : resp.StatusCode ≥ 400)
    (hs404 : strContains resp.Status "404" = false)
    (hb404 : strContains resp.Body "404" = false)
    (hsnf : strContains resp.Status "not found" = false)
    (hbnf : strContains resp.Body "not found" = false) :
    IsNotFound (some ("API error: " ++ resp.Status ++ " - " ++ resp.Body)) = false ∧
    (∀ cr : Alert, cr.annotations.index externalNameKey ≠ "" →
      answers c.service "DELETE" ("/api/v1/rules/" ++ cr.annotations.index externalNameKey)
        .none resp →
      (alert.Delete c cr).result =
        .error (wrap ("API error: " ++ resp.Status ++ " - " ++ resp.Body)
          alert.errDeleteAlert)) ∧
    (∀ cr : Dashboard, cr.annotations.index externalNameKey ≠ "" →
      answers c.service "DELETE" ("/api/v1/dashboards/" ++ cr.annotations.index externalNameKey)
        .none resp →
      (dashboard.Delete c cr).result =
        .error (wrap ("API error: " ++ resp.Status ++ " - " ++ resp.Body)
          dashboard.errDeleteDashboard)) ∧
    (∀ cr : NotificationChannel, cr.annotations.index externalNameKey ≠ "" →
      answers c.service "DELETE" ("/api/v1/channels/" ++ cr.annotations.index externalNameKey)
        .none resp →
      (channel.Delete c cr).result =
        .error (wrap ("API error: " ++ resp.Status ++ " - " ++ resp.Body)
          channel.errDeleteChannel)) := by
  have hnf : IsNotFound (some ("API error: " ++ resp.Status ++ " - " ++ resp.Body)) = false := by
    rw [IsNotFound_api_error, hs404, hb404, hsnf, hbnf]
    rfl
  refine ⟨hnf, ?_, ?_, ?_⟩
  · intro cr hid hans
    have hreq := doRequest_api_error c.service _ _ _ resp hans hcode
    simp [alert.Delete, hid, DeleteRule, hreq, hnf]
  · intro cr hid hans
    have hreq := doRequest_api_error c.service _ _ _ resp hans hcode
    simp [dashboard.Delete, hid, DeleteDashboard, hreq, hnf]
  · intro cr hid hans
    have hreq := doRequest_api_error c.service _ _ _ resp hans hcode
    simp [channel.Delete, hid, DeleteChannel, hreq, hnf]

/-- C8, amended, on a `503 Service Unavailable` answer: `Delete` of a channel returns the
error. -/
theorem Delete_error_unless_text_matches_witness :
    (channel.Delete (exampleExternal exampleUnavailable) exampleChannel7).result =
      .error (wrap "API error: 503 Service Unavailable - try again later"
        channel.errDeleteChannel) :=
  (Delete_error_unless_text_matches (exampleExternal exampleUnavailable) exampleUnavailable
    (by decide) (by decide) (by decide) (by decide) (by decide)).2.2.2 exampleChannel7
    (by decide) ⟨rfl, rfl⟩

end ObserveDelete

/-! ## Theorems: drift comparison -/

section Drift

open clients

/-- In a list with pairwise different keys, an entry is what `lookup` finds under its key. -/
theorem lookup_of_mem_nodupKeys {α : Type} (l : List (String × α))
    (hnd : (l.map Prod.fst).Nodup) (k : String) (v : α) (hmem : (k, v) ∈ l) :
    l.lookup k = some v := by
  induction l with
  | nil => cases hmem
  | cons e rest ih =>
    obtain ⟨k', v'⟩ := e
    rw [List.map_cons, List.nodup_cons] at hnd
    rcases List.mem_cons.mp hmem with h | h
    · injection h with hk hv
      subst hk hv
      simp [List.lookup]
    · have hne : k ≠ k' := by
        intro hk
        apply hnd.1
        rw [← hk]
        exact List.mem_map.mpr ⟨(k, v), h, rfl⟩
      have hbeq : (k == k') = false := by simpa using hne
      simp only [List.lookup, hbeq]
      exact ih hnd.2 h

theorem GoMap.index_of_mem (m : GoMap String) (k v : String) (hmem : (k, v) ∈ m.entries) :
    m.index k = v := by
  simp [GoMap.index, GoMap.find?, lookup_of_mem_nodupKeys m.entries m.nodupKeys k v hmem]

/-- What `mapsEqual` computes: equal lengths, and every entry of `a` is what `b[k]` reads. -/
theorem mapsEqual_eq_true_iff (a b : GoMap String) :
    alert.mapsEqual a b = true ↔
      a.len = b.len ∧ ∀ e ∈ a.entries, b.index e.1 = e.2 := by
  by_cases hlen : a.len = b.len
  · simp [alert.mapsEqual, hlen, List.all_eq_true]
  · simp [alert.mapsEqual, hlen]

theorem mapsEqual_self (a : GoMap String) : alert.mapsEqual a a = true := by
  rw [mapsEqual_eq_true_iff]
  exact ⟨rfl, fun e he => a.index_of_mem e.1 e.2 he⟩

/-- The tag loop succeeds on the tail of the list it compares with. -/
theorem tagsLoop_suffix (pre rest : List String) :
    dashboard.tagsLoop (pre ++ rest) rest pre.length = true := by
  induction rest generalizing pre with
  | nil => simp [dashboard.tagsLoop]
  | cons tag rest ih =>
    have hlt : pre.length < (pre ++ tag :: rest).length := by simp
    have hget : (pre ++ tag :: rest).getD pre.length "" = tag := by
      rw [List.getD_eq_getElem?_getD, List.getElem?_append_right (le_refl _)]
      simp
    have hstep := ih (pre ++ [tag])
    simp only [List.append_assoc, List.singleton_append, List.length_append,
      List.length_singleton] at hstep
    simp only [dashboard.tagsLoop, hget, ne_eq, not_true_eq_false, decide_False, Bool.or_false,
      decide_eq_true_eq, not_le.mpr hlt, if_false]
    exact hstep

theorem tagsLoop_self (tags : List String) : dashboard.tagsLoop tags tags 0 = true :=
  tagsLoop_suffix [] tags

/-- Every request `doRequest` sends is the one built from its arguments. -/
theorem doRequest_calls (c : Client) (method path : String) (body : Payload) (req : Request)
    (hreq : req ∈ (doRequest c method path body).2) : req = requestOf c method path body := by
  simp only [doRequest] at hreq
  split at hreq
  · cases hreq
  · split at hreq
    · simpa using hreq
    · split at hreq <;> simpa using hreq

theorem resolveChannelReferences_forProvider (kube : Kube) (cr : Alert) :
    (alert.resolveChannelReferences kube cr).1.forProvider = cr.forProvider := by
  rcases resolveChannelReferences_cases kube cr with ⟨err, h, _⟩ | ⟨ids, h, _⟩ <;> rw [h]

theorem isAlertUpToDate_ruleDataOf (cr : Alert) :
    alert.isAlertUpToDate cr.forProvider (alert.ruleDataOf cr) = true := by
  simp [alert.isAlertUpToDate, alert.ruleDataOf, mapsEqual_self]

theorem isDashboardUpToDate_dashboardDataOf (cr : Dashboard) :
    dashboard.isDashboardUpToDate cr.forProvider (dashboard.dashboardDataOf cr) = true := by
  cases hd : cr.forProvider.Description <;>
    simp [dashboard.isDashboardUpToDate, dashboard.dashboardDataOf, hd, tagsLoop_self]

theorem withFirst_name_type {γ : Type} (channelData d : ChannelData) (configs : List γ)
    (convert : γ → Except String Obj) (h : channel.withFirst channelData configs convert = .ok d) :
    d.Name = channelData.Name ∧ d.Type_ = channelData.Type_ := by
  cases configs with
  | nil =>
    simp only [channel.withFirst] at h
    injection h with h
    subst h
    exact ⟨rfl, rfl⟩
  | cons config rest =>
    simp only [channel.withFirst] at h
    cases hc : convert config with
    | error err => rw [hc] at h; cases h
    | ok data =>
      rw [hc] at h
      injection h with h
      subst h
      exact ⟨rfl, rfl⟩

theorem convertToChannelData_name_type (kube : Kube) (spec : NotificationChannelParameters)
    (d : ChannelData) (h : channel.convertToChannelData kube spec = .ok d) :
    d.Name = spec.Name ∧ d.Type_ = spec.Type_ := by
  simp only [channel.convertToChannelData] at h
  split_ifs at h
  all_goals exact withFirst_name_type _ _ _ _ h

theorem isChannelUpToDate_convertToChannelData (kube : Kube)
    (spec : NotificationChannelParameters) (d : ChannelData)
    (h : channel.convertToChannelData kube spec = .ok d) :
    channel.isChannelUpToDate spec d = true := by
  obtain ⟨hn, ht⟩ := convertToChannelData_name_type kube spec d h
  simp [channel.isChannelUpToDate, hn, ht]

/-- The requests of `alert.Create` are those of the `POST` of the rule payload built after
resolution. -/
theorem alert_Create_calls (c : External) (cr : Alert) (req : Request)
    (h : req ∈ (alert.Create c cr).calls) :
    req ∈ (doRequest c.service "POST" "/api/v1/rules"
      (.rule (alert.ruleDataOf (alert.resolveChannelReferences c.kube cr).1))).2 := by
  simp only [alert.Create, CreateRule] at h
  rcases hres : alert.resolveChannelReferences c.kube cr with ⟨cr', _ | err⟩
  · rw [hres] at h
    simp only at h ⊢
    rcases hdo : doRequest c.service "POST" "/api/v1/rules" (.rule (alert.ruleDataOf cr'))
      with ⟨_ | resp, calls⟩
    · rw [hdo] at h
      simpa using h
    · rw [hdo] at h
      simp only at h
      generalize parseResponse c.service.unmarshalRule resp Option.none = pr at h
      rcases pr with _ | _ | _ <;> simpa using h
  · rw [hres] at h
    simp at h

/-- The requests of `alert.Update` are those of the `PUT` of the rule payload built after
resolution, addressed to the external name. -/
theorem alert_Update_calls (c : External) (cr : Alert) (req : Request)
    (h : req ∈ (alert.Update c cr).calls) :
    req ∈ (doRequest c.service "PUT" ("/api/v1/rules/" ++ cr.annotations.index externalNameKey)
      (.rule (alert.ruleDataOf (alert.resolveChannelReferences c.kube cr).1))).2 := by
  simp only [alert.Update, UpdateRule] at h
  split at h
  · simp at h
  · rcases hres : alert.resolveChannelReferences c.kube cr with ⟨cr', _ | err⟩
    · rw [hres] at h
      simp only at h ⊢
      rcases hdo : doRequest c.service "PUT"
          ("/api/v1/rules/" ++ cr.annotations.index externalNameKey)
          (.rule (alert.ruleDataOf cr')) with ⟨_ | resp, calls⟩
      · rw [hdo] at h
        simpa using h
      · rw [hdo] at h
        simp only at h
        generalize parseResponse c.service.unmarshalRule resp Option.none = pr at h
        rcases pr with _ | _ <;> simpa using h
    · rw [hres] at h
      simp at h

theorem dashboard_Create_calls (c : External) (cr : Dashboard) (req : Request)
    (h : req ∈ (dashboard.Create c cr).calls) :
    req ∈ (doRequest c.service "POST" "/api/v1/dashboards"
      (.dashboard (dashboard.dashboardDataOf cr))).2 := by
  simp only [dashboard.Create, CreateDashboard] at h
  rcases hdo : doRequest c.service "POST" "/api/v1/dashboards"
      (.dashboard (dashboard.dashboardDataOf cr)) with ⟨_ | resp, calls⟩
  · rw [hdo] at h
    simpa using h
  · rw [hdo] at h
    simp only at h
    generalize parseResponse c.service.unmarshalDashboard resp Option.none = pr at h
    rcases pr with _ | _ | _ <;> simpa using h

theorem dashboard_Update_calls (c : External) (cr : Dashboard) (req : Request)
    (h : req ∈ (dashboard.Update c cr).calls) :
    req ∈ (doRequest c.service "PUT"
      ("/api/v1/dashboards/" ++ cr.annotations.index externalNameKey)
      (.dashboard (dashboard.dashboardDataOf cr))).2 := by
  simp only [dashboard.Update, UpdateDashboard] at h
  split at h
  · simp at h
  · rcases hdo : doRequest c.service "PUT"
        ("/api/v1/dashboards/" ++ cr.annotations.index externalNameKey)
        (.dashboard (dashboard.dashboardDataOf cr)) with ⟨_ | resp, calls⟩
    · rw [hdo] at h
      simpa using h
    · rw [hdo] at h
      simp only at h
      generalize parseResponse c.service.unmarshalDashboard resp Option.none = pr at h
      rcases pr with _ | _ <;> simpa using h

theorem channel_Create_calls (c : External) (cr : NotificationChannel) (req : Request)
    (h : req ∈ (channel.Create c cr).calls) :
    ∃ d, channel.convertToChannelData c.kube cr.forProvider = .ok d ∧
      req ∈ (doRequest c.service "POST" "/api/v1/channels" (.channel d)).2 := by
  simp only [channel.Create, CreateChannel] at h
  rcases hconv : channel.convertToChannelData c.kube cr.forProvider with err | d
  · rw [hconv] at h
    simp at h
  · rw [hconv] at h
    refine ⟨d, rfl, ?_⟩
    simp only at h
    rcases hdo : doRequest c.service "POST" "/api/v1/channels" (.channel d)
      with ⟨_ | resp, calls⟩
    · rw [hdo] at h
      simpa using h
    · rw [hdo] at h
      simp only at h
      generalize parseResponse c.service.unmarshalChannel resp Option.none = pr at h
      rcases pr with _ | _ | _ <;> simpa using h

theorem channel_Update_calls (c : External) (cr : NotificationChannel) (req : Request)
    (h : req ∈ (channel.Update c cr).calls) :
    ∃ d, channel.convertToChannelData c.kube cr.forProvider = .ok d ∧
      req ∈ (doRequest c.service "PUT"
        ("/api/v1/channels/" ++ cr.annotations.index externalNameKey) (.channel d)).2 := by
  simp only [channel.Update, UpdateChannel] at h
  split at h
  · simp at h
  · rcases hconv : channel.convertToChannelData c.kube cr.forProvider with err | d
    · rw [hconv] at h
      simp at h
    · rw [hconv] at h
      refine ⟨d, rfl, ?_⟩
      simp only at h
      rcases hdo : doRequest c.service "PUT"
          ("/api/v1/channels/" ++ cr.annotations.index externalNameKey) (.channel d)
        with ⟨_ | resp, calls⟩
      · rw [hdo] at h
        simpa using h
      · rw [hdo] at h
        simp only at h
        generalize parseResponse c.service.unmarshalChannel resp Option.none = pr at h
        rcases pr with _ | _ <;> simpa using h

/-- C9: the drift comparators accept the payload the reconciler builds from the same spec:
`isAlertUpToDate` on the rule payload of `Create`/`Update` (any resolved channel list),
`isDashboardUpToDate` on the dashboard payload (description absent or present, any tags) and
`isChannelUpToDate` on the result of a successful `convertToChannelData`; and every payload
that `Create` or `Update` sends to the remote system is accepted for the record's spec. -/
theorem drift_comparator_reflexive :
    (∀ cr : Alert, alert.isAlertUpToDate cr.forProvider (alert.ruleDataOf cr) = true) ∧
    (∀ cr : Dashboard,
      dashboard.isDashboardUpToDate cr.forProvider (dashboard.dashboardDataOf cr) = true) ∧
    (∀ (kube : Kube) (spec : NotificationChannelParameters) (d : ChannelData),
      channel.convertToChannelData kube spec = .ok d →
      channel.isChannelUpToDate spec d = true) ∧
    (∀ (c : External) (cr : Alert) (req : Request),
      req ∈ (alert.Create c cr).calls ++ (alert.Update c cr).calls →
      ∃ p, req.body = .rule p ∧ alert.isAlertUpToDate cr.forProvider p = true) ∧
    (∀ (c : External) (cr : Dashboard) (req : Request),
      req ∈ (dashboard.Create c cr).calls ++ (dashboard.Update c cr).calls →
      ∃ p, req.body = .dashboard p ∧
        dashboard.isDashboardUpToDate cr.forProvider p = true) ∧
    (∀ (c : External) (cr : NotificationChannel) (req : Request),
      req ∈ (channel.Create c cr).calls ++ (channel.Update c cr).calls →
      ∃ p, req.body = .channel p ∧ channel.isChannelUpToDate cr.forProvider p = true) := by
  refine ⟨isAlertUpToDate_ruleDataOf, isDashboardUpToDate_dashboardDataOf,
    isChannelUpToDate_convertToChannelData, ?_, ?_, ?_⟩
  · intro c cr req hreq
    have hup := isAlertUpToDate_ruleDataOf (alert.resolveChannelReferences c.kube cr).1
    rw [resolveChannelReferences_forProvider] at hup
    rcases List.mem_append.mp hreq with h | h
    · rw [doRequest_calls _ _ _ _ _ (alert_Create_calls c cr req h)]
      exact ⟨_, rfl, hup⟩
    · rw [doRequest_calls _ _ _ _ _ (alert_Update_calls c cr req h)]
      exact ⟨_, rfl, hup⟩
  · intro c cr req hreq
    rcases List.mem_append.mp hreq with h | h
    · rw [doRequest_calls _ _ _ _ _ (dashboard_Create_calls c cr req h)]
      exact ⟨_, rfl, isDashboardUpToDate_dashboardDataOf cr⟩
    · rw [doRequest_calls _ _ _ _ _ (dashboard_Update_calls c cr req h)]
      exact ⟨_, rfl, isDashboardUpToDate_dashboardDataOf cr⟩
  · intro c cr req hreq
    rcases List.mem_append.mp hreq with h | h
    · obtain ⟨d, hd, hmem⟩ := channel_Create_calls c cr req h
      rw [doRequest_calls _ _ _ _ _ hmem]
      exact ⟨_, rfl, isChannelUpToDate_convertToChannelData _ _ _ hd⟩
    · obtain ⟨d, hd, hmem⟩ := channel_Update_calls c cr req h
      rw [doRequest_calls _ _ _ _ _ hmem]
      exact ⟨_, rfl, isChannelUpToDate_convertToChannelData _ _ _ hd⟩

/-- C10, at the failing input: `mapsEqual` accepts `{"x": ""}` against `{"y": "z"}`, two
maps of the same size that share no key, because `b["x"]` reads the zero value `""`; in the
other direction it rejects them. -/
theorem mapsEqual_accepts_different_maps :
    alert.mapsEqual exampleLabelsEmptyValue exampleLabelsOther = true ∧
    exampleLabelsEmptyValue.len = exampleLabelsOther.len ∧
    exampleLabelsEmptyValue.find? "x" = some "" ∧
    exampleLabelsOther.find? "x" = none ∧
    alert.mapsEqual exampleLabelsOther exampleLabelsEmptyValue = false := by
  decide

end Drift

/-! ## Theorems: what the comparators compare -/

section Comparators

open clients

/-- The tag loop started at index `i` succeeds exactly when the tags it walks are a prefix of
the observed tags from position `i` on. -/
theorem tagsLoop_eq_true_iff (tags rest : List String) (i : Nat) :
    dashboard.tagsLoop tags rest i = true ↔ rest <+: tags.drop i := by
  induction rest generalizing i with
  | nil => simp [dashboard.tagsLoop]
  | cons tag rest ih =>
    by_cases hi : i < tags.length
    · have hget : tags.getD i "" = tags[i] := by
        rw [List.getD_eq_getElem?_getD, List.getElem?_eq_getElem hi]
        rfl
      rw [List.drop_eq_getElem_cons hi, List.cons_prefix_cons, ← ih (i + 1)]
      by_cases htag : tag = tags[i]
      · simp [dashboard.tagsLoop, hget, htag, hi, -List.getD_eq_getElem?_getD]
      · simp [dashboard.tagsLoop, hget, htag, -List.getD_eq_getElem?_getD]
    · have hle : tags.length ≤ i := Nat.le_of_not_lt hi
      rw [List.drop_eq_nil_of_le hle, List.prefix_nil]
      simp [dashboard.tagsLoop, hle]

/-- C11: `isDashboardUpToDate` is true exactly when the titles are equal, the spec description
(absent read as `""`) equals the observed one, and the tag lists have the same length and
the same tag at every position, that is, are the same list; so tag lists that are
permutations of each other without being identical are reported as drift, as for
`["a","b"]` against `["b","a"]`. -/
theorem isDashboardUpToDate_eq_true_iff (spec : DashboardParameters) (d : DashboardData) :
    (dashboard.isDashboardUpToDate spec d = true ↔
      spec.Title = d.Title ∧ spec.Description.getD "" = d.Description ∧
        spec.Tags.length = d.Tags.length ∧ ∀ i : Nat, spec.Tags[i]? = d.Tags[i]?) ∧
    (dashboard.isDashboardUpToDate spec d = true ↔
      spec.Title = d.Title ∧ spec.Description.getD "" = d.Description ∧ spec.Tags = d.Tags) ∧
    (spec.Tags.Perm d.Tags → spec.Tags ≠ d.Tags →
      dashboard.isDashboardUpToDate spec d = false) ∧
    dashboard.isDashboardUpToDate { Title := "t", Tags := ["a", "b"] }
      { Title := "t", Tags := ["b", "a"] } = false := by
  have hdesc : (match spec.Description with | some d => d | none => "") =
      spec.Description.getD "" := by
    cases spec.Description <;> rfl
  have hiff : dashboard.isDashboardUpToDate spec d = true ↔
      spec.Title = d.Title ∧ spec.Description.getD "" = d.Description ∧ spec.Tags = d.Tags := by
    simp only [dashboard.isDashboardUpToDate, hdesc]
    by_cases ht : spec.Title = d.Title
    · by_cases hd : spec.Description.getD "" = d.Description
      · by_cases hl : spec.Tags.length = d.Tags.length
        · simp only [ht, hd, hl, ne_eq, not_true_eq_false, if_false, true_and,
            tagsLoop_eq_true_iff, List.drop_zero]
          exact ⟨fun h => h.eq_of_length hl, fun h => h ▸ List.prefix_refl _⟩
        · have hne : spec.Tags ≠ d.Tags := fun h => hl (by rw [h])
          simp [ht, hd, hl, hne]
      · simp [ht, hd]
    · simp [ht]
  refine ⟨?_, hiff, ?_, by decide⟩
  · rw [hiff]
    constructor
    · rintro ⟨ht, hd, htags⟩
      exact ⟨ht, hd, by rw [htags], fun i => by rw [htags]⟩
    · rintro ⟨ht, hd, _, hpos⟩
      exact ⟨ht, hd, List.ext_getElem? hpos⟩
  · intro _ hne
    cases h : dashboard.isDashboardUpToDate spec d
    · rfl
    · exact absurd (hiff.mp h).2.2 hne

/-- C12: `isAlertUpToDate` is true exactly when `alertName`, `alertType`, `evalWindow`,
`frequency` and `disabled` are equal and `mapsEqual` holds for the labels and for the
annotations; a difference in one of the five scalar fields gives false, and so does a label
key of the spec for which the rule reads another value (in particular one that the rule
holds with another value). -/
theorem isAlertUpToDate_eq_true_iff (spec : AlertParameters) (rule : RuleData) :
    (alert.isAlertUpToDate spec rule = true ↔
      spec.AlertName = rule.AlertName ∧ spec.AlertType = rule.AlertType ∧
      spec.EvalWindow = rule.EvalWindow ∧ spec.Frequency = rule.Frequency ∧
      spec.Disabled = rule.Disabled ∧
      alert.mapsEqual spec.Labels rule.Labels = true ∧
      alert.mapsEqual spec.Annotations rule.Annotations = true) ∧
    ((spec.AlertName ≠ rule.AlertName ∨ spec.AlertType ≠ rule.AlertType ∨
        spec.EvalWindow ≠ rule.EvalWindow ∨ spec.Frequency ≠ rule.Frequency ∨
        spec.Disabled ≠ rule.Disabled) →
      alert.isAlertUpToDate spec rule = false) ∧
    (∀ k v, (k, v) ∈ spec.Labels.entries → rule.Labels.index k ≠ v →
      alert.isAlertUpToDate spec rule = false) ∧
    (∀ k v v', (k, v) ∈ spec.Labels.entries → rule.Labels.find? k = some v' → v' ≠ v →
      alert.isAlertUpToDate spec rule = false) := by
  have hiff : alert.isAlertUpToDate spec rule = true ↔
      spec.AlertName = rule.AlertName ∧ spec.AlertType = rule.AlertType ∧
      spec.EvalWindow = rule.EvalWindow ∧ spec.Frequency = rule.Frequency ∧
      spec.Disabled = rule.Disabled ∧
      alert.mapsEqual spec.Labels rule.Labels = true ∧
      alert.mapsEqual spec.Annotations rule.Annotations = true := by
    simp only [alert.isAlertUpToDate]
    by_cases h1 : spec.AlertName = rule.AlertName <;>
    by_cases h2 : spec.AlertType = rule.AlertType <;>
    by_cases h3 : spec.EvalWindow = rule.EvalWindow <;>
    by_cases h4 : spec.Frequency = rule.Frequency <;>
    by_cases h5 : spec.Disabled = rule.Disabled <;>
    cases h6 : alert.mapsEqual spec.Labels rule.Labels <;>
    cases h7 : alert.mapsEqual spec.Annotations rule.Annotations <;>
    simp [h1, h2, h3, h4, h5]
  have hlabel : ∀ k v, (k, v) ∈ spec.Labels.entries → rule.Labels.index k ≠ v →
      alert.isAlertUpToDate spec rule = false := by
    intro k v hmem hne
    cases h : alert.isAlertUpToDate spec rule
    · rfl
    · have hmaps := (hiff.mp h).2.2.2.2.2.1
      exact absurd (((mapsEqual_eq_true_iff _ _).mp hmaps).2 (k, v) hmem) hne
  refine ⟨hiff, ?_, hlabel, ?_⟩
  · intro hne
    cases h : alert.isAlertUpToDate spec rule
    · rfl
    · obtain ⟨h1, h2, h3, h4, h5, _⟩ := hiff.mp h
      rcases hne with hn | hn | hn | hn | hn
      · exact absurd h1 hn
      · exact absurd h2 hn
      · exact absurd h3 hn
      · exact absurd h4 hn
      · exact absurd h5 hn
  · intro k v v' hmem hfind hne
    apply hlabel k v hmem
    simp only [GoMap.index, hfind, Option.getD_some]
    exact hne

/-- C13: the comparators do not read nested content. `isAlertUpToDate` gives the same answer
when the spec's or the rule's `Condition` is replaced; `isDashboardUpToDate` when the spec's
widgets, layout and variables (or the observed ones) are replaced; `isChannelUpToDate` when
the spec's config lists (or the observed data) are replaced. So the payload built from a
spec, with any other nested content put in its place, is still reported up to date. -/
theorem comparators_ignore_nested_content :
    (∀ (spec : AlertParameters) (rule : RuleData) (cond : RuleCondition) (obj : Obj),
      alert.isAlertUpToDate { spec with Condition := cond } { rule with Condition := obj } =
        alert.isAlertUpToDate spec rule) ∧
    (∀ (spec : DashboardParameters) (d : DashboardData) (widgets : List Widget)
        (layout : List Layout) (vars : Option (GoMap Variable)) (ws ls : List Value)
        (vs : Option Obj),
      dashboard.isDashboardUpToDate
          { spec with Widgets := widgets, Layout := layout, Variables := vars }
          { d with Widgets := ws, Layout := ls, Variables := vs } =
        dashboard.isDashboardUpToDate spec d) ∧
    (∀ (spec : NotificationChannelParameters) (ch : ChannelData) (slack : List SlackConfig)
        (webhook : List WebhookConfig) (pagerduty : List PagerDutyConfig)
        (email : List EmailConfig) (opsgenie : List OpsGenieConfig)
        (msteams : List MSTeamsConfig) (sns : List SNSConfig) (data : Obj),
      channel.isChannelUpToDate
          { spec with SlackConfigs := slack, WebhookConfigs := webhook,
                      PagerDutyConfigs := pagerduty, EmailConfigs := email,
                      OpsGenieConfigs := opsgenie, MSTeamsConfigs := msteams,
                      SNSConfigs := sns }
          { ch with Data := data } =
        channel.isChannelUpToDate spec ch) ∧
    (∀ (cr : Alert) (obj : Obj),
      alert.isAlertUpToDate cr.forProvider { alert.ruleDataOf cr with Condition := obj } =
        true) ∧
    (∀ (cr : Dashboard) (ws ls : List Value) (vs : Option Obj),
      dashboard.isDashboardUpToDate cr.forProvider
        { dashboard.dashboardDataOf cr with Widgets := ws, Layout := ls, Variables := vs } =
          true) ∧
    (∀ (kube : Kube) (spec : NotificationChannelParameters) (d : ChannelData) (data : Obj),
      channel.convertToChannelData kube spec = .ok d →
      channel.isChannelUpToDate spec { d with Data := data } = true) := by
  refine ⟨fun _ _ _ _ => rfl, fun _ _ _ _ _ _ _ _ => rfl,
    fun _ _ _ _ _ _ _ _ _ _ => rfl, ?_, ?_, ?_⟩
  · intro cr obj
    exact isAlertUpToDate_ruleDataOf cr
  · intro cr ws ls vs
    exact isDashboardUpToDate_dashboardDataOf cr
  · intro kube spec d data h
    exact isChannelUpToDate_convertToChannelData kube spec d h

end Comparators

/-! ## Theorems: channel payloads and secrets -/

section ChannelPayload

open clients

/-- Reading a payload map after `m[k'] = v`. -/
theorem Obj.find?_set (m : Obj) (k k' : String) (v : Value) :
    (m.set k' v).find? k = if k = k' then some v else m.find? k := by
  induction m with
  | nil =>
    by_cases h : k = k'
    · simp [Obj.set, Obj.find?, List.lookup, h]
    · have hbeq : (k == k') = false := by simpa using h
      simp [Obj.set, Obj.find?, List.lookup, h, hbeq]
  | cons e rest ih =>
    obtain ⟨a, b⟩ := e
    simp only [Obj.set, Obj.find?] at ih ⊢
    by_cases hak : a = k'
    · subst hak
      by_cases hka : k = a
      · subst hka
        simpa using ih
      · have hbeq : (k == a) = false := by simpa using hka
        simp only [List.filter, bne_self_eq_false, List.lookup, hbeq]
        simpa [hka] using ih
    · have hne : (a != k') = true := by simpa using hak
      by_cases hka : k = a
      · subst hka
        simp [List.filter, hne, List.lookup, hak]
      · have hbeq : (k == a) = false := by simpa using hka
        simp only [List.filter, hne, List.cons_append, List.lookup, hbeq]
        exact ih

theorem find?_setStr (m : Obj) (k k' : String) (p : Option String) :
    (setStr m k' p).find? k = if k = k' then (p.map Value.str).or (m.find? k) else m.find? k := by
  cases p <;> by_cases h : k = k' <;> simp [setStr, Obj.find?_set, h]

theorem find?_setBool (m : Obj) (k k' : String) (p : Option Bool) :
    (setBool m k' p).find? k =
      if k = k' then (p.map Value.bool).or (m.find? k) else m.find? k := by
  cases p <;> by_cases h : k = k' <;> simp [setBool, Obj.find?_set, h]

theorem find?_setNonEmpty (m : Obj) (k k' v : String) :
    (channel.setNonEmpty m k' v).find? k =
      if k = k' ∧ v ≠ "" then some (Value.str v) else m.find? k := by
  by_cases hv : v = "" <;> by_cases h : k = k' <;>
    simp [channel.setNonEmpty, Obj.find?_set, h, hv]

theorem secretOrValue_of_secret (kube : Kube) (ref : SecretKeySelector) (v : String)
    (lit : Option String) (h : channel.getSecretValue kube ref = .ok v) :
    channel.secretOrValue kube (some ref) lit = .ok v := by
  simp [channel.secretOrValue, h]

theorem secretOrValue_of_literal (kube : Kube) (lit : Option String) :
    channel.secretOrValue kube none lit = .ok (lit.getD "") := by
  cases lit <;> rfl

/-- The `webhook_url` entry of a Slack payload is the resolved URL, when that is not empty. -/
theorem convertSlackConfig_of_resolved (kube : Kube) (config : SlackConfig) (v : String)
    (h : channel.secretOrValue kube config.WebhookURLSecretRef config.WebhookURL = .ok v) :
    ∃ data, channel.convertSlackConfig kube config = .ok data ∧
      data.find? "webhook_url" = if v = "" then none else some (Value.str v) := by
  refine ⟨_, by simp only [channel.convertSlackConfig, h]; rfl, ?_⟩
  simp only [find?_setNonEmpty, find?_setStr, find?_setBool, Obj.find?_set]
  by_cases hv : v = "" <;> simp [Obj.find?, List.lookup, hv]

theorem convertWebhookConfig_of_resolved (kube : Kube) (config : WebhookConfig) (v : String)
    (h : channel.secretOrValue kube config.URLSecretRef config.URL = .ok v) :
    ∃ data, channel.convertWebhookConfig kube config = .ok data ∧
      data.find? "url" = if v = "" then none else some (Value.str v) := by
  refine ⟨_, by simp only [channel.convertWebhookConfig, h]; rfl, ?_⟩
  cases config.MaxAlerts <;>
    simp only [find?_setNonEmpty, find?_setStr, find?_setBool, Obj.find?_set] <;>
    by_cases hv : v = "" <;> simp [Obj.find?, List.lookup, hv]

theorem convertOpsGenieConfig_of_resolved (kube : Kube) (config : OpsGenieConfig) (v : String)
    (h : channel.secretOrValue kube config.APIKeySecretRef config.APIKey = .ok v) :
    ∃ data, channel.convertOpsGenieConfig kube config = .ok data ∧
      data.find? "api_key" = if v = "" then none else some (Value.str v) := by
  refine ⟨_, by simp only [channel.convertOpsGenieConfig, h]; rfl, ?_⟩
  simp only [find?_setNonEmpty, find?_setStr, find?_setBool, Obj.find?_set]
  by_cases hv : v = "" <;> simp [Obj.find?, List.lookup, hv]

theorem convertMSTeamsConfig_of_resolved (kube : Kube) (config : MSTeamsConfig) (v : String)
    (h : channel.secretOrValue kube config.WebhookURLSecretRef config.WebhookURL = .ok v) :
    ∃ data, channel.convertMSTeamsConfig kube config = .ok data ∧
      data.find? "webhook_url" = if v = "" then none else some (Value.str v) := by
  refine ⟨_, by simp only [channel.convertMSTeamsConfig, h]; rfl, ?_⟩
  simp only [find?_setNonEmpty, find?_setStr, find?_setBool, Obj.find?_set]
  by_cases hv : v = "" <;> simp [Obj.find?, List.lookup, hv]

theorem convertPagerDutyConfig_of_resolved (kube : Kube) (config : PagerDutyConfig)
    (v w : String)
    (hr : channel.secretOrValue kube config.RoutingKeySecretRef config.RoutingKey = .ok v)
    (hs : channel.secretOrValue kube config.ServiceKeySecretRef config.ServiceKey = .ok w) :
    ∃ data, channel.convertPagerDutyConfig kube config = .ok data ∧
      data.find? "routing_key" = (if v = "" then none else some (Value.str v)) ∧
      data.find? "service_key" = (if w = "" then none else some (Value.str w)) := by
  refine ⟨_, by simp only [channel.convertPagerDutyConfig, hr, hs]; rfl, ?_, ?_⟩
  · simp only [find?_setNonEmpty, find?_setStr, find?_setBool, Obj.find?_set]
    by_cases hv : v = "" <;> simp [Obj.find?, List.lookup, hv]
  · simp only [find?_setNonEmpty, find?_setStr, find?_setBool, Obj.find?_set]
    by_cases hw : w = "" <;> simp [Obj.find?, List.lookup, hw]

/-- C14, as stated, fails when the secret's value is empty: the lookup succeeds with `""`,
a literal URL is set as well, and the payload has no `webhook_url` key at all, neither the
secret's value nor the literal. -/
theorem empty_secret_value_leaves_key_out :
    channel.getSecretValue exampleEmptySecretKube exampleSecretRef = .ok "" ∧
    exampleSlackBoth.WebhookURLSecretRef = some exampleSecretRef ∧
    exampleSlackBoth.WebhookURL = some "https://hooks.example/literal" ∧
    channel.convertSlackConfig exampleEmptySecretKube exampleSlackBoth =
      .ok [("channel", Value.str "#ops")] ∧
    Obj.find? [("channel", Value.str "#ops")] "webhook_url" = none := by
  refine ⟨rfl, rfl, rfl, rfl, rfl⟩

/-- C14, amended: in the Slack, Webhook, OpsGenie, MSTeams and PagerDuty converters, a field
with a secret reference whose lookup succeeds gets the secret's value in the payload when
that value is not empty, and the key is left out when it is empty; in both cases the payload
does not depend on the literal. Without a secret reference the literal is used (left out
when empty), and with neither the key is absent. -/
theorem secret_takes_precedence (kube : Kube) :
    (∀ config : SlackConfig,
      (∀ ref v, config.WebhookURLSecretRef = some ref →
        channel.getSecretValue kube ref = .ok v →
        ∃ data, channel.convertSlackConfig kube config = .ok data ∧
          data.find? "webhook_url" = if v = "" then none else some (Value.str v)) ∧
      (∀ ref lit, config.WebhookURLSecretRef = some ref →
        channel.convertSlackConfig kube { config with WebhookURL := lit } =
          channel.convertSlackConfig kube config) ∧
      (config.WebhookURLSecretRef = none →
        ∃ data, channel.convertSlackConfig kube config = .ok data ∧
          (∀ l, config.WebhookURL = some l →
            data.find? "webhook_url" = if l = "" then none else some (Value.str l)) ∧
          (config.WebhookURL = none → data.find? "webhook_url" = none))) ∧
    (∀ config : WebhookConfig,
      (∀ ref v, config.URLSecretRef = some ref →
        channel.getSecretValue kube ref = .ok v →
        ∃ data, channel.convertWebhookConfig kube config = .ok data ∧
          data.find? "url" = if v = "" then none else some (Value.str v)) ∧
      (∀ ref lit, config.URLSecretRef = some ref →
        channel.convertWebhookConfig kube { config with URL := lit } =
          channel.convertWebhookConfig kube config) ∧
      (config.URLSecretRef = none →
        ∃ data, channel.convertWebhookConfig kube config = .ok data ∧
          (∀ l, config.URL = some l →
            data.find? "url" = if l = "" then none else some (Value.str l)) ∧
          (config.URL = none → data.find? "url" = none))) ∧
    (∀ config : OpsGenieConfig,
      (∀ ref v, config.APIKeySecretRef = some ref →
        channel.getSecretValue kube ref = .ok v →
        ∃ data, channel.convertOpsGenieConfig kube config = .ok data ∧
          data.find? "api_key" = if v = "" then none else some (Value.str v)) ∧
      (∀ ref lit, config.APIKeySecretRef = some ref →
        channel.convertOpsGenieConfig kube { config with APIKey := lit } =
          channel.convertOpsGenieConfig kube config) ∧
      (config.APIKeySecretRef = none →
        ∃ data, channel.convertOpsGenieConfig kube config = .ok data ∧
          (∀ l, config.APIKey = some l →
            data.find? "api_key" = if l = "" then none else some (Value.str l)) ∧
          (config.APIKey = none → data.find? "api_key" = none))) ∧
    (∀ config : MSTeamsConfig,
      (∀ ref v, config.WebhookURLSecretRef = some ref →
        channel.getSecretValue kube ref = .ok v →
        ∃ data, channel.convertMSTeamsConfig kube config = .ok data ∧
          data.find? "webhook_url" = if v = "" then none else some (Value.str v)) ∧
      (∀ ref lit, config.WebhookURLSecretRef = some ref →
        channel.convertMSTeamsConfig kube { config with WebhookURL := lit } =
          channel.convertMSTeamsConfig kube config) ∧
      (config.WebhookURLSecretRef = none →
        ∃ data, channel.convertMSTeamsConfig kube config = .ok data ∧
          (∀ l, config.WebhookURL = some l →
            data.find? "webhook_url" = if l = "" then none else some (Value.str l)) ∧
          (config.WebhookURL = none → data.find? "webhook_url" = none))) ∧
    (∀ config : PagerDutyConfig,
      (∀ v w,
        channel.secretOrValue kube config.RoutingKeySecretRef config.RoutingKey = .ok v →
        channel.secretOrValue kube config.ServiceKeySecretRef config.ServiceKey = .ok w →
        ∃ data, channel.convertPagerDutyConfig kube config = .ok data) ∧
      (∀ data, channel.convertPagerDutyConfig kube config = .ok data →
        (∀ ref v, config.RoutingKeySecretRef = some ref →
          channel.getSecretValue kube ref = .ok v →
          data.find? "routing_key" = if v = "" then none else some (Value.str v)) ∧
        (config.RoutingKeySecretRef = none →
          (∀ l, config.RoutingKey = some l →
            data.find? "routing_key" = if l = "" then none else some (Value.str l)) ∧
          (config.RoutingKey = none → data.find? "routing_key" = none)) ∧
        (∀ ref v, config.ServiceKeySecretRef = some ref →
          channel.getSecretValue kube ref = .ok v →
          data.find? "service_key" = if v = "" then none else some (Value.str v)) ∧
        (config.ServiceKeySecretRef = none →
          (∀ l, config.ServiceKey = some l →
            data.find? "service_key" = if l = "" then none else some (Value.str l)) ∧
          (config.ServiceKey = none → data.find? "service_key" = none))) ∧
      (∀ ref lit, config.RoutingKeySecretRef = some ref →
        channel.convertPagerDutyConfig kube { config with RoutingKey := lit } =
          channel.convertPagerDutyConfig kube config) ∧
      (∀ ref lit, config.ServiceKeySecretRef = some ref →
        channel.convertPagerDutyConfig kube { config with ServiceKey := lit } =
          channel.convertPagerDutyConfig kube config)) := by
  refine ⟨?_, ?_, ?_, ?_, ?_⟩
  · intro config
    refine ⟨?_, ?_, ?_⟩
    · intro ref v href hv
      exact convertSlackConfig_of_resolved kube config v
        (by rw [href]; exact secretOrValue_of_secret kube ref v _ hv)
    · intro ref lit href
      simp only [channel.convertSlackConfig, href, channel.secretOrValue]
    · intro href
      obtain ⟨data, hd, hf⟩ := convertSlackConfig_of_resolved kube config
        (config.WebhookURL.getD "") (by rw [href]; exact secretOrValue_of_literal kube _)
      refine ⟨data, hd, ?_, ?_⟩
      · intro l hl
        simpa [hl] using hf
      · intro hl
        simpa [hl] using hf
  · intro config
    refine ⟨?_, ?_, ?_⟩
    · intro ref v href hv
      exact convertWebhookConfig_of_resolved kube config v
        (by rw [href]; exact secretOrValue_of_secret kube ref v _ hv)
    · intro ref lit href
      simp only [channel.convertWebhookConfig, href, channel.secretOrValue]
    · intro href
      obtain ⟨data, hd, hf⟩ := convertWebhookConfig_of_resolved kube config
        (config.URL.getD "") (by rw [href]; exact secretOrValue_of_literal kube _)
      refine ⟨data, hd, ?_, ?_⟩
      · intro l hl
        simpa [hl] using hf
      · intro hl
        simpa [hl] using hf
  · intro config
    refine ⟨?_, ?_, ?_⟩
    · intro ref v href hv
      exact convertOpsGenieConfig_of_resolved kube config v
        (by rw [href]; exact secretOrValue_of_secret kube ref v _ hv)
    · intro ref lit href
      simp only [channel.convertOpsGenieConfig, href, channel.secretOrValue]
    · intro href
      obtain ⟨data, hd, hf⟩ := convertOpsGenieConfig_of_resolved kube config
        (config.APIKey.getD "") (by rw [href]; exact secretOrValue_of_literal kube _)
      refine ⟨data, hd, ?_, ?_⟩
      · intro l hl
        simpa [hl] using hf
      · intro hl
        simpa [hl] using hf
  · intro config
    refine ⟨?_, ?_, ?_⟩
    · intro ref v href hv
      exact convertMSTeamsConfig_of_resolved kube config v
        (by rw [href]; exact secretOrValue_of_secret kube ref v _ hv)
    · intro ref lit href
      simp only [channel.convertMSTeamsConfig, href, channel.secretOrValue]
    · intro href
      obtain ⟨data, hd, hf⟩ := convertMSTeamsConfig_of_resolved kube config
        (config.WebhookURL.getD "") (by rw [href]; exact secretOrValue_of_literal kube _)
      refine ⟨data, hd, ?_, ?_⟩
      · intro l hl
        simpa [hl] using hf
      · intro hl
        simpa [hl] using hf
  · intro config
    refine ⟨?_, ?_, ?_, ?_⟩
    · intro v w hr hs
      obtain ⟨data, hd, _⟩ := convertPagerDutyConfig_of_resolved kube config v w hr hs
      exact ⟨data, hd⟩
    · intro data hdata
      cases hr : channel.secretOrValue kube config.RoutingKeySecretRef config.RoutingKey with
      | error e => simp [channel.convertPagerDutyConfig, hr] at hdata
      | ok v =>
        cases hs : channel.secretOrValue kube config.ServiceKeySecretRef config.ServiceKey with
        | error e => simp [channel.convertPagerDutyConfig, hr, hs] at hdata
        | ok w =>
          obtain ⟨data', hd, hfr, hfs⟩ :=
            convertPagerDutyConfig_of_resolved kube config v w hr hs
          rw [hdata] at hd
          injection hd with hd
          subst hd
          refine ⟨?_, ?_, ?_, ?_⟩
          · intro ref v' href hv'
            rw [href, secretOrValue_of_secret kube ref v' _ hv'] at hr
            injection hr with hr
            rw [hr]
            exact hfr
          · intro href
            rw [href, secretOrValue_of_literal] at hr
            injection hr with hr
            subst hr
            exact ⟨fun l hl => by simpa [hl] using hfr, fun hl => by simpa [hl] using hfr⟩
          · intro ref w' href hw'
            rw [href, secretOrValue_of_secret kube ref w' _ hw'] at hs
            injection hs with hs
            rw [hs]
            exact hfs
          · intro href
            rw [href, secretOrValue_of_literal] at hs
            injection hs with hs
            subst hs
            exact ⟨fun l hl => by simpa [hl] using hfs, fun hl => by simpa [hl] using hfs⟩
    · intro ref lit href
      simp only [channel.convertPagerDutyConfig, href, channel.secretOrValue]
    · intro ref lit href
      simp only [channel.convertPagerDutyConfig, href, channel.secretOrValue]

/-- C14 on a Slack config with both a literal URL and a secret reference: the payload holds
the URL stored in the secret. -/
theorem secret_takes_precedence_witness :
    ∃ data, channel.convertSlackConfig exampleSecretKube exampleSlackBoth = .ok data ∧
      data.find? "webhook_url" = some (Value.str "https://hooks.example/from-secret") :=
  ((secret_takes_precedence exampleSecretKube).1 exampleSlackBoth).1 exampleSecretRef
    "https://hooks.example/from-secret" rfl rfl

/-- C15: `getSecretValue` returns the value under the referenced key when the store has the
secret and the secret has the key; it returns the store's error when the secret cannot be
fetched, and the error `key K not found in secret NS/NAME` (which names the key and the
secret) when the secret lacks the key. The store is only read. A failed lookup makes every
converter that performs it fail, and `convertToChannelData` with it: no payload is returned. -/
theorem getSecretValue_outcomes (kube : Kube) (ref : SecretKeySelector) :
    (∀ data v, kube.getSecret ref.Name ref.Namespace = .ok data → data.find? ref.Key = some v →
      channel.getSecretValue kube ref = .ok v) ∧
    (∀ err, kube.getSecret ref.Name ref.Namespace = .error err →
      channel.getSecretValue kube ref = .error err) ∧
    (∀ data, kube.getSecret ref.Name ref.Namespace = .ok data → data.find? ref.Key = none →
      channel.getSecretValue kube ref =
          .error ("key " ++ ref.Key ++ " not found in secret " ++ ref.Namespace ++ "/"
            ++ ref.Name) ∧
        strContains ("key " ++ ref.Key ++ " not found in secret " ++ ref.Namespace ++ "/"
            ++ ref.Name) ref.Key = true ∧
        strContains ("key " ++ ref.Key ++ " not found in secret " ++ ref.Namespace ++ "/"
            ++ ref.Name) (ref.Namespace ++ "/" ++ ref.Name) = true) ∧
    (∀ err, channel.getSecretValue kube ref = .error err →
      (∀ config : SlackConfig, config.WebhookURLSecretRef = some ref →
        channel.convertSlackConfig kube config = .error (wrap err channel.errGetSecret)) ∧
      (∀ config : WebhookConfig, config.URLSecretRef = some ref →
        channel.convertWebhookConfig kube config = .error (wrap err channel.errGetSecret)) ∧
      (∀ config : OpsGenieConfig, config.APIKeySecretRef = some ref →
        channel.convertOpsGenieConfig kube config = .error (wrap err channel.errGetSecret)) ∧
      (∀ config : MSTeamsConfig, config.WebhookURLSecretRef = some ref →
        channel.convertMSTeamsConfig kube config = .error (wrap err channel.errGetSecret)) ∧
      (∀ config : PagerDutyConfig, config.RoutingKeySecretRef = some ref →
        channel.convertPagerDutyConfig kube config = .error (wrap err channel.errGetSecret)) ∧
      (∀ config : PagerDutyConfig, config.ServiceKeySecretRef = some ref →
        ∃ e, channel.convertPagerDutyConfig kube config = .error e) ∧
      (∀ config : SNSConfig, config.AccessKeySecretRef = some ref →
        channel.convertSNSConfig kube config = .error (wrap err channel.errGetSecret)) ∧
      (∀ config : SNSConfig, config.SecretKeySecretRef = some ref →
        ∃ e, channel.convertSNSConfig kube config = .error e)) ∧
    (∀ (spec : NotificationChannelParameters) (err : String),
      (∀ config rest, spec.Type_ = "slack" → spec.SlackConfigs = config :: rest →
        channel.convertSlackConfig kube config = .error err →
        channel.convertToChannelData kube spec = .error err) ∧
      (∀ config rest, spec.Type_ = "webhook" → spec.WebhookConfigs = config :: rest →
        channel.convertWebhookConfig kube config = .error err →
        channel.convertToChannelData kube spec = .error err) ∧
      (∀ config rest, spec.Type_ = "pagerduty" → spec.PagerDutyConfigs = config :: rest →
        channel.convertPagerDutyConfig kube config = .error err →
        channel.convertToChannelData kube spec = .error err) ∧
      (∀ config rest, spec.Type_ = "opsgenie" → spec.OpsGenieConfigs = config :: rest →
        channel.convertOpsGenieConfig kube config = .error err →
        channel.convertToChannelData kube spec = .error err) ∧
      (∀ config rest, spec.Type_ = "msteams" → spec.MSTeamsConfigs = config :: rest →
        channel.convertMSTeamsConfig kube config = .error err →
        channel.convertToChannelData kube spec = .error err) ∧
      (∀ config rest, spec.Type_ = "sns" → spec.SNSConfigs = config :: rest →
        channel.convertSNSConfig kube config = .error err →
        channel.convertToChannelData kube spec = .error err)) := by
  refine ⟨?_, ?_, ?_, ?_, ?_⟩
  · intro data v hget hkey
    simp [channel.getSecretValue, hget, hkey]
  · intro err hget
    simp [channel.getSecretValue, hget]
  · intro data hget hkey
    refine ⟨by simp [channel.getSecretValue, hget, hkey], ?_, ?_⟩
    · simp only [strContains, decide_eq_true_eq, String.data_append]
      exact ⟨"key ".data,
        " not found in secret ".data ++ ref.Namespace.data ++ "/".data ++ ref.Name.data,
        by simp⟩
    · simp only [strContains, decide_eq_true_eq, String.data_append, List.append_assoc]
      exact ⟨"key ".data ++ ref.Key.data ++ " not found in secret ".data, [], by simp⟩
  · intro err herr
    refine ⟨?_, ?_, ?_, ?_, ?_, ?_, ?_, ?_⟩
    · intro config href
      simp [channel.convertSlackConfig, channel.secretOrValue, href, herr]
    · intro config href
      simp [channel.convertWebhookConfig, channel.secretOrValue, href, herr]
    · intro config href
      simp [channel.convertOpsGenieConfig, channel.secretOrValue, href, herr]
    · intro config href
      simp [channel.convertMSTeamsConfig, channel.secretOrValue, href, herr]
    · intro config href
      simp [channel.convertPagerDutyConfig, channel.secretOrValue, href, herr]
    · intro config href
      cases hr : channel.secretOrValue kube config.RoutingKeySecretRef config.RoutingKey with
      | error e => exact ⟨e, by simp [channel.convertPagerDutyConfig, hr]⟩
      | ok v =>
        refine ⟨wrap err channel.errGetSecret, ?_⟩
        simp only [channel.convertPagerDutyConfig, hr]
        simp [channel.secretOrValue, href, herr]
    · intro config href
      simp [channel.convertSNSConfig, channel.setSecret, href, herr]
    · intro config href
      cases ha : channel.setSecret kube
          (setBool [("topic_arn", .str config.TopicARN), ("region", .str config.Region)]
            "send_resolved" config.SendResolved) "access_key" config.AccessKeySecretRef with
      | error e => exact ⟨e, by simp [channel.convertSNSConfig, ha]⟩
      | ok data =>
        refine ⟨wrap err channel.errGetSecret, ?_⟩
        simp only [channel.convertSNSConfig, ha]
        simp [channel.setSecret, href, herr]
  · intro spec err
    refine ⟨?_, ?_, ?_, ?_, ?_, ?_⟩ <;> intro config rest htype hcfg hconv <;>
      simp [channel.convertToChannelData, htype, hcfg, channel.withFirst, hconv]

theorem convertToChannelData_unsupported (kube : Kube) (spec : NotificationChannelParameters)
    (h : ¬ supportedChannelType spec.Type_) :
    channel.convertToChannelData kube spec =
      .error ("unsupported channel type: " ++ spec.Type_) := by
  simp only [supportedChannelType, List.mem_cons, List.mem_singleton, List.not_mem_nil,
    or_false, not_or] at h
  obtain ⟨h1, h2, h3, h4, h5, h6, h7⟩ := h
  simp [channel.convertToChannelData, h1, h2, h3, h4, h5, h6, h7]

theorem convertToChannelData_slack (kube : Kube) (spec : NotificationChannelParameters)
    (h : spec.Type_ = "slack") :
    channel.convertToChannelData kube spec =
      channel.withFirst { Name := spec.Name, Type_ := spec.Type_, Data := [] } spec.SlackConfigs
        (channel.convertSlackConfig kube) := by
  simp [channel.convertToChannelData, h]

theorem convertToChannelData_webhook (kube : Kube) (spec : NotificationChannelParameters)
    (h : spec.Type_ = "webhook") :
    channel.convertToChannelData kube spec =
      channel.withFirst { Name := spec.Name, Type_ := spec.Type_, Data := [] } spec.WebhookConfigs
        (channel.convertWebhookConfig kube) := by
  simp [channel.convertToChannelData, h]

theorem convertToChannelData_pagerduty (kube : Kube) (spec : NotificationChannelParameters)
    (h : spec.Type_ = "pagerduty") :
    channel.convertToChannelData kube spec =
      channel.withFirst { Name := spec.Name, Type_ := spec.Type_, Data := [] } spec.PagerDutyConfigs
        (channel.convertPagerDutyConfig kube) := by
  simp [channel.convertToChannelData, h]

theorem convertToChannelData_email (kube : Kube) (spec : NotificationChannelParameters)
    (h : spec.Type_ = "email") :
    channel.convertToChannelData kube spec =
      channel.withFirst { Name := spec.Name, Type_ := spec.Type_, Data := [] } spec.EmailConfigs
        (fun config => .ok (channel.convertEmailConfig config)) := by
  simp [channel.convertToChannelData, h]

theorem convertToChannelData_opsgenie (kube : Kube) (spec : NotificationChannelParameters)
    (h : spec.Type_ = "opsgenie") :
    channel.convertToChannelData kube spec =
      channel.withFirst { Name := spec.Name, Type_ := spec.Type_, Data := [] } spec.OpsGenieConfigs
        (channel.convertOpsGenieConfig kube) := by
  simp [channel.convertToChannelData, h]

theorem convertToChannelData_msteams (kube : Kube) (spec : NotificationChannelParameters)
    (h : spec.Type_ = "msteams") :
    channel.convertToChannelData kube spec =
      channel.withFirst { Name := spec.Name, Type_ := spec.Type_, Data := [] } spec.MSTeamsConfigs
        (channel.convertMSTeamsConfig kube) := by
  simp [channel.convertToChannelData, h]

theorem convertToChannelData_sns (kube : Kube) (spec : NotificationChannelParameters)
    (h : spec.Type_ = "sns") :
    channel.convertToChannelData kube spec =
      channel.withFirst { Name := spec.Name, Type_ := spec.Type_, Data := [] } spec.SNSConfigs
        (channel.convertSNSConfig kube) := by
  simp [channel.convertToChannelData, h]

theorem withFirst_ok_of_convert_ok {γ : Type} (channelData : ChannelData) (configs : List γ)
    (convert : γ → Except String Obj)
    (h : ∀ config ∈ configs, ∃ data, convert config = .ok data) :
    ∃ d, channel.withFirst channelData configs convert = .ok d := by
  cases configs with
  | nil => exact ⟨channelData, rfl⟩
  | cons config rest =>
    obtain ⟨data, hd⟩ := h config (List.mem_cons_self _ _)
    exact ⟨{ channelData with Data := data }, by simp [channel.withFirst, hd]⟩

/-- C16: for a type outside the seven supported ones `convertToChannelData` fails with
`unsupported channel type: ` followed by the type; channel `Create` and `Update` then return
an error, send no request and leave the record (its external-name annotation included)
unchanged. For each supported type and a spec without secret references the conversion
succeeds. -/
theorem unsupported_channel_type_fails :
    (∀ (kube : Kube) (spec : NotificationChannelParameters),
      ¬ supportedChannelType spec.Type_ →
      channel.convertToChannelData kube spec =
        .error ("unsupported channel type: " ++ spec.Type_)) ∧
    (∀ (c : External) (cr : NotificationChannel), ¬ supportedChannelType cr.forProvider.Type_ →
      (channel.Create c cr).result =
          .error ("unsupported channel type: " ++ cr.forProvider.Type_) ∧
      (channel.Create c cr).calls = [] ∧ (channel.Create c cr).record = cr ∧
      (∃ msg, (channel.Update c cr).result = .error msg) ∧
      (channel.Update c cr).calls = [] ∧ (channel.Update c cr).record = cr) ∧
    (∀ (kube : Kube) (spec : NotificationChannelParameters),
      supportedChannelType spec.Type_ → noSecretRefs spec →
      ∃ d, channel.convertToChannelData kube spec = .ok d) := by
  refine ⟨convertToChannelData_unsupported, ?_, ?_⟩
  · intro c cr h
    have hconv := convertToChannelData_unsupported c.kube cr.forProvider h
    refine ⟨?_, ?_, ?_, ?_, ?_, ?_⟩
    · simp [channel.Create, hconv]
    · simp [channel.Create, hconv]
    · simp [channel.Create, hconv]
    · by_cases hid : cr.annotations.index externalNameKey = ""
      · exact ⟨"channel ID not found", by simp [channel.Update, hid]⟩
      · exact ⟨"unsupported channel type: " ++ cr.forProvider.Type_, by
          simp [channel.Update, hid, hconv]⟩
    · by_cases hid : cr.annotations.index externalNameKey = "" <;>
        simp [channel.Update, hid, hconv]
    · by_cases hid : cr.annotations.index externalNameKey = "" <;>
        simp [channel.Update, hid, hconv]
  · intro kube spec htype hrefs
    obtain ⟨hslack, hwebhook, hpager, hops, hteams, hsns⟩ := hrefs
    simp only [supportedChannelType, List.mem_cons, List.mem_singleton, List.not_mem_nil,
      or_false] at htype
    rcases htype with h | h | h | h | h | h | h
    · rw [convertToChannelData_slack kube spec h]
      apply withFirst_ok_of_convert_ok
      intro config hmem
      obtain ⟨data, hd, _⟩ := convertSlackConfig_of_resolved kube config
        (config.WebhookURL.getD "")
        (by rw [hslack config hmem]; exact secretOrValue_of_literal kube _)
      exact ⟨data, hd⟩
    · rw [convertToChannelData_webhook kube spec h]
      apply withFirst_ok_of_convert_ok
      intro config hmem
      obtain ⟨data, hd, _⟩ := convertWebhookConfig_of_resolved kube config
        (config.URL.getD "")
        (by rw [hwebhook config hmem]; exact secretOrValue_of_literal kube _)
      exact ⟨data, hd⟩
    · rw [convertToChannelData_pagerduty kube spec h]
      apply withFirst_ok_of_convert_ok
      intro config hmem
      obtain ⟨data, hd, _⟩ := convertPagerDutyConfig_of_resolved kube config
        (config.RoutingKey.getD "") (config.ServiceKey.getD "")
        (by rw [(hpager config hmem).1]; exact secretOrValue_of_literal kube _)
        (by rw [(hpager config hmem).2]; exact secretOrValue_of_literal kube _)
      exact ⟨data, hd⟩
    · rw [convertToChannelData_email kube spec h]
      apply withFirst_ok_of_convert_ok
      intro config _
      exact ⟨_, rfl⟩
    · rw [convertToChannelData_opsgenie kube spec h]
      apply withFirst_ok_of_convert_ok
      intro config hmem
      obtain ⟨data, hd, _⟩ := convertOpsGenieConfig_of_resolved kube config
        (config.APIKey.getD "")
        (by rw [hops config hmem]; exact secretOrValue_of_literal kube _)
      exact ⟨data, hd⟩
    · rw [convertToChannelData_msteams kube spec h]
      apply withFirst_ok_of_convert_ok
      intro config hmem
      obtain ⟨data, hd, _⟩ := convertMSTeamsConfig_of_resolved kube config
        (config.WebhookURL.getD "")
        (by rw [hteams config hmem]; exact secretOrValue_of_literal kube _)
      exact ⟨data, hd⟩
    · rw [convertToChannelData_sns kube spec h]
      apply withFirst_ok_of_convert_ok
      intro config hmem
      exact ⟨setBool [("topic_arn", .str config.TopicARN), ("region", .str config.Region)]
        "send_resolved" config.SendResolved, by
          simp [channel.convertSNSConfig, channel.setSecret, (hsns config hmem).1,
            (hsns config hmem).2]⟩

/-- C16 on the type `unsupported` of the test: the conversion fails with the type in the
message and `Create` sends nothing. -/
theorem unsupported_channel_type_fails_witness :
    channel.convertToChannelData exampleKube { Name := "Test Channel", Type_ := "unsupported" } =
        .error "unsupported channel type: unsupported" ∧
      (channel.Create (exampleExternal exampleDeleted)
        { forProvider := { Name := "Test Channel", Type_ := "unsupported" } }).calls = [] :=
  ⟨unsupported_channel_type_fails.1 exampleKube
      { Name := "Test Channel", Type_ := "unsupported" } (by decide),
    (unsupported_channel_type_fails.2.1 (exampleExternal exampleDeleted)
      { forProvider := { Name := "Test Channel", Type_ := "unsupported" } } (by decide)).2.1⟩

/-- C17: for a slack-typed spec whose first Slack config has no secret reference,
`convertToChannelData` succeeds; `Name` and `Type` are the spec's, and the data map is built
from the first config alone: `channel` is its channel, `webhook_url` its literal URL when set
and non-empty and absent otherwise, `title` and `send_resolved` are present exactly when the
field is set, with its value (also `false`), and no other key is present. -/
theorem slack_payload_from_first_config (kube : Kube) (spec : NotificationChannelParameters)
    (config : SlackConfig) (rest : List SlackConfig) (htype : spec.Type_ = "slack")
    (hcfg : spec.SlackConfigs = config :: rest) (href : config.WebhookURLSecretRef = none) :
    ∃ d, channel.convertToChannelData kube spec = .ok d ∧
      d.Name = spec.Name ∧ d.Type_ = spec.Type_ ∧
      d.Data.find? "channel" = some (Value.str config.Channel) ∧
      (∀ l, config.WebhookURL = some l → l ≠ "" →
        d.Data.find? "webhook_url" = some (Value.str l)) ∧
      (config.WebhookURL = none ∨ config.WebhookURL = some "" →
        d.Data.find? "webhook_url" = none) ∧
      d.Data.find? "title" = config.Title.map Value.str ∧
      d.Data.find? "send_resolved" = config.SendResolved.map Value.bool ∧
      (∀ k, k ≠ "channel" → k ≠ "webhook_url" → k ≠ "title" → k ≠ "send_resolved" →
        d.Data.find? k = none) ∧
      (∀ rest', channel.convertToChannelData kube { spec with SlackConfigs := config :: rest' } =
        .ok d) := by
  have hres := secretOrValue_of_literal kube config.WebhookURL
  rw [← href] at hres
  have hconv : channel.convertSlackConfig kube config =
      .ok (channel.setNonEmpty
        (setBool (setStr [("channel", .str config.Channel)] "title" config.Title)
          "send_resolved" config.SendResolved) "webhook_url" (config.WebhookURL.getD "")) := by
    simp only [channel.convertSlackConfig, hres]
  refine ⟨{ Name := spec.Name, Type_ := spec.Type_,
            Data := channel.setNonEmpty
              (setBool (setStr [("channel", .str config.Channel)] "title" config.Title)
                "send_resolved" config.SendResolved) "webhook_url"
              (config.WebhookURL.getD "") }, ?_, rfl, rfl, ?_, ?_, ?_, ?_, ?_, ?_, ?_⟩
  · rw [convertToChannelData_slack kube spec htype, hcfg]
    simp only [channel.withFirst, hconv]
  · simp only [find?_setNonEmpty, find?_setStr, find?_setBool]
    simp [Obj.find?, List.lookup]
  · intro l hl hne
    simp only [find?_setNonEmpty, find?_setStr, find?_setBool]
    simp [hl, hne]
  · intro h
    simp only [find?_setNonEmpty, find?_setStr, find?_setBool]
    rcases h with h | h <;> simp [h, Obj.find?, List.lookup]
  · simp only [find?_setNonEmpty, find?_setStr, find?_setBool]
    cases config.Title <;> simp [Obj.find?, List.lookup]
  · simp only [find?_setNonEmpty, find?_setStr, find?_setBool]
    cases config.SendResolved <;> simp [Obj.find?, List.lookup]
  · intro k h1 h2 h3 h4
    have hbeq : (k == "channel") = false := by simpa using h1
    simp only [find?_setNonEmpty, find?_setStr, find?_setBool]
    simp [h2, h3, h4, Obj.find?, List.lookup, hbeq]
  · intro rest'
    rw [convertToChannelData_slack kube { spec with SlackConfigs := config :: rest' } htype]
    simp only [channel.withFirst, hconv]

/-- C17 at the scenario of the spec: the channel `ops` of type `slack` with channel `#ops`
and webhook URL `https://hooks/x`. -/
theorem slack_payload_from_first_config_witness :
    ∃ d, channel.convertToChannelData exampleKube exampleSlackSpec = .ok d ∧
      d.Name = "ops" ∧ d.Type_ = "slack" ∧
      d.Data.find? "channel" = some (Value.str "#ops") ∧
      d.Data.find? "webhook_url" = some (Value.str "https://hooks/x") := by
  obtain ⟨d, hd, hn, ht, hch, hurl, _⟩ :=
    slack_payload_from_first_config exampleKube exampleSlackSpec
      { Channel := "#ops", WebhookURL := some "https://hooks/x" } [] rfl rfl rfl
  exact ⟨d, hd, hn, ht, hch, hurl "https://hooks/x" rfl (by decide)⟩

end ChannelPayload

/-! ## Theorems: Create and Update -/

section CreateUpdate

open clients

theorem lookup_filter_ne {α : Type} (l : List (String × α)) (k k' : String) (h : k ≠ k') :
    List.lookup k (l.filter (fun e => e.1 != k')) = List.lookup k l := by
  induction l with
  | nil => rfl
  | cons e rest ih =>
    obtain ⟨a, b⟩ := e
    by_cases hak : a = k'
    · subst hak
      have hbeq : (k == a) = false := by simpa using h
      simp only [List.filter, bne_self_eq_false, List.lookup, hbeq]
      exact ih
    · have hne : (a != k') = true := by simpa using hak
      by_cases hka : k = a
      · subst hka
        simp [List.filter, hne, List.lookup]
      · have hbeq : (k == a) = false := by simpa using hka
        simp only [List.filter, hne, List.lookup, hbeq]
        exact ih

/-- Reading a Go map after `m[k'] = v`. -/
theorem GoMap.find?_after_set {α : Type} (m : GoMap α) (k k' : String) (v : α) :
    (m.set k' v).find? k = if k = k' then some v else m.find? k := by
  by_cases h : k = k'
  · subst h
    simp [GoMap.set, GoMap.find?, List.lookup]
  · have hbeq : (k == k') = false := by simpa using h
    simp only [GoMap.set, GoMap.find?, List.lookup, hbeq, h, if_false]
    exact lookup_filter_ne m.entries k k' h

theorem toDigitsCore_ne_nil (b fuel n : Nat) (ds : List Char) (h : ds ≠ []) :
    Nat.toDigitsCore b fuel n ds ≠ [] := by
  induction fuel generalizing n ds with
  | zero => simpa [Nat.toDigitsCore] using h
  | succ fuel ih =>
    simp only [Nat.toDigitsCore]
    split
    · exact List.cons_ne_nil _ _
    · exact ih _ _ (List.cons_ne_nil _ _)

theorem nat_repr_ne_empty (n : Nat) : n.repr ≠ "" := by
  intro h
  have hd := congrArg String.data h
  simp only [Nat.repr, Nat.toDigits, List.asString] at hd
  simp only [Nat.toDigitsCore] at hd
  split at hd
  · exact List.cons_ne_nil _ _ hd
  · exact toDigitsCore_ne_nil _ _ _ _ (List.cons_ne_nil _ _) hd

theorem toString_int_ne_empty (i : Int) : toString i ≠ "" := by
  cases i with
  | ofNat n =>
    simp only [toString, instToStringInt]
    exact nat_repr_ne_empty n
  | negSucc n =>
    intro h
    have hlen := congrArg String.length h
    simp only [toString, instToStringInt, String.length_append] at hlen
    have h1 : "-".length = 1 := rfl
    have h0 : "".length = 0 := rfl
    omega

theorem resolveChannelReferences_annotations (kube : Kube) (cr : Alert) :
    (alert.resolveChannelReferences kube cr).1.annotations = cr.annotations := by
  rcases resolveChannelReferences_cases kube cr with ⟨err, h, _⟩ | ⟨ids, h, _⟩ <;> rw [h]

/-- C18: for every kind, when the remote create returns a resource, `Create` succeeds and
leaves the record with the external-name annotation set to the resource's identifier (for a
channel the decimal rendering of its integer id, which is what an alert's reference
resolution reads from that record) and every other annotation as before; when the remote
create fails, `Create` returns the wrapped error and the annotations are unchanged. -/
theorem Create_stamps_external_name :
    (∀ (c : External) (cr : Alert) (created : RuleData),
      (alert.resolveChannelReferences c.kube cr).2 = none →
      (CreateRule c.service
        (alert.ruleDataOf (alert.resolveChannelReferences c.kube cr).1)).1 =
          .ok (some created) →
      (alert.Create c cr).result = .ok () ∧
      (alert.Create c cr).record.annotations.find? externalNameKey = some created.ID ∧
      ∀ k, k ≠ externalNameKey →
        (alert.Create c cr).record.annotations.find? k = cr.annotations.find? k) ∧
    (∀ (c : External) (cr : Alert) (err : String),
      (alert.resolveChannelReferences c.kube cr).2 = none →
      (CreateRule c.service
        (alert.ruleDataOf (alert.resolveChannelReferences c.kube cr).1)).1 = .error err →
      (alert.Create c cr).result = .error (wrap err alert.errCreateAlert) ∧
      (alert.Create c cr).record.annotations = cr.annotations) ∧
    (∀ (c : External) (cr : Dashboard) (created : DashboardData),
      (CreateDashboard c.service (dashboard.dashboardDataOf cr)).1 = .ok (some created) →
      (dashboard.Create c cr).result = .ok () ∧
      (dashboard.Create c cr).record.annotations.find? externalNameKey = some created.ID ∧
      ∀ k, k ≠ externalNameKey →
        (dashboard.Create c cr).record.annotations.find? k = cr.annotations.find? k) ∧
    (∀ (c : External) (cr : Dashboard) (err : String),
      (CreateDashboard c.service (dashboard.dashboardDataOf cr)).1 = .error err →
      (dashboard.Create c cr).result = .error (wrap err dashboard.errCreateDashboard) ∧
      (dashboard.Create c cr).record.annotations = cr.annotations) ∧
    (∀ (c : External) (cr : NotificationChannel) (d created : ChannelData),
      channel.convertToChannelData c.kube cr.forProvider = .ok d →
      (CreateChannel c.service d).1 = .ok (some created) →
      (channel.Create c cr).result = .ok () ∧
      (channel.Create c cr).record.annotations.find? externalNameKey =
        some (toString created.ID) ∧
      (∀ k, k ≠ externalNameKey →
        (channel.Create c cr).record.annotations.find? k = cr.annotations.find? k) ∧
      (∀ (kube : Kube) (ref : Reference) (acc : List String), ref.Name ≠ "" →
        kube.getChannel ref.Name = .ok (channel.Create c cr).record →
        alert.resolveExplicitRefs kube [ref] acc = .ok (acc ++ [toString created.ID]))) ∧
    (∀ (c : External) (cr : NotificationChannel) (d : ChannelData) (err : String),
      channel.convertToChannelData c.kube cr.forProvider = .ok d →
      (CreateChannel c.service d).1 = .error err →
      (channel.Create c cr).result = .error (wrap err channel.errCreateChannel) ∧
      (channel.Create c cr).record.annotations = cr.annotations) := by
  refine ⟨?_, ?_, ?_, ?_, ?_, ?_⟩
  · intro c cr created hres hcreate
    have hann := resolveChannelReferences_annotations c.kube cr
    rcases hr : alert.resolveChannelReferences c.kube cr with ⟨cr', e⟩
    rw [hr] at hres hcreate hann
    simp only at hres hcreate hann
    subst hres
    rcases hc : CreateRule c.service (alert.ruleDataOf cr') with ⟨r, calls⟩
    rw [hc] at hcreate
    simp only at hcreate
    subst hcreate
    simp only [alert.Create, hr, hc, GoMap.find?_after_set, hann, if_true, true_and]
    intro k hk
    simp [hk]
  · intro c cr err hres hcreate
    have hann := resolveChannelReferences_annotations c.kube cr
    rcases hr : alert.resolveChannelReferences c.kube cr with ⟨cr', e⟩
    rw [hr] at hres hcreate hann
    simp only at hres hcreate hann
    subst hres
    rcases hc : CreateRule c.service (alert.ruleDataOf cr') with ⟨r, calls⟩
    rw [hc] at hcreate
    simp only at hcreate
    subst hcreate
    simp only [alert.Create, hr, hc, hann, and_self]
  · intro c cr created hcreate
    rcases hc : CreateDashboard c.service (dashboard.dashboardDataOf cr) with ⟨r, calls⟩
    rw [hc] at hcreate
    simp only at hcreate
    subst hcreate
    simp only [dashboard.Create, hc, GoMap.find?_after_set, if_true, true_and]
    intro k hk
    simp [hk]
  · intro c cr err hcreate
    rcases hc : CreateDashboard c.service (dashboard.dashboardDataOf cr) with ⟨r, calls⟩
    rw [hc] at hcreate
    simp only at hcreate
    subst hcreate
    simp only [dashboard.Create, hc, and_self]
  · intro c cr d created hconv hcreate
    rcases hc : CreateChannel c.service d with ⟨r, calls⟩
    rw [hc] at hcreate
    simp only at hcreate
    subst hcreate
    have hrec : (channel.Create c cr).record =
        { cr with annotations := cr.annotations.set externalNameKey (toString created.ID) } := by
      simp only [channel.Create, hconv, hc]
    refine ⟨by simp only [channel.Create, hconv, hc], ?_, ?_, ?_⟩
    · rw [hrec]
      simp [GoMap.find?_after_set]
    · intro k hk
      rw [hrec]
      simp [GoMap.find?_after_set, hk]
    · intro kube ref acc hname hget
      have hidx : (channel.Create c cr).record.annotations.index externalNameKey =
          toString created.ID := by
        rw [hrec]
        simp [GoMap.index, GoMap.find?_after_set]
      simp [alert.resolveExplicitRefs, hname, hget, hidx, toString_int_ne_empty]
  · intro c cr d err hconv hcreate
    rcases hc : CreateChannel c.service d with ⟨r, calls⟩
    rw [hc] at hcreate
    simp only at hcreate
    subst hcreate
    simp only [channel.Create, hconv, hc, and_self]

/-- C18 on a Slack channel that the remote system creates with id `42`: the record gets the
external name `"42"` and keeps its `team` annotation. -/
theorem Create_stamps_external_name_witness :
    (channel.Create exampleCreatingExternal exampleSlackChannel).result = .ok () ∧
    (channel.Create exampleCreatingExternal exampleSlackChannel).record.annotations.find?
      externalNameKey = some "42" ∧
    (channel.Create exampleCreatingExternal exampleSlackChannel).record.annotations.find?
      "team" = some "sre" := by
  have h := Create_stamps_external_name.2.2.2.2.1 exampleCreatingExternal exampleSlackChannel
    { Name := "ops", Type_ := "slack",
      Data := [("channel", .str "#ops"), ("webhook_url", .str "https://hooks/x")] }
    { ID := 42, Name := "ops", Type_ := "slack" } rfl rfl
  exact ⟨h.1, h.2.1, (h.2.2.1 "team" (by decide)).trans rfl⟩

theorem alert_Create_atProvider (c : External) (cr : Alert) :
    (alert.Create c cr).record.atProvider =
      (alert.resolveChannelReferences c.kube cr).1.atProvider := by
  simp only [alert.Create]
  rcases alert.resolveChannelReferences c.kube cr with ⟨cr', _ | err⟩
  · simp only
    rcases CreateRule c.service (alert.ruleDataOf cr') with ⟨_ | _ | _, calls⟩ <;> rfl
  · rfl

/-- C19, as stated, fails for Alert: `Create` runs the reference resolution, which writes
`ResolvedChannelIDs`; here the list goes from empty to `["c1", "42"]`, whether the remote
create fails or succeeds. -/
theorem Create_writes_resolved_channel_ids :
    exampleAlert.atProvider.ResolvedChannelIDs = [] ∧
    (alert.Create (exampleExternal exampleUnavailable) exampleAlert).record.atProvider.ResolvedChannelIDs
      = ["c1", "42"] ∧
    (alert.Create exampleCreatingExternal exampleAlert).record.atProvider.ResolvedChannelIDs
      = ["c1", "42"] := by
  refine ⟨rfl, ?_, ?_⟩
  · rw [alert_Create_atProvider]
    decide
  · rw [alert_Create_atProvider]
    decide

/-- C19, amended: for Dashboard and NotificationChannel, `Create` leaves `status.atProvider`
as it was, whatever the remote call returns. For Alert, `Create` leaves `status.atProvider`
as the reference resolution run at its start left it: `ID`, `State`, `LastFiredTime`,
`CreatedAt` and `UpdatedAt` are unchanged, `ResolvedChannelIDs` is the freshly resolved list,
and nothing changes when the resolution fails; the remote call changes no status field. -/
theorem Create_leaves_observed_status :
    (∀ (c : External) (cr : Dashboard), (dashboard.Create c cr).record.atProvider = cr.atProvider) ∧
    (∀ (c : External) (cr : NotificationChannel),
      (channel.Create c cr).record.atProvider = cr.atProvider) ∧
    (∀ (c : External) (cr : Alert),
      (alert.Create c cr).record.atProvider =
        (alert.resolveChannelReferences c.kube cr).1.atProvider ∧
      (alert.Create c cr).record.atProvider.ID = cr.atProvider.ID ∧
      (alert.Create c cr).record.atProvider.State = cr.atProvider.State ∧
      (alert.Create c cr).record.atProvider.LastFiredTime = cr.atProvider.LastFiredTime ∧
      (alert.Create c cr).record.atProvider.CreatedAt = cr.atProvider.CreatedAt ∧
      (alert.Create c cr).record.atProvider.UpdatedAt = cr.atProvider.UpdatedAt ∧
      (∀ err, (alert.resolveChannelReferences c.kube cr).2 = some err →
        (alert.Create c cr).record.atProvider = cr.atProvider)) := by
  refine ⟨?_, ?_, ?_⟩
  · intro c cr
    simp only [dashboard.Create]
    rcases CreateDashboard c.service (dashboard.dashboardDataOf cr) with ⟨_ | _ | _, calls⟩ <;>
      rfl
  · intro c cr
    simp only [channel.Create]
    rcases channel.convertToChannelData c.kube cr.forProvider with err | d
    · rfl
    · simp only
      rcases CreateChannel c.service d with ⟨_ | _ | _, calls⟩ <;> rfl
  · intro c cr
    rw [alert_Create_atProvider]
    rcases resolveChannelReferences_cases c.kube cr with ⟨err, h, _⟩ | ⟨ids, h, _⟩
    · rw [h]
      exact ⟨rfl, rfl, rfl, rfl, rfl, rfl, fun _ _ => rfl⟩
    · rw [h]
      refine ⟨rfl, rfl, rfl, rfl, rfl, rfl, ?_⟩
      intro err herr
      cases herr

/-- When the request can be built, `doRequest` sends exactly that request. -/
theorem doRequest_calls_eq (c : Client) (method path : String) (body : Payload)
    (h : c.newRequestErr method (requestOf c method path body).url = Option.none) :
    (doRequest c method path body).2 = [requestOf c method path body] := by
  simp only [doRequest, h]
  rcases c.httpDo (requestOf c method path body) with err | resp
  · rfl
  · simp only
    split <;> rfl

theorem alert_Update_calls_eq (c : External) (cr : Alert)
    (hid : cr.annotations.index externalNameKey ≠ "")
    (hres : (alert.resolveChannelReferences c.kube cr).2 = none) :
    (alert.Update c cr).calls =
      (doRequest c.service "PUT" ("/api/v1/rules/" ++ cr.annotations.index externalNameKey)
        (.rule (alert.ruleDataOf (alert.resolveChannelReferences c.kube cr).1))).2 := by
  simp only [alert.Update, hid, if_false, UpdateRule]
  rcases hr : alert.resolveChannelReferences c.kube cr with ⟨cr', e⟩
  rw [hr] at hres
  simp only at hres
  subst hres
  simp only
  rcases doRequest c.service "PUT" ("/api/v1/rules/" ++ cr.annotations.index externalNameKey)
      (.rule (alert.ruleDataOf cr')) with ⟨_ | resp, calls⟩
  · rfl
  · simp only
    rcases parseResponse c.service.unmarshalRule resp Option.none with _ | _ <;> rfl

theorem dashboard_Update_calls_eq (c : External) (cr : Dashboard)
    (hid : cr.annotations.index externalNameKey ≠ "") :
    (dashboard.Update c cr).calls =
      (doRequest c.service "PUT"
        ("/api/v1/dashboards/" ++ cr.annotations.index externalNameKey)
        (.dashboard (dashboard.dashboardDataOf cr))).2 := by
  simp only [dashboard.Update, hid, if_false, UpdateDashboard]
  rcases doRequest c.service "PUT"
      ("/api/v1/dashboards/" ++ cr.annotations.index externalNameKey)
      (.dashboard (dashboard.dashboardDataOf cr)) with ⟨_ | resp, calls⟩
  · rfl
  · simp only
    rcases parseResponse c.service.unmarshalDashboard resp Option.none with _ | _ <;> rfl

theorem channel_Update_calls_eq (c : External) (cr : NotificationChannel) (d : ChannelData)
    (hid : cr.annotations.index externalNameKey ≠ "")
    (hconv : channel.convertToChannelData c.kube cr.forProvider = .ok d) :
    (channel.Update c cr).calls =
      (doRequest c.service "PUT"
        ("/api/v1/channels/" ++ cr.annotations.index externalNameKey) (.channel d)).2 := by
  simp only [channel.Update, hid, if_false, hconv, UpdateChannel]
  rcases doRequest c.service "PUT"
      ("/api/v1/channels/" ++ cr.annotations.index externalNameKey) (.channel d)
    with ⟨_ | resp, calls⟩
  · rfl
  · simp only
    rcases parseResponse c.service.unmarshalChannel resp Option.none with _ | _ <;> rfl

/-- C20: for every kind, `Update` on a record whose external name is absent or empty returns
an error, sends no request and leaves the record unchanged (for Alert no reference is
resolved: the outcome is the same for every store). With an external name, every request
`Update` sends is the `PUT` addressed to that identifier, and it is sent whenever the payload
and the request can be built; for Alert its `preferredChannels` is the list that the
resolution run in this `Update` has just stored. -/
theorem Update_requires_external_name :
    (∀ (c c' : External) (cr : Alert), noExternalName cr.annotations →
      (alert.Update c cr).result = .error "alert ID not found" ∧
      (alert.Update c cr).calls = [] ∧ (alert.Update c cr).record = cr ∧
      alert.Update c' cr = alert.Update c cr) ∧
    (∀ (c : External) (cr : Dashboard), noExternalName cr.annotations →
      (dashboard.Update c cr).result = .error "dashboard ID not found" ∧
      (dashboard.Update c cr).calls = [] ∧ (dashboard.Update c cr).record = cr) ∧
    (∀ (c : External) (cr : NotificationChannel), noExternalName cr.annotations →
      (channel.Update c cr).result = .error "channel ID not found" ∧
      (channel.Update c cr).calls = [] ∧ (channel.Update c cr).record = cr) ∧
    (∀ (c : External) (cr : Alert) (req : Request), req ∈ (alert.Update c cr).calls →
      req.method = "PUT" ∧
      req.url = c.service.config.BaseURL ++
        ("/api/v1/rules/" ++ cr.annotations.index externalNameKey) ∧
      ∃ p, req.body = .rule p ∧
        p.PreferredChannels =
          (alert.resolveChannelReferences c.kube cr).1.atProvider.ResolvedChannelIDs ∧
        (alert.Update c cr).record.atProvider.ResolvedChannelIDs = p.PreferredChannels) ∧
    (∀ (c : External) (cr : Dashboard) (req : Request), req ∈ (dashboard.Update c cr).calls →
      req.method = "PUT" ∧
      req.url = c.service.config.BaseURL ++
        ("/api/v1/dashboards/" ++ cr.annotations.index externalNameKey)) ∧
    (∀ (c : External) (cr : NotificationChannel) (req : Request),
      req ∈ (channel.Update c cr).calls →
      req.method = "PUT" ∧
      req.url = c.service.config.BaseURL ++
        ("/api/v1/channels/" ++ cr.annotations.index externalNameKey)) ∧
    (∀ (c : External) (cr : Alert), cr.annotations.index externalNameKey ≠ "" →
      (alert.resolveChannelReferences c.kube cr).2 = none →
      c.service.newRequestErr "PUT" (c.service.config.BaseURL ++
        ("/api/v1/rules/" ++ cr.annotations.index externalNameKey)) = Option.none →
      (alert.Update c cr).calls =
        [requestOf c.service "PUT" ("/api/v1/rules/" ++ cr.annotations.index externalNameKey)
          (.rule (alert.ruleDataOf (alert.resolveChannelReferences c.kube cr).1))]) ∧
    (∀ (c : External) (cr : Dashboard), cr.annotations.index externalNameKey ≠ "" →
      c.service.newRequestErr "PUT" (c.service.config.BaseURL ++
        ("/api/v1/dashboards/" ++ cr.annotations.index externalNameKey)) = Option.none →
      (dashboard.Update c cr).calls =
        [requestOf c.service "PUT"
          ("/api/v1/dashboards/" ++ cr.annotations.index externalNameKey)
          (.dashboard (dashboard.dashboardDataOf cr))]) ∧
    (∀ (c : External) (cr : NotificationChannel) (d : ChannelData),
      cr.annotations.index externalNameKey ≠ "" →
      channel.convertToChannelData c.kube cr.forProvider = .ok d →
      c.service.newRequestErr "PUT" (c.service.config.BaseURL ++
        ("/api/v1/channels/" ++ cr.annotations.index externalNameKey)) = Option.none →
      (channel.Update c cr).calls =
        [requestOf c.service "PUT"
          ("/api/v1/channels/" ++ cr.annotations.index externalNameKey) (.channel d)]) := by
  refine ⟨?_, ?_, ?_, ?_, ?_, ?_, ?_, ?_, ?_⟩
  · intro c c' cr h
    simp [alert.Update, index_eq_empty_of_noExternalName _ h]
  · intro c cr h
    simp [dashboard.Update, index_eq_empty_of_noExternalName _ h]
  · intro c cr h
    simp [channel.Update, index_eq_empty_of_noExternalName _ h]
  · intro c cr req hreq
    have hsent := doRequest_calls _ _ _ _ _ (alert_Update_calls c cr req hreq)
    refine ⟨by rw [hsent]; rfl, by rw [hsent]; rfl, _, by rw [hsent]; rfl, rfl, ?_⟩
    have hrec : (alert.Update c cr).record = (alert.resolveChannelReferences c.kube cr).1 := by
      simp only [alert.Update]
      split
      · rename_i hid
        simp only [alert.Update, hid, if_true] at hreq
        cases hreq
      · rcases alert.resolveChannelReferences c.kube cr with ⟨cr', _ | err⟩
        · simp only [UpdateRule]
          rcases doRequest c.service "PUT"
              ("/api/v1/rules/" ++ cr.annotations.index externalNameKey)
              (.rule (alert.ruleDataOf cr')) with ⟨_ | resp, calls⟩
          · rfl
          · simp only
            rcases parseResponse c.service.unmarshalRule resp Option.none with _ | _ <;> rfl
        · rfl
    rw [hrec]
    rfl
  · intro c cr req hreq
    have hsent := doRequest_calls _ _ _ _ _ (dashboard_Update_calls c cr req hreq)
    exact ⟨by rw [hsent]; rfl, by rw [hsent]; rfl⟩
  · intro c cr req hreq
    obtain ⟨d, _, hmem⟩ := channel_Update_calls c cr req hreq
    have hsent := doRequest_calls _ _ _ _ _ hmem
    exact ⟨by rw [hsent]; rfl, by rw [hsent]; rfl⟩
  · intro c cr hid hres hnew
    rw [alert_Update_calls_eq c cr hid hres]
    exact doRequest_calls_eq _ _ _ _ hnew
  · intro c cr hid hnew
    rw [dashboard_Update_calls_eq c cr hid]
    exact doRequest_calls_eq _ _ _ _ hnew
  · intro c cr d hid hconv hnew
    rw [channel_Update_calls_eq c cr d hid hconv]
    exact doRequest_calls_eq _ _ _ _ hnew

/-- C20 on the alert with external name `"7"`: `Update` sends one `PUT` to
`/api/v1/rules/7` whose `preferredChannels` is the freshly resolved `["c1", "42"]`, while the
alert without external name gets an error and no request. -/
theorem Update_requires_external_name_witness :
    (alert.Update exampleCreatingExternal exampleAlert).calls = [] ∧
    (alert.Update exampleCreatingExternal exampleAlert7).calls =
      [requestOf exampleCreatingClient "PUT" "/api/v1/rules/7"
        (.rule (alert.ruleDataOf
          (alert.resolveChannelReferences exampleKube exampleAlert7).1))] ∧
    (alert.ruleDataOf (alert.resolveChannelReferences exampleKube exampleAlert7).1).PreferredChannels
      = ["c1", "42"] :=
  ⟨(Update_requires_external_name.1 exampleCreatingExternal exampleCreatingExternal
      exampleAlert (Or.inl rfl)).2.1,
    Update_requires_external_name.2.2.2.2.2.2.1 exampleCreatingExternal exampleAlert7
      (by decide) (by decide) rfl,
    by decide⟩

end CreateUpdate

/-! ## Theorems: the REST client -/

section RestClient

open clients

set_option maxRecDepth 10000

/-- C21: when `doRequest` obtains a response, it returns an error exactly when the status
code is at least 400; the error is then `API error: `, the status, ` - ` and the body, and
no response is returned; below 400 the response is returned with no error. -/
theorem doRequest_error_iff (c : Client) (method path : String) (body : Payload)
    (resp : Response) (hans : answers c method path body resp) :
    ((∃ err, (doRequest c method path body).1 = .error err) ↔ resp.StatusCode ≥ 400) ∧
    (resp.StatusCode ≥ 400 →
      (doRequest c method path body).1 =
        .error ("API error: " ++ resp.Status ++ " - " ++ resp.Body)) ∧
    (resp.StatusCode < 400 → (doRequest c method path body).1 = .ok resp) := by
  obtain ⟨hreq, hdo⟩ := hans
  by_cases hcode : resp.StatusCode ≥ 400
  · have h : (doRequest c method path body).1 =
        .error ("API error: " ++ resp.Status ++ " - " ++ resp.Body) := by
      simp [doRequest, hreq, hdo, hcode]
    refine ⟨⟨fun _ => hcode, fun _ => ⟨_, h⟩⟩, fun _ => h, fun hlt => absurd hcode (by omega)⟩
  · have h : (doRequest c method path body).1 = .ok resp := by
      simp [doRequest, hreq, hdo, hcode]
    refine ⟨⟨?_, fun hge => absurd hge hcode⟩, fun hge => absurd hge hcode, fun _ => h⟩
    rintro ⟨err, herr⟩
    rw [h] at herr
    cases herr

/-- C21 on the answer `400 Bad Request` of the client test: the `GET` returns the
`API error` message. -/
theorem doRequest_error_iff_witness :
    (doRequest (exampleClient exampleBadRequest) "GET" "/api/v1/dashboards/non-existent"
      .none).1 = .error "API error: 400 Bad Request - Invalid request" :=
  (doRequest_error_iff (exampleClient exampleBadRequest) "GET"
    "/api/v1/dashboards/non-existent" .none exampleBadRequest ⟨rfl, rfl⟩).2.1 (by decide)

/-- C22: `IsNotFound` is false on nil; on an error it is true exactly when the message
contains `404` or `not found`, matched case-sensitively: `API error: 404 Not Found` and
`resource not found` are accepted, `API error: 500 Internal Server Error` and
`Resource Not Found` are not. -/
theorem IsNotFound_iff_message_contains :
    IsNotFound Option.none = false ∧
    (∀ msg : String, IsNotFound (some msg) = true ↔
      "404".data <:+: msg.data ∨ "not found".data <:+: msg.data) ∧
    IsNotFound (some "API error: 404 Not Found") = true ∧
    IsNotFound (some "resource not found") = true ∧
    IsNotFound (some "API error: 500 Internal Server Error") = false ∧
    IsNotFound (some "Resource Not Found") = false := by
  refine ⟨rfl, ?_, by decide, by decide, by decide, by decide⟩
  intro msg
  simp [IsNotFound, strContains]

/-- Removing the suffix `/` from a string that does not end with `//` leaves a string that
does not end with `/`. -/
theorem trimSuffix_slash_not_suffix (s : String) (h : ¬ "//".data <:+ s.data) :
    ¬ "/".data <:+ (trimSuffix s "/").data := by
  unfold trimSuffix
  by_cases hs : "/".data <:+ s.data
  · rw [if_pos hs]
    obtain ⟨t, ht⟩ := hs
    intro hsuf
    obtain ⟨u, hu⟩ := hsuf
    apply h
    refine ⟨u, ?_⟩
    have hlen : s.data.length - "/".data.length = t.length := by
      rw [← ht]; simp
    have htake : List.take (s.data.length - "/".data.length) s.data = t := by
      rw [hlen, ← ht]; simp
    simp only [htake] at hu
    rw [← ht, ← hu]
    simp
  · rw [if_neg hs]
    exact hs

/-- Removing the suffix `/` from a string that ends with `/` drops exactly that one
character. -/
theorem trimSuffix_slash_append (t : List Char) :
    trimSuffix (String.mk (t ++ ['/'])) "/" = String.mk t := by
  unfold trimSuffix
  have hs : "/".data <:+ (String.mk (t ++ ['/'])).data := ⟨t, rfl⟩
  rw [if_pos hs]
  congr 1
  show List.take ((t ++ ['/']).length - 1) (t ++ ['/']) = t
  simp

/-- C23 (counterexample): for a `ProviderConfig` whose endpoint ends with two slashes,
`GetConfig` succeeds with a base URL that still ends with `/`. -/
theorem GetConfig_base_url_may_end_with_slash :
    GetConfig exampleConfigKube (fun _ => .ok "test-key") (some { Name := "default" }) =
      .ok { BaseURL := "https://signoz.example.com/", APIKey := "test-key" } ∧
    "/".data <:+ "https://signoz.example.com/".data := by
  refine ⟨rfl, by decide⟩

/-- C23 (amended): when the `ProviderConfig` is fetched and credential extraction and
decoding succeed, `GetConfig` returns the decoded API key and, as base URL, the endpoint
of the `ProviderConfig` when that is set and non-empty and `https://api.signoz.cloud`
otherwise, with one final `/` removed if there is one; the base URL does not end with `/`
unless the endpoint ends with `//`. -/
theorem GetConfig_base_url (kube : Kube) (unmarshal : String → Except String String)
    (ref : Reference) (pc : ProviderConfig) (data apiKey : String)
    (hpc : kube.getProviderConfig ref.Name = .ok pc)
    (hdata : kube.extractCredentials pc.Credentials = .ok data)
    (hkey : unmarshal data = .ok apiKey) :
    ∃ cfg : Config, GetConfig kube unmarshal (some ref) = .ok cfg ∧
      cfg.APIKey = apiKey ∧
      (∀ e : String, pc.Endpoint = some e → e ≠ "" →
        cfg.BaseURL = trimSuffix e "/" ∧
        (∀ t : List Char, e.data = t ++ ['/'] → cfg.BaseURL.data = t) ∧
        (¬ "/".data <:+ e.data → cfg.BaseURL = e) ∧
        (¬ "//".data <:+ e.data → ¬ "/".data <:+ cfg.BaseURL.data)) ∧
      (pc.Endpoint = Option.none ∨ pc.Endpoint = some "" →
        cfg.BaseURL = "https://api.signoz.cloud") := by
  have hdefault : trimSuffix "https://api.signoz.cloud" "/" = "https://api.signoz.cloud" := by
    decide
  rcases hend : pc.Endpoint with _ | e
  · refine ⟨{ BaseURL := "https://api.signoz.cloud", APIKey := apiKey }, ?_, rfl, ?_, ?_⟩
    · simp [GetConfig, hpc, hdata, hkey, hend, hdefault]
    · intro e he; cases he
    · intro _; rfl
  · by_cases hempty : e = ""
    · refine ⟨{ BaseURL := "https://api.signoz.cloud", APIKey := apiKey }, ?_, rfl, ?_, ?_⟩
      · simp [GetConfig, hpc, hdata, hkey, hend, hempty, hdefault]
      · intro e' he' hne
        cases he'
        exact absurd hempty hne
      · intro _; rfl
    · refine ⟨{ BaseURL := trimSuffix e "/", APIKey := apiKey }, ?_, rfl, ?_, ?_⟩
      · simp [GetConfig, hpc, hdata, hkey, hend, hempty]
      · intro e' he' _
        cases he'
        refine ⟨rfl, ?_, ?_, trimSuffix_slash_not_suffix e⟩
        · intro t ht
          have he : e = String.mk (t ++ ['/']) := by
            cases e; simp at ht; simp [ht]
          show (trimSuffix e "/").data = t
          rw [he, trimSuffix_slash_append]
        · intro hns
          show trimSuffix e "/" = e
          unfold trimSuffix
          rw [if_neg hns]
      · rintro (h | h)
        · cases h
        · cases h; exact absurd rfl hempty

/-- C23 (amended) on the `ProviderConfig` named `default` with the endpoint
`https://signoz.example.com/`: the base URL is `https://signoz.example.com`. -/
theorem GetConfig_base_url_witness :
    ∃ cfg : Config,
      GetConfig
        { exampleKube with
          getProviderConfig := fun _ => .ok { Endpoint := some "https://signoz.example.com/" }
          extractCredentials := fun _ => .ok "credentials" }
        (fun _ => .ok "test-key") (some { Name := "default" }) = .ok cfg ∧
      cfg.APIKey = "test-key" ∧ cfg.BaseURL = "https://signoz.example.com" := by
  obtain ⟨cfg, hcfg, hkey, hurl, _⟩ :=
    GetConfig_base_url
      { exampleKube with
        getProviderConfig := fun _ => .ok { Endpoint := some "https://signoz.example.com/" }
        extractCredentials := fun _ => .ok "credentials" }
      (fun _ => .ok "test-key") { Name := "default" }
      { Endpoint := some "https://signoz.example.com/" } "credentials" "test-key" rfl rfl rfl
  refine ⟨cfg, hcfg, hkey, ?_⟩
  rw [(hurl "https://signoz.example.com/" rfl (by decide)).1]
  decide

/-- The failures of `GetConfig` after the reference is read: each wraps its cause under
its own message, and no `Config` is returned. -/
theorem GetConfig_failures (kube : Kube) (unmarshal : String → Except String String)
    (ref : Reference) :
    (∀ err, kube.getProviderConfig ref.Name = .error err →
      GetConfig kube unmarshal (some ref) = .error ("cannot get providerConfig: " ++ err)) ∧
    (∀ pc err, kube.getProviderConfig ref.Name = .ok pc →
      kube.extractCredentials pc.Credentials = .error err →
      GetConfig kube unmarshal (some ref) = .error ("cannot extract credentials: " ++ err)) ∧
    (∀ pc data err, kube.getProviderConfig ref.Name = .ok pc →
      kube.extractCredentials pc.Credentials = .ok data → unmarshal data = .error err →
      GetConfig kube unmarshal (some ref) =
        .error ("cannot unmarshal signoz credentials as JSON: " ++ err)) := by
  refine ⟨?_, ?_, ?_⟩
  · intro err h
    simp [GetConfig, h, wrap, errGetProviderConfig]
  · intro pc err h h2
    simp [GetConfig, h, h2, wrap, errExtractCredentials]
  · intro pc data err h h2 h3
    simp [GetConfig, h, h2, h3, wrap, errUnmarshalCredentials]

/-- Two messages that begin differently within their first `n` characters are different,
whatever follows them. -/
theorem append_ne_of_take_ne (p q a b : String) (n : Nat) (hp : n ≤ p.data.length)
    (hq : n ≤ q.data.length) (hne : p.data.take n ≠ q.data.take n) : p ++ a ≠ q ++ b := by
  intro h
  apply hne
  have h2 := congrArg (fun s : String => s.data.take n) h
  simp only [String.data_append] at h2
  rwa [List.take_append_of_le_length hp, List.take_append_of_le_length hq] at h2

/-- C24 (counterexample): for a record whose `providerConfigReference` is absent,
`GetConfig` fails with the bare message `cannot get providerConfig`, not with
`no providerConfig specified`. -/
theorem GetConfig_absent_reference :
    GetConfig exampleConfigKube (fun _ => .ok "test-key") Option.none =
      .error "cannot get providerConfig" ∧
    GetConfig exampleConfigKube (fun _ => .ok "test-key") Option.none ≠
      .error "no providerConfig specified" := by
  refine ⟨rfl, ?_⟩
  intro h
  have h2 : errGetProviderConfig = "no providerConfig specified" := by
    simpa [GetConfig] using h
  revert h2
  decide

/-- C24 (amended): the failures of `GetConfig`. An absent `providerConfigReference` gives
the bare error `cannot get providerConfig`; a `ProviderConfig` that cannot be fetched,
credentials that cannot be extracted and credentials that cannot be decoded give
`cannot get providerConfig`, `cannot extract credentials` and
`cannot unmarshal signoz credentials as JSON`, each followed by `: ` and the cause. The
four messages are pairwise different whatever the causes are, every failure is one of
the four, and a failure returns no `Config`. -/
theorem GetConfig_failure_messages (kube : Kube)
    (unmarshal : String → Except String String) :
    GetConfig kube unmarshal Option.none = .error "cannot get providerConfig" ∧
    (∀ (ref : Reference) (err : String), kube.getProviderConfig ref.Name = .error err →
      GetConfig kube unmarshal (some ref) = .error ("cannot get providerConfig: " ++ err)) ∧
    (∀ (ref : Reference) (pc : ProviderConfig) (err : String),
      kube.getProviderConfig ref.Name = .ok pc →
      kube.extractCredentials pc.Credentials = .error err →
      GetConfig kube unmarshal (some ref) = .error ("cannot extract credentials: " ++ err)) ∧
    (∀ (ref : Reference) (pc : ProviderConfig) (data err : String),
      kube.getProviderConfig ref.Name = .ok pc →
      kube.extractCredentials pc.Credentials = .ok data → unmarshal data = .error err →
      GetConfig kube unmarshal (some ref) =
        .error ("cannot unmarshal signoz credentials as JSON: " ++ err)) ∧
    (∀ e₁ e₂ e₃ : String,
      "cannot get providerConfig" ≠ "cannot get providerConfig: " ++ e₁ ∧
      "cannot get providerConfig" ≠ "cannot extract credentials: " ++ e₂ ∧
      "cannot get providerConfig" ≠ "cannot unmarshal signoz credentials as JSON: " ++ e₃ ∧
      "cannot get providerConfig: " ++ e₁ ≠ "cannot extract credentials: " ++ e₂ ∧
      "cannot get providerConfig: " ++ e₁ ≠
        "cannot unmarshal signoz credentials as JSON: " ++ e₃ ∧
      "cannot extract credentials: " ++ e₂ ≠
        "cannot unmarshal signoz credentials as JSON: " ++ e₃) ∧
    (∀ (pcRef : Option Reference) (msg : String),
      GetConfig kube unmarshal pcRef = .error msg →
      (pcRef = Option.none ∧ msg = "cannot get providerConfig") ∨
      (∃ err, msg = "cannot get providerConfig: " ++ err) ∨
      (∃ err, msg = "cannot extract credentials: " ++ err) ∨
      (∃ err, msg = "cannot unmarshal signoz credentials as JSON: " ++ err)) := by
  obtain hfail := fun ref => GetConfig_failures kube unmarshal ref
  refine ⟨rfl, fun ref => (hfail ref).1, fun ref => (hfail ref).2.1,
    fun ref => (hfail ref).2.2, ?_, ?_⟩
  · intro e₁ e₂ e₃
    refine ⟨?_, ?_, ?_, ?_, ?_, ?_⟩
    · intro h
      have h2 := congrArg String.length h
      rw [String.length_append] at h2
      have h3 : ("cannot get providerConfig").length = 25 := by decide
      have h4 : ("cannot get providerConfig: ").length = 27 := by decide
      omega
    · have h := append_ne_of_take_ne "cannot get providerConfig"
        "cannot extract credentials: " "" e₂ 8 (by decide) (by decide) (by decide)
      simpa using h
    · have h := append_ne_of_take_ne "cannot get providerConfig"
        "cannot unmarshal signoz credentials as JSON: " "" e₃ 8 (by decide) (by decide)
        (by decide)
      simpa using h
    · exact append_ne_of_take_ne _ _ _ _ 8 (by decide) (by decide) (by decide)
    · exact append_ne_of_take_ne _ _ _ _ 8 (by decide) (by decide) (by decide)
    · exact append_ne_of_take_ne _ _ _ _ 8 (by decide) (by decide) (by decide)
  · intro pcRef msg h
    rcases pcRef with _ | ref
    · left
      refine ⟨rfl, ?_⟩
      have h2 : GetConfig kube unmarshal Option.none = .error "cannot get providerConfig" := rfl
      rw [h2] at h
      cases h
      rfl
    · right
      rcases hpc : kube.getProviderConfig ref.Name with err | pc
      · left
        rw [(hfail ref).1 err hpc] at h
        cases h
        exact ⟨err, rfl⟩
      · rcases hdata : kube.extractCredentials pc.Credentials with err | data
        · right; left
          rw [(hfail ref).2.1 pc err hpc hdata] at h
          cases h
          exact ⟨err, rfl⟩
        · rcases hkey : unmarshal data with err | apiKey
          · right; right
            rw [(hfail ref).2.2 pc data err hpc hdata hkey] at h
            cases h
            exact ⟨err, rfl⟩
          · simp [GetConfig, hpc, hdata, hkey] at h

end RestClient

/-! ## Theorems: Connect -/

section Connecting

set_option maxRecDepth 10000

/-- What `Connect` returns for a record whose `providerConfigReference` is absent: the
wrapped error of the usage tracker if it returns one; otherwise the alert controller
returns its own error, and the dashboard and channel controllers dereference the absent
reference. -/
theorem Connect_absent_reference_cases :
    (∀ (c : Connector Alert) (cr : Alert), cr.providerConfigRef = none →
      alert.Connect c cr =
        (match c.usage cr with
          | some err => .error ("cannot track ProviderConfig usage: " ++ err)
          | none => .error "no providerConfigRef provided")) ∧
    (∀ (c : Connector Dashboard) (cr : Dashboard), cr.providerConfigRef = none →
      dashboard.Connect c cr =
        (match c.usage cr with
          | some err => .error ("cannot track ProviderConfig usage: " ++ err)
          | none => .panic)) ∧
    (∀ (c : Connector NotificationChannel) (cr : NotificationChannel),
      cr.providerConfigRef = none →
      channel.Connect c cr =
        (match c.usage cr with
          | some err => .error ("cannot track ProviderConfig usage: " ++ err)
          | none => .panic)) := by
  refine ⟨?_, ?_, ?_⟩
  · intro c cr h
    rcases hu : c.usage cr with _ | err
    · simp [alert.Connect, hu, h]
    · simp [alert.Connect, hu, wrap, alert.errTrackPCUsage]
  · intro c cr h
    rcases hu : c.usage cr with _ | err
    · simp [dashboard.Connect, hu, h]
    · simp [dashboard.Connect, hu, wrap, dashboard.errTrackPCUsage]
  · intro c cr h
    rcases hu : c.usage cr with _ | err
    · simp [channel.Connect, hu, h]
    · simp [channel.Connect, hu, wrap, channel.errTrackPCUsage]

/-- C25 (evaluation): the `Connect` of the dashboard and channel controllers has no check
of its own for an absent `providerConfigReference`. When the usage tracker returns no
error for such a record (the no-op tracker), both dereference the absent reference,
where the alert controller returns the error `no providerConfigRef provided`; with a
reference set, the same connector connects. -/
theorem Connect_dereferences_absent_reference :
    dashboard.Connect (exampleConnector Dashboard) {} = .panic ∧
    channel.Connect (exampleConnector NotificationChannel) {} = .panic ∧
    alert.Connect (exampleConnector Alert) {} = .error "no providerConfigRef provided" ∧
    (∃ client, dashboard.Connect (exampleConnector Dashboard)
        { providerConfigRef := some { Name := "default" } } = .ok client) ∧
    dashboard.Connect (exampleTrackingConnector Dashboard.providerConfigRef) {} =
      .error ("cannot track ProviderConfig usage: " ++
        "managed resource does not reference a ProviderConfig") := by
  refine ⟨rfl, rfl, rfl, ⟨_, rfl⟩, rfl⟩

end Connecting

/-! ## Theorems: what Observe reads from the remote resource -/

section Observing

open clients

set_option maxRecDepth 10000

/-- C26 (evaluation): when the remote system answers `200 OK` with an empty body, or with
a body whose `data` is null, the `Get` and `Create` calls of the client return no error
and no resource, and `Observe` and `Create` of every kind then dereference the missing
resource. -/
theorem empty_body_is_dereferenced :
    (GetDashboard (exampleClient exampleDeleted) "7").1 = .ok Option.none ∧
    (GetRule (exampleClient exampleDeleted) "7").1 = .ok Option.none ∧
    (GetChannel (exampleClient exampleDeleted) "7").1 = .ok Option.none ∧
    (CreateDashboard (exampleClient exampleDeleted) {}).1 = .ok Option.none ∧
    (GetDashboard (exampleClient exampleNullData) "7").1 = .ok Option.none ∧
    (dashboard.Observe (exampleExternal exampleDeleted) exampleDashboard7).result = .panic ∧
    (alert.Observe (exampleExternal exampleDeleted) exampleAlert7).result = .panic ∧
    (channel.Observe (exampleExternal exampleDeleted) exampleChannel7).result = .panic ∧
    (dashboard.Create (exampleExternal exampleDeleted) exampleDashboard7).result = .panic ∧
    (alert.Create (exampleExternal exampleDeleted) exampleAlert7).result = .panic ∧
    (channel.Create (exampleExternal exampleDeleted) exampleSlackChannel).result = .panic ∧
    (dashboard.Observe (exampleExternal exampleNullData) exampleDashboard7).result = .panic := by
  refine ⟨rfl, rfl, rfl, rfl, rfl, rfl, rfl, rfl, rfl, rfl, rfl, rfl⟩

/-- What `observeStatus` of an alert leaves: parameters and annotations as before, the
id and state of the rule, and each timestamp field set from a non-empty string that
parses and kept otherwise. -/
theorem alert_observeStatus_fields (c : External) (cr : Alert) (r : RuleData) :
    (alert.observeStatus c cr r).forProvider = cr.forProvider ∧
    (alert.observeStatus c cr r).annotations = cr.annotations ∧
    (alert.observeStatus c cr r).atProvider.ID = r.ID ∧
    (alert.observeStatus c cr r).atProvider.State = r.State ∧
    (alert.observeStatus c cr r).atProvider.CreatedAt =
      (if r.CreatedAt = "" then cr.atProvider.CreatedAt
        else (c.parseRFC3339 r.CreatedAt <|> cr.atProvider.CreatedAt)) ∧
    (alert.observeStatus c cr r).atProvider.UpdatedAt =
      (if r.UpdatedAt = "" then cr.atProvider.UpdatedAt
        else (c.parseRFC3339 r.UpdatedAt <|> cr.atProvider.UpdatedAt)) := by
  unfold alert.observeStatus
  by_cases hc : r.CreatedAt = "" <;> by_cases hu : r.UpdatedAt = "" <;>
    cases hpc : c.parseRFC3339 r.CreatedAt <;> cases hpu : c.parseRFC3339 r.UpdatedAt <;>
    simp [hc, hu, hpc, hpu]

/-- What `observeStatus` of a dashboard leaves. -/
theorem dashboard_observeStatus_fields (c : External) (cr : Dashboard) (r : DashboardData) :
    (dashboard.observeStatus c cr r).forProvider = cr.forProvider ∧
    (dashboard.observeStatus c cr r).annotations = cr.annotations ∧
    (dashboard.observeStatus c cr r).atProvider.ID = r.ID ∧
    (dashboard.observeStatus c cr r).atProvider.UUID = r.UUID ∧
    (dashboard.observeStatus c cr r).atProvider.CreatedAt =
      (if r.CreatedAt = "" then cr.atProvider.CreatedAt
        else (c.parseRFC3339 r.CreatedAt <|> cr.atProvider.CreatedAt)) ∧
    (dashboard.observeStatus c cr r).atProvider.UpdatedAt =
      (if r.UpdatedAt = "" then cr.atProvider.UpdatedAt
        else (c.parseRFC3339 r.UpdatedAt <|> cr.atProvider.UpdatedAt)) := by
  unfold dashboard.observeStatus
  by_cases hc : r.CreatedAt = "" <;> by_cases hu : r.UpdatedAt = "" <;>
    cases hpc : c.parseRFC3339 r.CreatedAt <;> cases hpu : c.parseRFC3339 r.UpdatedAt <;>
    simp [hc, hu, hpc, hpu]

/-- What `observeStatus` of a channel leaves. -/
theorem channel_observeStatus_fields (c : External) (cr : NotificationChannel)
    (r : ChannelData) :
    (channel.observeStatus c cr r).forProvider = cr.forProvider ∧
    (channel.observeStatus c cr r).annotations = cr.annotations ∧
    (channel.observeStatus c cr r).atProvider.ID = r.ID ∧
    (channel.observeStatus c cr r).atProvider.CreatedAt =
      (if r.CreatedAt = "" then cr.atProvider.CreatedAt
        else (c.parseRFC3339 r.CreatedAt <|> cr.atProvider.CreatedAt)) ∧
    (channel.observeStatus c cr r).atProvider.UpdatedAt =
      (if r.UpdatedAt = "" then cr.atProvider.UpdatedAt
        else (c.parseRFC3339 r.UpdatedAt <|> cr.atProvider.UpdatedAt)) := by
  unfold channel.observeStatus
  by_cases hc : r.CreatedAt = "" <;> by_cases hu : r.UpdatedAt = "" <;>
    cases hpc : c.parseRFC3339 r.CreatedAt <;> cases hpu : c.parseRFC3339 r.UpdatedAt <;>
    simp [hc, hu, hpc, hpu]

/-- The outcome of the alert `Observe` once `GetRule` returned the rule `r`: the record is
the one reference resolution leaves from the observed status, and the result is the
resolution error or the verdict of the comparator. -/
theorem alert_Observe_of_get (c : External) (cr : Alert) (r : RuleData)
    (calls : List Request) (hid : cr.annotations.index externalNameKey ≠ "")
    (hget : GetRule c.service (cr.annotations.index externalNameKey) = (.ok (some r), calls)) :
    (alert.Observe c cr).record =
      (alert.resolveChannelReferences c.kube (alert.observeStatus c cr r)).1 ∧
    (alert.Observe c cr).calls = calls ∧
    (alert.Observe c cr).result =
      (match (alert.resolveChannelReferences c.kube cr).2 with
        | some err => .error (wrap err alert.errResolveRefs)
        | none => .ok { ResourceExists := true,
                        ResourceUpToDate := alert.isAlertUpToDate cr.forProvider r }) := by
  have hfp := (alert_observeStatus_fields c cr r).1
  rcases resolveChannelReferences_cases c.kube cr with ⟨err, h, hall⟩ | ⟨ids, h, hall⟩
  · have h2 := hall (alert.observeStatus c cr r) hfp
    simp [alert.Observe, hid, hget, h, h2]
  · have h2 := hall (alert.observeStatus c cr r) hfp
    simp [alert.Observe, hid, hget, h, h2, hfp]

/-- Reference resolution leaves the id, the state and the timestamps of the observed
status of an alert as they are. -/
theorem resolveChannelReferences_observed (kube : Kube) (cr : Alert) :
    (alert.resolveChannelReferences kube cr).1.atProvider.ID = cr.atProvider.ID ∧
    (alert.resolveChannelReferences kube cr).1.atProvider.State = cr.atProvider.State ∧
    (alert.resolveChannelReferences kube cr).1.atProvider.CreatedAt = cr.atProvider.CreatedAt ∧
    (alert.resolveChannelReferences kube cr).1.atProvider.UpdatedAt = cr.atProvider.UpdatedAt := by
  rcases resolveChannelReferences_cases kube cr with ⟨err, h, _⟩ | ⟨ids, h, _⟩ <;>
    rw [h] <;> exact ⟨rfl, rfl, rfl, rfl⟩

/-- The value `observeStatus` computes for a timestamp field follows `timestampRead`. -/
theorem timestampRead_of_eq (parse : String → Option Time) (s : String)
    (prev now : Option Time)
    (h : now = if s = "" then prev else (parse s <|> prev)) :
    timestampRead parse s prev now := by
  subst h
  refine ⟨?_, ?_⟩
  · rintro (hs | hp)
    · simp [hs]
    · by_cases hs : s = "" <;> simp [hs, hp]
  · intro t hs hp
    simp [hs, hp]

/-- C27: for a record with a non-empty external identifier whose remote `Get` returns the
resource `r` (and, for an alert, whose reference resolution succeeds), `Observe` returns
`ResourceExists = true` and `ResourceUpToDate` equal to the drift comparator of the kind
applied to the parameters of the record and `r`, so that an update is due exactly when
the comparator reports a mismatch; the observed status holds the id of `r` (and its state
for an alert, its uuid for a dashboard), and the parameters are as before. -/
theorem Observe_existing_resource :
    (∀ (c : External) (cr : Alert) (r : RuleData) (calls : List Request),
      cr.annotations.index externalNameKey ≠ "" →
      GetRule c.service (cr.annotations.index externalNameKey) = (.ok (some r), calls) →
      (alert.resolveChannelReferences c.kube cr).2 = none →
      (alert.Observe c cr).result =
        .ok { ResourceExists := true, ResourceUpToDate := alert.isAlertUpToDate cr.forProvider r } ∧
      (alert.Observe c cr).record.atProvider.ID = r.ID ∧
      (alert.Observe c cr).record.atProvider.State = r.State ∧
      (alert.Observe c cr).record.forProvider = cr.forProvider) ∧
    (∀ (c : External) (cr : Dashboard) (r : DashboardData) (calls : List Request),
      cr.annotations.index externalNameKey ≠ "" →
      GetDashboard c.service (cr.annotations.index externalNameKey) = (.ok (some r), calls) →
      (dashboard.Observe c cr).result =
        .ok { ResourceExists := true, ResourceUpToDate := dashboard.isDashboardUpToDate cr.forProvider r } ∧
      (dashboard.Observe c cr).record.atProvider.ID = r.ID ∧
      (dashboard.Observe c cr).record.atProvider.UUID = r.UUID ∧
      (dashboard.Observe c cr).record.forProvider = cr.forProvider) ∧
    (∀ (c : External) (cr : NotificationChannel) (r : ChannelData) (calls : List Request),
      cr.annotations.index externalNameKey ≠ "" →
      GetChannel c.service (cr.annotations.index externalNameKey) = (.ok (some r), calls) →
      (channel.Observe c cr).result =
        .ok { ResourceExists := true, ResourceUpToDate := channel.isChannelUpToDate cr.forProvider r } ∧
      (channel.Observe c cr).record.atProvider.ID = r.ID ∧
      (channel.Observe c cr).record.forProvider = cr.forProvider) := by
  refine ⟨?_, ?_, ?_⟩
  · intro c cr r calls hid hget hres
    obtain ⟨hrec, _, hresult⟩ := alert_Observe_of_get c cr r calls hid hget
    obtain ⟨hfp, _, hID, hState, _, _⟩ := alert_observeStatus_fields c cr r
    obtain ⟨hID2, hState2, _, _⟩ :=
      resolveChannelReferences_observed c.kube (alert.observeStatus c cr r)
    refine ⟨?_, ?_, ?_, ?_⟩
    · rw [hresult, hres]
    · rw [hrec, hID2, hID]
    · rw [hrec, hState2, hState]
    · rw [hrec, resolveChannelReferences_forProvider, hfp]
  · intro c cr r calls hid hget
    obtain ⟨hfp, _, hID, hUUID, _, _⟩ := dashboard_observeStatus_fields c cr r
    simp [dashboard.Observe, hid, hget, hfp, hID, hUUID]
  · intro c cr r calls hid hget
    obtain ⟨hfp, _, hID, _, _⟩ := channel_observeStatus_fields c cr r
    simp [channel.Observe, hid, hget, hfp, hID]

/-- C27 on records with the external identifier `7` and a remote system that returns the
rule `r-1`, the dashboard `d-1` and the channel `42`. -/
theorem Observe_existing_resource_witness :
    (alert.Observe exampleCreatingExternal exampleAlert7).result =
      .ok { ResourceExists := true,
            ResourceUpToDate := alert.isAlertUpToDate exampleAlert7.forProvider
              { ID := "r-1", AlertName := "High latency" } } ∧
    (alert.Observe exampleCreatingExternal exampleAlert7).record.atProvider.ID = "r-1" ∧
    (dashboard.Observe exampleCreatingExternal exampleDashboard7).result =
      .ok { ResourceExists := true, ResourceUpToDate := true } ∧
    (dashboard.Observe exampleCreatingExternal exampleDashboard7).record.atProvider.ID = "d-1" ∧
    (channel.Observe exampleCreatingExternal exampleChannel7).result =
      .ok { ResourceExists := true, ResourceUpToDate := true } ∧
    (channel.Observe exampleCreatingExternal exampleChannel7).record.atProvider.ID = 42 := by
  obtain ⟨ha, hd, hc⟩ := Observe_existing_resource
  have ha := ha exampleCreatingExternal exampleAlert7
    { ID := "r-1", AlertName := "High latency" } _ (by decide) rfl rfl
  have hd := hd exampleCreatingExternal exampleDashboard7
    { ID := "d-1", Title := "Latency" } _ (by decide) rfl
  have hc := hc exampleCreatingExternal exampleChannel7
    { ID := 42, Name := "ops", Type_ := "slack" } _ (by decide) rfl
  exact ⟨ha.1, ha.2.1, hd.1, hd.2.1, hc.1, hc.2.1⟩

/-- C28: the result of `Observe` does not depend on the `created_at` and `updated_at`
strings of the resource the remote system returns; each timestamp field of the observed
status keeps its previous value when the string is empty or does not parse as RFC3339 and
is set to the parsed time when it parses. -/
theorem Observe_timestamps :
    (∀ (c c' : External) (cr : Alert) (r : RuleData) (ca ua : String)
        (calls calls' : List Request),
      cr.annotations.index externalNameKey ≠ "" →
      GetRule c.service (cr.annotations.index externalNameKey) = (.ok (some r), calls) →
      GetRule c'.service (cr.annotations.index externalNameKey) =
        (.ok (some { r with CreatedAt := ca, UpdatedAt := ua }), calls') →
      c'.kube = c.kube →
      (alert.Observe c' cr).result = (alert.Observe c cr).result ∧
      timestampRead c.parseRFC3339 r.CreatedAt cr.atProvider.CreatedAt
        (alert.Observe c cr).record.atProvider.CreatedAt ∧
      timestampRead c.parseRFC3339 r.UpdatedAt cr.atProvider.UpdatedAt
        (alert.Observe c cr).record.atProvider.UpdatedAt) ∧
    (∀ (c c' : External) (cr : Dashboard) (r : DashboardData) (ca ua : String)
        (calls calls' : List Request),
      cr.annotations.index externalNameKey ≠ "" →
      GetDashboard c.service (cr.annotations.index externalNameKey) = (.ok (some r), calls) →
      GetDashboard c'.service (cr.annotations.index externalNameKey) =
        (.ok (some { r with CreatedAt := ca, UpdatedAt := ua }), calls') →
      (dashboard.Observe c' cr).result = (dashboard.Observe c cr).result ∧
      timestampRead c.parseRFC3339 r.CreatedAt cr.atProvider.CreatedAt
        (dashboard.Observe c cr).record.atProvider.CreatedAt ∧
      timestampRead c.parseRFC3339 r.UpdatedAt cr.atProvider.UpdatedAt
        (dashboard.Observe c cr).record.atProvider.UpdatedAt) ∧
    (∀ (c c' : External) (cr : NotificationChannel) (r : ChannelData) (ca ua : String)
        (calls calls' : List Request),
      cr.annotations.index externalNameKey ≠ "" →
      GetChannel c.service (cr.annotations.index externalNameKey) = (.ok (some r), calls) →
      GetChannel c'.service (cr.annotations.index externalNameKey) =
        (.ok (some { r with CreatedAt := ca, UpdatedAt := ua }), calls') →
      (channel.Observe c' cr).result = (channel.Observe c cr).result ∧
      timestampRead c.parseRFC3339 r.CreatedAt cr.atProvider.CreatedAt
        (channel.Observe c cr).record.atProvider.CreatedAt ∧
      timestampRead c.parseRFC3339 r.UpdatedAt cr.atProvider.UpdatedAt
        (channel.Observe c cr).record.atProvider.UpdatedAt) := by
  refine ⟨?_, ?_, ?_⟩
  · intro c c' cr r ca ua calls calls' hid hget hget' hkube
    obtain ⟨hrec, _, hresult⟩ := alert_Observe_of_get c cr r calls hid hget
    obtain ⟨_, _, hresult'⟩ := alert_Observe_of_get c' cr _ calls' hid hget'
    obtain ⟨_, _, _, _, hC, hU⟩ := alert_observeStatus_fields c cr r
    obtain ⟨_, _, hC2, hU2⟩ :=
      resolveChannelReferences_observed c.kube (alert.observeStatus c cr r)
    refine ⟨?_, ?_, ?_⟩
    · rw [hresult, hresult', hkube]
      simp [alert.isAlertUpToDate]
    · exact timestampRead_of_eq _ _ _ _ (by rw [hrec, hC2, hC])
    · exact timestampRead_of_eq _ _ _ _ (by rw [hrec, hU2, hU])
  · intro c c' cr r ca ua calls calls' hid hget hget'
    obtain ⟨hfp, _, _, _, hC, hU⟩ := dashboard_observeStatus_fields c cr r
    obtain ⟨hfp', _, _, _, _, _⟩ :=
      dashboard_observeStatus_fields c' cr { r with CreatedAt := ca, UpdatedAt := ua }
    refine ⟨?_, ?_, ?_⟩
    · simp [dashboard.Observe, hid, hget, hget', hfp, hfp', dashboard.isDashboardUpToDate]
    · exact timestampRead_of_eq _ _ _ _ (by simp [dashboard.Observe, hid, hget, hC])
    · exact timestampRead_of_eq _ _ _ _ (by simp [dashboard.Observe, hid, hget, hU])
  · intro c c' cr r ca ua calls calls' hid hget hget'
    obtain ⟨hfp, _, _, hC, hU⟩ := channel_observeStatus_fields c cr r
    obtain ⟨hfp', _, _, _, _⟩ :=
      channel_observeStatus_fields c' cr { r with CreatedAt := ca, UpdatedAt := ua }
    refine ⟨?_, ?_, ?_⟩
    · simp [channel.Observe, hid, hget, hget', hfp, hfp', channel.isChannelUpToDate]
    · exact timestampRead_of_eq _ _ _ _ (by simp [channel.Observe, hid, hget, hC])
    · exact timestampRead_of_eq _ _ _ _ (by simp [channel.Observe, hid, hget, hU])

end Observing

/-! ## Theorems: the condition payload and the symmetry of the label comparison -/

section ConditionPayload

open alert

set_option maxRecDepth 10000

/-- C29: `convertCondition c` holds `compositeQuery`, the map of the composite query, whose
`queryType` is that of the input; `compareOp` exactly when the input's is non-empty,
`target` and `matchType` exactly when they are set, each with the input value; and the
`promQL` and `clickHouse` lists of the composite query are present exactly when the input
lists are non-empty, with one entry per input query in the input order. The condition of
`TestConvertCondition` gives `VALUE`, `1.0`, `1` and query type `1`. -/
theorem convertCondition_contents (c : RuleCondition) :
    (convertCondition c).find? "compositeQuery" =
      some (.obj (convertCompositeQuery c.CompositeQuery)) ∧
    (convertCompositeQuery c.CompositeQuery).find? "queryType" =
      some (.int c.CompositeQuery.QueryType) ∧
    (convertCondition c).find? "compareOp" =
      (if c.CompareOp = "" then none else some (.str c.CompareOp)) ∧
    (convertCondition c).find? "target" = c.Target.map Value.float ∧
    (convertCondition c).find? "matchType" = c.MatchType.map Value.int ∧
    (convertCompositeQuery c.CompositeQuery).find? "promQL" =
      (if c.CompositeQuery.PromQL.length > 0 then
        some (.list (c.CompositeQuery.PromQL.map fun pq =>
          .obj [("query", .str pq.Query), ("name", .str pq.Name), ("legend", .str pq.Legend),
            ("disabled", .bool pq.Disabled)]))
      else none) ∧
    (convertCompositeQuery c.CompositeQuery).find? "clickHouse" =
      (if c.CompositeQuery.ClickHouse.length > 0 then
        some (.list (c.CompositeQuery.ClickHouse.map fun chq =>
          .obj [("query", .str chq.Query), ("name", .str chq.Name), ("legend", .str chq.Legend),
            ("disabled", .bool chq.Disabled)]))
      else none) ∧
    (∀ l, (convertCompositeQuery c.CompositeQuery).find? "promQL" = some (.list l) →
      l.length = c.CompositeQuery.PromQL.length) ∧
    (∀ l, (convertCompositeQuery c.CompositeQuery).find? "clickHouse" = some (.list l) →
      l.length = c.CompositeQuery.ClickHouse.length) ∧
    (convertCondition exampleCondition).find? "compareOp" = some (.str "VALUE") ∧
    (convertCondition exampleCondition).find? "target" =
      some (.float { bits := 4607182418800017408 }) ∧
    (convertCondition exampleCondition).find? "matchType" = some (.int 1) ∧
    (convertCompositeQuery exampleCondition.CompositeQuery).find? "queryType" =
      some (.int 1) := by
  have hprom : (convertCompositeQuery c.CompositeQuery).find? "promQL" =
      (if c.CompositeQuery.PromQL.length > 0 then
        some (.list (c.CompositeQuery.PromQL.map fun pq =>
          .obj [("query", .str pq.Query), ("name", .str pq.Name), ("legend", .str pq.Legend),
            ("disabled", .bool pq.Disabled)]))
      else none) := by
    rcases hp : c.CompositeQuery.PromQL with _ | ⟨p, ps⟩ <;>
      rcases hc : c.CompositeQuery.ClickHouse with _ | ⟨q, qs⟩ <;>
      rcases hb : c.CompositeQuery.Builder with _ | b <;>
      by_cases he : c.CompositeQuery.Expression = "" <;>
      simp [convertCompositeQuery, hp, hc, hb, he, Obj.find?_set] <;>
      simp [Obj.find?, List.lookup]
  have hclick : (convertCompositeQuery c.CompositeQuery).find? "clickHouse" =
      (if c.CompositeQuery.ClickHouse.length > 0 then
        some (.list (c.CompositeQuery.ClickHouse.map fun chq =>
          .obj [("query", .str chq.Query), ("name", .str chq.Name), ("legend", .str chq.Legend),
            ("disabled", .bool chq.Disabled)]))
      else none) := by
    rcases hp : c.CompositeQuery.PromQL with _ | ⟨p, ps⟩ <;>
      rcases hc : c.CompositeQuery.ClickHouse with _ | ⟨q, qs⟩ <;>
      rcases hb : c.CompositeQuery.Builder with _ | b <;>
      by_cases he : c.CompositeQuery.Expression = "" <;>
      simp [convertCompositeQuery, hp, hc, hb, he, Obj.find?_set] <;>
      simp [Obj.find?, List.lookup]
  refine ⟨?_, ?_, ?_, ?_, ?_, hprom, hclick, ?_, ?_, rfl, rfl, rfl, rfl⟩
  · rcases ht : c.Target with _ | t <;> rcases hm : c.MatchType with _ | m <;>
      by_cases ho : c.CompareOp = "" <;>
      simp [convertCondition, ht, hm, ho, Obj.find?_set] <;>
      simp [Obj.find?, List.lookup]
  · rcases hp : c.CompositeQuery.PromQL with _ | ⟨p, ps⟩ <;>
      rcases hc : c.CompositeQuery.ClickHouse with _ | ⟨q, qs⟩ <;>
      rcases hb : c.CompositeQuery.Builder with _ | b <;>
      by_cases he : c.CompositeQuery.Expression = "" <;>
      simp [convertCompositeQuery, hp, hc, hb, he, Obj.find?_set] <;>
      simp [Obj.find?, List.lookup]
  · rcases ht : c.Target with _ | t <;> rcases hm : c.MatchType with _ | m <;>
      by_cases ho : c.CompareOp = "" <;>
      simp [convertCondition, ht, hm, ho, Obj.find?_set] <;>
      simp [Obj.find?, List.lookup, ho]
  · rcases ht : c.Target with _ | t <;> rcases hm : c.MatchType with _ | m <;>
      by_cases ho : c.CompareOp = "" <;>
      simp [convertCondition, ht, hm, ho, Obj.find?_set] <;>
      simp [Obj.find?, List.lookup]
  · rcases ht : c.Target with _ | t <;> rcases hm : c.MatchType with _ | m <;>
      by_cases ho : c.CompareOp = "" <;>
      simp [convertCondition, ht, hm, ho, Obj.find?_set] <;>
      simp [Obj.find?, List.lookup]
  · intro l hl
    rw [hprom] at hl
    by_cases hp : c.CompositeQuery.PromQL.length > 0
    · simp only [hp, if_true, Option.some.injEq, Value.list.injEq] at hl
      rw [← hl, List.length_map]
    · simp [hp] at hl
  · intro l hl
    rw [hclick] at hl
    by_cases hp : c.CompositeQuery.ClickHouse.length > 0
    · simp only [hp, if_true, Option.some.injEq, Value.list.injEq] at hl
      rw [← hl, List.length_map]
    · simp [hp] at hl

/-- C30, at the failing input: `mapsEqual` is not symmetric. With `{"x": ""}` as the desired
labels and `{"y": "z"}` as the observed ones it answers true, and with the two sides
exchanged false; the verdict of `isAlertUpToDate` changes with it. -/
theorem mapsEqual_not_symmetric :
    mapsEqual exampleLabelsEmptyValue exampleLabelsOther ≠
      mapsEqual exampleLabelsOther exampleLabelsEmptyValue ∧
    isAlertUpToDate { Labels := exampleLabelsEmptyValue } { Labels := exampleLabelsOther } =
      true ∧
    isAlertUpToDate { Labels := exampleLabelsOther } { Labels := exampleLabelsEmptyValue } =
      false := by
  decide

end ConditionPayload

end Signoz
